import Mathlib

/-!
# VulkanTriangle: a shallow embedding of `src/main.cpp`

The program is one class, `VulkanProgram`, whose `run` method performs a
fixed sequence of set-up steps, a frame loop and a tear-down.  This file
embeds the parts of it that the specification talks about:

* the two capability checks `checkEnabledExtensionsSupported` and
  `enabledLayersSupported` (pure functions over lists of names),
* the queue-family selection loop of `createDevice`,
* the extent selection of `createSwapchain`,
* the whole `run` method as a function from the answers of the platform
  (window system, loader, driver) to a trace of the calls it issues.

Names are C strings; a name is modelled by its content as a `String`.
Unsigned 32-bit quantities are natural numbers below `2 ^ 32`.
-/

namespace VulkanTriangle

/-! ## Capability negotiation -/

/-- C library `strcmp` on the contents of two strings, character by
character: the sign of the first difference, a proper initial segment
comparing smaller.  Only the sign of a non-zero result is specified by the
C standard. -/
def strcmpChars : List Char → List Char → Int
  | [], [] => 0
  | [], _ :: _ => -1
  | _ :: _, [] => 1
  | a :: as, b :: bs =>
      if a = b then strcmpChars as bs else if a.toNat < b.toNat then -1 else 1

/-- C library `strcmp`. -/
def strcmp (a b : String) : Int :=
  strcmpChars a.data b.data

/-- The part of `VkExtensionProperties` that the program reads. -/
structure VkExtensionProperties where
  extensionName : String
  specVersion : Nat := 0
  deriving DecidableEq, Repr

/-- The part of `VkLayerProperties` that the program reads. -/
structure VkLayerProperties where
  layerName : String
  deriving DecidableEq, Repr

/-- Inner loop of `checkEnabledExtensionsSupported` (main.cpp:1164-1170):
runs over all supported extensions, setting the flag on every match. -/
def extensionInnerLoop (enabledExtension : String) :
    List VkExtensionProperties → Bool → Bool
  | [], currExtensionSupported => currExtensionSupported
  | supportedExtension :: rest, currExtensionSupported =>
      extensionInnerLoop enabledExtension rest
        (if strcmp supportedExtension.extensionName enabledExtension = 0 then true
         else currExtensionSupported)

/-- Outer loop of `checkEnabledExtensionsSupported` (main.cpp:1162-1181).
The flag is threaded through the iterations: the source never assigns
`false` to it inside the loop. -/
def extensionOuterLoop (supportedExtensions : List VkExtensionProperties) :
    List String → Bool → Bool
  | [], _ => true
  | enabledExtension :: rest, currExtensionSupported =>
      let flag := extensionInnerLoop enabledExtension supportedExtensions currExtensionSupported
      if !flag then false
      else extensionOuterLoop supportedExtensions rest flag

/-- Function `checkEnabledExtensionsSupported` (main.cpp:1157-1182):
`bool currExtensionSupported = false;` once, then the two nested loops. -/
def checkEnabledExtensionsSupported (supportedExtensions : List VkExtensionProperties)
    (enabledExtensions : List String) : Bool :=
  extensionOuterLoop supportedExtensions enabledExtensions false

/-- Inner loop of `enabledLayersSupported` (main.cpp:1197-1203). -/
def layerInnerLoop (enabledLayer : String) : List VkLayerProperties → Bool → Bool
  | [], currLayerSupported => currLayerSupported
  | supportedLayer :: rest, currLayerSupported =>
      layerInnerLoop enabledLayer rest
        (if strcmp enabledLayer supportedLayer.layerName = 0 then true
         else currLayerSupported)

/-- Function `enabledLayersSupported` (main.cpp:1187-1215): for each requested layer
the flag is first reset to `false` (line 1194), then the inner loop runs,
then the function returns `false` at once when the flag is still unset. -/
def enabledLayersSupported (supportedLayers : List VkLayerProperties) :
    List String → Bool
  | [] => true
  | enabledLayer :: rest =>
      let currLayerSupported := layerInnerLoop enabledLayer supportedLayers false
      if !currLayerSupported then false
      else enabledLayersSupported supportedLayers rest

/-! ## Machine constants -/

/-- Largest value of a `uint32_t`. -/
def UINT32_MAX : Nat := 2 ^ 32 - 1

/-- Largest value of a `uint64_t`. -/
def UINT64_MAX : Nat := 2 ^ 64 - 1

/-- Vulkan boolean `VK_TRUE`. -/
def VK_TRUE : Nat := 1

/-- Vulkan boolean `VK_FALSE`. -/
def VK_FALSE : Nat := 0

/-- Queue capability bit `VK_QUEUE_GRAPHICS_BIT`. -/
def VK_QUEUE_GRAPHICS_BIT : Nat := 1

/-! ## Queue-family selection (`createDevice`, main.cpp:609-635) -/

/-- The part of `VkQueueFamilyProperties` that the program reads. -/
structure VkQueueFamilyProperties where
  queueFlags : Nat
  queueCount : Nat := 1
  deriving DecidableEq, Repr

/-- The three locals of `createDevice` that the selection loop writes. -/
structure QueueSelection where
  graphicsQueueFamilyIndex : Nat
  presentationSupport : Nat
  foundQueue : Bool
  deriving DecidableEq, Repr

/-- The selection loop (main.cpp:614-628).  The list argument is the part
of `queueFamilyPropertiesList` from `queueFamilyIndex` on; `surfaceSupport`
is what `vkGetPhysicalDeviceSurfaceSupportKHR` writes into
`presentationSupport` for a family index.  The counter is a `uint32_t`. -/
def queueFamilyLoop (surfaceSupport : Nat → Nat) :
    List VkQueueFamilyProperties → Nat → QueueSelection → QueueSelection
  | [], _, s => s
  | family :: rest, queueFamilyIndex, s =>
      let presentationSupport := surfaceSupport queueFamilyIndex
      if family.queueFlags &&& VK_QUEUE_GRAPHICS_BIT ≠ 0 ∧ presentationSupport = VK_TRUE then
        { graphicsQueueFamilyIndex := queueFamilyIndex,
          presentationSupport := presentationSupport,
          foundQueue := true }
      else
        queueFamilyLoop surfaceSupport rest ((queueFamilyIndex + 1) % 2 ^ 32)
          { s with presentationSupport := presentationSupport }

/-- Lines 609-635 of `createDevice`: the locals are initialised
(`graphicsQueueFamilyIndex = -1` as a `uint32_t`), the loop runs, and when
`foundQueue` is still false the program calls `exit(-1)` (result `none`);
otherwise the index is what gets stored in
`vulkanProgramInfo.graphicsQueueFamilyIndex`. -/
def selectQueueFamily (queueFamilyPropertiesList : List VkQueueFamilyProperties)
    (surfaceSupport : Nat → Nat) : Option Nat :=
  let s := queueFamilyLoop surfaceSupport queueFamilyPropertiesList 0
    { graphicsQueueFamilyIndex := UINT32_MAX, presentationSupport := VK_FALSE,
      foundQueue := false }
  if !s.foundQueue then none else some s.graphicsQueueFamilyIndex

/-! ## Extent selection (`createSwapchain`, main.cpp:326-352) -/

/-- Vulkan `VkExtent2D`. -/
structure VkExtent2D where
  width : Nat
  height : Nat
  deriving DecidableEq, Repr

/-- The part of `VkSurfaceCapabilitiesKHR` that the program reads. -/
structure VkSurfaceCapabilitiesKHR where
  minImageCount : Nat
  currentExtent : VkExtent2D
  minImageExtent : VkExtent2D
  maxImageExtent : VkExtent2D
  currentTransform : Nat := 1
  deriving DecidableEq, Repr

/-- The local `swapchainExtent` of `createSwapchain` as computed by lines
327-348: the default 1600 x 1000 passed through `std::max (min, std::min
(max, default))` when the current width is `UINT32_MAX`, the current
extent otherwise. -/
def chooseSwapchainExtent (surfaceCapabilities : VkSurfaceCapabilitiesKHR) : VkExtent2D :=
  if surfaceCapabilities.currentExtent.width = UINT32_MAX then
    let e0 : VkExtent2D := { width := 1600, height := 1000 }
    let e1 : VkExtent2D :=
      { e0 with width := max surfaceCapabilities.minImageExtent.width
                          (min surfaceCapabilities.maxImageExtent.width e0.width) }
    { e1 with height := max surfaceCapabilities.minImageExtent.height
                          (min surfaceCapabilities.maxImageExtent.height e1.height) }
  else
    surfaceCapabilities.currentExtent

/-- Family `i` of the list is suitable: it exists, its flags include the
graphics bit (bit 0 of `queueFlags`), and the surface-support query for
index `i` answered `VK_TRUE`. -/
def suitableFamily (queueFamilyPropertiesList : List VkQueueFamilyProperties)
    (surfaceSupport : Nat → Nat) (i : Nat) : Prop :=
  ∃ family, queueFamilyPropertiesList[i]? = some family
    ∧ family.queueFlags.testBit 0 = true ∧ surfaceSupport i = VK_TRUE

/-! ## Handles and result codes -/

/-- Vulkan `VkResult`; only `VK_SUCCESS` is distinguished by the program. -/
abbrev VkResult := Int

/-- Result code `VK_SUCCESS`. -/
def VK_SUCCESS : VkResult := 0

/-- Result code `VK_ERROR_EXTENSION_NOT_PRESENT`. -/
def VK_ERROR_EXTENSION_NOT_PRESENT : VkResult := -7

/-- Handles, symbolically: a handle is identified by the creation call (or
enumeration slot) that produced it, so two different objects never share
a handle.  `null` is `VK_NULL_HANDLE` / `nullptr`, the initial value of
every handle field of `VulkanProgramInfo`. -/
inductive Handle
  | null
  | window
  | vulkanInstance
  | debugMessenger
  | vulkanSurface
  | physicalDevice (i : Nat)
  | GPUDevice
  | vulkanSwapchain
  | swapchainImage (i : Nat)
  | imageView (i : Nat)
  | renderPass
  | shaderModule (file : String)
  | pipelineLayout
  | graphicsPipeline
  | framebuffer (i : Nat)
  | cmdPool
  | cmdBuffer (i : Nat)
  | imageAvailableSemaphore
  | renderFinishedSemaphore
  | queue (family : Nat) (index : Nat)
  deriving DecidableEq, Repr

/-- Vulkan `VkSurfaceFormatKHR`. -/
structure VkSurfaceFormatKHR where
  format : Nat
  colorSpace : Nat
  deriving DecidableEq, Repr

/-- The fields of `VkSwapchainCreateInfoKHR` that `createSwapchain` fills. -/
structure VkSwapchainCreateInfoKHR where
  surface : Handle
  minImageCount : Nat
  imageFormat : Nat
  imageColorSpace : Nat
  imageExtent : VkExtent2D
  imageArrayLayers : Nat
  imageUsage : Nat
  imageSharingMode : Nat
  preTransform : Nat
  compositeAlpha : Nat
  presentMode : Nat
  clipped : Nat
  oldSwapchain : Handle
  deriving DecidableEq, Repr

/-- The fields of `VkFramebufferCreateInfo` that `createFramebuffer` fills. -/
structure VkFramebufferCreateInfo where
  renderPass : Handle
  attachments : List Handle
  width : Nat
  height : Nat
  layers : Nat
  deriving DecidableEq, Repr

/-- The fields of `VkRenderPassBeginInfo` that `createCmdPool` fills; the
clear colour is the four components of `clearColor`. -/
structure VkRenderPassBeginInfo where
  renderPass : Handle
  framebuffer : Handle
  renderAreaOffset : Int × Int
  renderAreaExtent : VkExtent2D
  clearValues : List (Nat × Nat × Nat × Nat)
  deriving DecidableEq, Repr

/-- The fields of `VkSubmitInfo` that `drawFrame` fills. -/
structure VkSubmitInfo where
  waitSemaphores : List Handle
  waitDstStageMask : List Nat
  commandBuffers : List Handle
  signalSemaphores : List Handle
  deriving DecidableEq, Repr

/-- The fields of `VkPresentInfoKHR` that `drawFrame` fills. -/
structure VkPresentInfoKHR where
  waitSemaphores : List Handle
  swapchains : List Handle
  imageIndices : List Nat
  deriving DecidableEq, Repr

/-- Image usage `VK_IMAGE_USAGE_COLOR_ATTACHMENT_BIT`. -/
def VK_IMAGE_USAGE_COLOR_ATTACHMENT_BIT : Nat := 0x10

/-- Sharing mode `VK_SHARING_MODE_EXCLUSIVE`. -/
def VK_SHARING_MODE_EXCLUSIVE : Nat := 0

/-- Composite alpha `VK_COMPOSITE_ALPHA_OPAQUE_BIT_KHR`. -/
def VK_COMPOSITE_ALPHA_OPAQUE_BIT_KHR : Nat := 1

/-- Present mode `VK_PRESENT_MODE_FIFO_KHR`. -/
def VK_PRESENT_MODE_FIFO_KHR : Nat := 2

/-- Pipeline stage `VK_PIPELINE_STAGE_COLOR_ATTACHMENT_OUTPUT_BIT`. -/
def VK_PIPELINE_STAGE_COLOR_ATTACHMENT_OUTPUT_BIT : Nat := 0x400

/-- Bind point `VK_PIPELINE_BIND_POINT_GRAPHICS`. -/
def VK_PIPELINE_BIND_POINT_GRAPHICS : Nat := 0

/-- Severity mask of the messenger: error and warning bits. -/
def messengerSeverity : Nat := 0x1000 ||| 0x100

/-- Message-type mask of the messenger: general, validation, performance. -/
def messengerType : Nat := 0x1 ||| 0x2 ||| 0x4

/-- Extension name `VK_KHR_SWAPCHAIN_EXTENSION_NAME`. -/
def VK_KHR_SWAPCHAIN_EXTENSION_NAME : String := "VK_KHR_swapchain"

/-- The two output streams the program writes to. -/
inductive Stream
  | cout
  | cerr
  deriving DecidableEq, Repr

/-! ## The trace of calls

The run of the program is observed through the calls it issues to the
window system, the loader and the driver that create, destroy, record,
submit or present something, together with what it prints and how it
terminates.  Pure queries (enumerations, capability and property reads,
window hints) are inputs of the model and do not appear in the trace.
Every call that returns a `VkResult` carries the result it returned. -/

set_option maxHeartbeats 4000000 in
/-- One observable call.  The first handle of a Vulkan call is the parent
object (instance or device) it is issued on. -/
inductive Call
  | glfwInit (ok : Bool)
  | glfwCreateWindow (width height : Nat) (result : Handle)
  | vkCreateInstance (enabledLayers enabledExtensions : List String) (r : VkResult)
  | vkCreateDebugUtilsMessengerEXT (inst : Handle) (severity messageType : Nat) (r : VkResult)
  | glfwCreateWindowSurface (inst win : Handle) (r : VkResult)
  | vkCreateDevice (physicalDevice : Handle) (queueFamilyIndex queueCount : Nat)
      (enabledExtensions : List String) (r : VkResult)
  | vkCreateSwapchainKHR (device : Handle) (info : VkSwapchainCreateInfoKHR) (r : VkResult)
  | vkCreateImageView (device image : Handle) (format : Nat) (out : Handle) (r : VkResult)
  | vkCreateRenderPass (device : Handle) (format : Nat) (r : VkResult)
  | vkCreateShaderModule (device : Handle) (code : List Nat) (out : Handle) (r : VkResult)
  | vkCreatePipelineLayout (device : Handle) (r : VkResult)
  | vkCreateGraphicsPipelines (device : Handle) (stages : List Handle)
      (layout pass : Handle) (viewportExtent : VkExtent2D) (r : VkResult)
  | vkDestroyShaderModule (device shaderModule : Handle)
  | vkCreateFramebuffer (device : Handle) (info : VkFramebufferCreateInfo) (out : Handle)
      (r : VkResult)
  | vkCreateCommandPool (device : Handle) (queueFamilyIndex : Nat) (r : VkResult)
  | vkAllocateCommandBuffers (device commandPool : Handle) (count : Nat) (r : VkResult)
  | vkBeginCommandBuffer (cmdBuffer : Handle) (r : VkResult)
  | vkCmdBeginRenderPass (cmdBuffer : Handle) (info : VkRenderPassBeginInfo)
  | vkCmdBindPipeline (cmdBuffer : Handle) (bindPoint : Nat) (pipeline : Handle)
  | vkCmdDraw (cmdBuffer : Handle) (vertexCount instanceCount firstVertex firstInstance : Nat)
  | vkCmdEndRenderPass (cmdBuffer : Handle)
  | vkEndCommandBuffer (cmdBuffer : Handle) (r : VkResult)
  | vkCreateSemaphore (device out : Handle) (r : VkResult)
  | glfwPollEvents
  | vkAcquireNextImageKHR (device swapchain : Handle) (timeout : Nat)
      (semaphore fence : Handle) (r : VkResult) (imageIndex : Nat)
  | vkGetDeviceQueue (device : Handle) (queueFamilyIndex queueIndex : Nat)
  | vkQueueSubmit (queue : Handle) (submits : List VkSubmitInfo) (fence : Handle) (r : VkResult)
  | vkQueuePresentKHR (queue : Handle) (info : VkPresentInfoKHR) (r : VkResult)
  | vkQueueWaitIdle (queue : Handle)
  | vkDeviceWaitIdle (device : Handle)
  | vkDestroySemaphore (device semaphore : Handle)
  | vkDestroyFramebuffer (device framebuffer : Handle)
  | vkDestroyImageView (device imageView : Handle)
  | vkDestroySwapchainKHR (device swapchain : Handle)
  | vkDestroyCommandPool (device commandPool : Handle)
  | vkDestroyPipeline (device pipeline : Handle)
  | vkDestroyPipelineLayout (device layout : Handle)
  | vkDestroyRenderPass (device pass : Handle)
  | vkDestroyDevice (device : Handle)
  | vkDestroyDebugUtilsMessengerEXT (inst messenger : Handle)
  | vkDestroySurfaceKHR (inst surface : Handle)
  | vkDestroyInstance (inst : Handle)
  | glfwDestroyWindow (win : Handle)
  | glfwTerminate
  | print (stream : Stream) (line : String)
  | throwRuntimeError (what : String)
  | exit (status : Int)
  deriving DecidableEq, Repr

/-- The object a call brings into existence, if any: the creation calls
that returned success (for the window: a non-null pointer). -/
def Call.created : Call → Option Handle
  | .glfwCreateWindow _ _ result => if result = .null then none else some result
  | .vkCreateInstance _ _ r => if r = VK_SUCCESS then some .vulkanInstance else none
  | .vkCreateDebugUtilsMessengerEXT _ _ _ r =>
      if r = VK_SUCCESS then some .debugMessenger else none
  | .glfwCreateWindowSurface _ _ r => if r = VK_SUCCESS then some .vulkanSurface else none
  | .vkCreateDevice _ _ _ _ r => if r = VK_SUCCESS then some .GPUDevice else none
  | .vkCreateSwapchainKHR _ _ r => if r = VK_SUCCESS then some .vulkanSwapchain else none
  | .vkCreateImageView _ _ _ out r => if r = VK_SUCCESS then some out else none
  | .vkCreateRenderPass _ _ r => if r = VK_SUCCESS then some .renderPass else none
  | .vkCreateShaderModule _ _ out r => if r = VK_SUCCESS then some out else none
  | .vkCreatePipelineLayout _ r => if r = VK_SUCCESS then some .pipelineLayout else none
  | .vkCreateGraphicsPipelines _ _ _ _ _ r =>
      if r = VK_SUCCESS then some .graphicsPipeline else none
  | .vkCreateFramebuffer _ _ out r => if r = VK_SUCCESS then some out else none
  | .vkCreateCommandPool _ _ r => if r = VK_SUCCESS then some .cmdPool else none
  | .vkCreateSemaphore _ out r => if r = VK_SUCCESS then some out else none
  | _ => none

/-- The object a call destroys, if any. -/
def Call.destroyed : Call → Option Handle
  | .vkDestroyShaderModule _ h => some h
  | .vkDestroySemaphore _ h => some h
  | .vkDestroyFramebuffer _ h => some h
  | .vkDestroyImageView _ h => some h
  | .vkDestroySwapchainKHR _ h => some h
  | .vkDestroyCommandPool _ h => some h
  | .vkDestroyPipeline _ h => some h
  | .vkDestroyPipelineLayout _ h => some h
  | .vkDestroyRenderPass _ h => some h
  | .vkDestroyDevice h => some h
  | .vkDestroyDebugUtilsMessengerEXT _ h => some h
  | .vkDestroySurfaceKHR _ h => some h
  | .vkDestroyInstance h => some h
  | .glfwDestroyWindow h => some h
  | _ => none

/-- The objects created along a trace, in the order of their creation. -/
def createdObjects (trace : List Call) : List Handle :=
  trace.filterMap Call.created

/-- The objects destroyed along a trace, in the order of their
destruction. -/
def destroyedObjects (trace : List Call) : List Handle :=
  trace.filterMap Call.destroyed

/-! ## The platform and the program state -/

/-- Everything the program receives from outside: the answer of each call
to the window system, the loader, the driver and the file system.  Answers
of calls issued once per index or per frame are functions of that number.
`framesBeforeClose` is the number of times `glfwWindowShouldClose` answers
false before it first answers true.  The fields from `queueFamilies` to
`surfaceCapabilities` are the answers about physical device 0, the only
one the program asks about. -/
structure Platform where
  glfwInit : Bool
  glfwCreateWindow : Bool
  glfwRequiredInstanceExtensions : List String
  supportedLayers : List VkLayerProperties
  instanceExtensionCountResult : VkResult
  instanceExtensionListResult : VkResult
  instanceExtensions : List VkExtensionProperties
  vkCreateInstance : VkResult
  vkGetInstanceProcAddr : String → Bool
  vkCreateDebugUtilsMessengerEXT : VkResult
  glfwCreateWindowSurface : VkResult
  physicalDeviceCountResult : VkResult
  physicalDeviceListResult : VkResult
  physicalDeviceCount : Nat
  queueFamilies : List VkQueueFamilyProperties
  surfaceSupport : Nat → Nat
  deviceExtensionListResult : VkResult
  deviceExtensions : List VkExtensionProperties
  vkCreateDevice : VkResult
  surfaceFormats : List VkSurfaceFormatKHR
  surfaceCapabilitiesResult : VkResult
  surfaceCapabilities : VkSurfaceCapabilitiesKHR
  vkCreateSwapchainKHR : VkResult
  swapchainImageCountResult : VkResult
  swapchainImageCount : Nat
  swapchainImageListResult : VkResult
  vkCreateImageView : Nat → VkResult
  vkCreateRenderPass : VkResult
  readFile : String → Option (List Nat)
  vkCreateShaderModule : String → VkResult
  vkCreatePipelineLayout : VkResult
  vkCreateGraphicsPipelines : VkResult
  vkCreateFramebuffer : Nat → VkResult
  vkCreateCommandPool : VkResult
  vkAllocateCommandBuffers : VkResult
  vkBeginCommandBuffer : Nat → VkResult
  vkEndCommandBuffer : Nat → VkResult
  vkCreateSemaphore : Handle → VkResult
  framesBeforeClose : Nat
  vkAcquireNextImageKHR : Nat → VkResult × Nat
  vkQueueSubmit : Nat → VkResult
  vkQueuePresentKHR : Nat → VkResult

/-- The struct `VulkanProgramInfo` (main.cpp:85-149) with its default
member initialisers. -/
structure VulkanProgramInfo where
  vulkanInstance : Handle := .null
  GPUDevice : Handle := .null
  chosenGPU : Handle := .null
  cmdPool : Handle := .null
  cmdBuffers : List Handle := []
  enabledLayers : List String := []
  enabledInstanceExtensions : List String := ["VK_EXT_debug_utils"]
  enabledDeviceExtensions : List String := [VK_KHR_SWAPCHAIN_EXTENSION_NAME]
  debugMessenger : Handle := .null
  graphicsQueueFamilyIndex : Nat := 0
  vulkanSurface : Handle := .null
  vulkanSwapchain : Handle := .null
  vulkanSwapchainFormat : Nat := 0
  swapchainImages : List Handle := []
  swapchainExtent : VkExtent2D := { width := 0, height := 0 }
  imageViews : List Handle := []
  vertShaderModule : Handle := .null
  fragShaderModule : Handle := .null
  renderPass : Handle := .null
  pipelineLayout : Handle := .null
  graphicsPipeline : Handle := .null
  swapchainFramebuffers : List Handle := []
  imageAvailableSemaphore : Handle := .null
  renderFinishedSemaphore : Handle := .null
  presentAndGraphicsQueue : Handle := .null
  deriving DecidableEq, Repr

/-- The object `VulkanProgram` (main.cpp:49-152): its three data members,
and the trace of the calls issued so far. -/
structure VulkanProgram where
  window : Handle := .null
  vulkanProgramInfo : VulkanProgramInfo := {}
  vkResult : VkResult := 0
  trace : List Call := []
  deriving DecidableEq, Repr

/-- The ways a run ends before `run` returns: `exit(-1)`, an exception
nobody catches, or an element access outside a vector (undefined
behaviour). -/
inductive Termination
  | exitFailure
  | uncaughtException
  | outOfBounds
  deriving DecidableEq, Repr

/-- A step of the run: the program state after it, or the way the run
ended together with the state at that point. -/
abbrev Step := Except (Termination × VulkanProgram) VulkanProgram

/-- Append a call to the trace. -/
def emit (c : Call) (p : VulkanProgram) : VulkanProgram :=
  { p with trace := p.trace ++ [c] }

/-- The pattern `std::cout << line << std::endl; exit(-1);`: how the run
ends and the state it ends in. -/
def failure (stream : Stream) (line : String) (p : VulkanProgram) :
    Termination × VulkanProgram :=
  (.exitFailure, emit (.exit (-1)) (emit (.print stream line) p))

/-- The pattern `std::cout << line << std::endl; exit(-1);` as a step. -/
def fail (stream : Stream) (line : String) (p : VulkanProgram) : Step :=
  .error (failure stream line p)

/-- Vector `resize` to `n` elements, new elements being null handles. -/
def resize (v : List Handle) (n : Nat) : List Handle :=
  v.take n ++ List.replicate (n - v.length) .null

/-! ## The set-up steps -/

/-- Method `createGLFWWindow` (main.cpp:156-183). -/
def createGLFWWindow (d : Platform) (p : VulkanProgram) : Step :=
  let p := emit (.glfwInit d.glfwInit) p
  if !d.glfwInit then fail .cout "GLFW window creation failed" p
  else
    let w : Handle := if d.glfwCreateWindow then .window else .null
    let p := emit (.glfwCreateWindow 800 500 w) { p with window := w }
    if p.window = .null then fail .cout "Failed to create window" p
    else
      .ok { p with vulkanProgramInfo.enabledInstanceExtensions :=
              p.vulkanProgramInfo.enabledInstanceExtensions ++ d.glfwRequiredInstanceExtensions }

/-- The free function `createDebugUtilsMessenger` (main.cpp:32-47), called
with `&vulkanProgramInfo.debugMessenger` as its output slot. -/
def createDebugUtilsMessenger (d : Platform) (inst : Handle) (p : VulkanProgram) :
    VkResult × VulkanProgram :=
  if d.vkGetInstanceProcAddr "vkCreateDebugUtilsMessengerEXT" then
    let r := d.vkCreateDebugUtilsMessengerEXT
    let p := emit (.vkCreateDebugUtilsMessengerEXT inst messengerSeverity
      messengerType r) p
    (r, if r = VK_SUCCESS then { p with vulkanProgramInfo.debugMessenger := .debugMessenger }
        else p)
  else
    (VK_ERROR_EXTENSION_NOT_PRESENT,
      emit (.print .cerr "Could not find vkCreateDebugUtilsMessengerEXT") p)

/-- Method `createVulkanInstance` (main.cpp:463-558). -/
def createVulkanInstance (d : Platform) (p : VulkanProgram) : Step :=
  if !enabledLayersSupported d.supportedLayers p.vulkanProgramInfo.enabledLayers then
    fail .cout "Error: some layers are not supported" p
  else if d.instanceExtensionCountResult ≠ VK_SUCCESS then
    fail .cout "Failed to count number of instance extensions" p
  else if d.instanceExtensionListResult ≠ VK_SUCCESS then
    fail .cout "Failed to get a list of instance extensions" p
  else if !checkEnabledExtensionsSupported d.instanceExtensions
      p.vulkanProgramInfo.enabledInstanceExtensions then
    fail .cout "Not all required instance extensions supported" p
  else
    let r := d.vkCreateInstance
    let p := emit (.vkCreateInstance p.vulkanProgramInfo.enabledLayers
      p.vulkanProgramInfo.enabledInstanceExtensions r) p
    if r ≠ VK_SUCCESS then fail .cout "Failed to create vulkan instance" p
    else
      let p := { p with vulkanProgramInfo.vulkanInstance := .vulkanInstance }
      let rp := createDebugUtilsMessenger d p.vulkanProgramInfo.vulkanInstance p
      if rp.1 ≠ VK_SUCCESS then
        .ok (emit (.print .cerr "Failed to create debug utils messenger") rp.2)
      else .ok rp.2

/-- Method `surfaceVulkanAndWindow` (main.cpp:447-458). -/
def surfaceVulkanAndWindow (d : Platform) (p : VulkanProgram) : Step :=
  let r := d.glfwCreateWindowSurface
  let p := emit (.glfwCreateWindowSurface p.vulkanProgramInfo.vulkanInstance p.window r)
    { p with vkResult := r }
  if p.vkResult ≠ VK_SUCCESS then
    fail .cout "failed to create surface between vulkan instance and glfw window" p
  else .ok { p with vulkanProgramInfo.vulkanSurface := .vulkanSurface }

/-- Method `createDevice` (main.cpp:563-697).  `availablePhysicalDevices` has
`physicalDeviceCount` elements; its element 0 is read at line 584.  The
answer of `checkEnabledExtensionsSupported` at line 680 is discarded. -/
def createDevice (d : Platform) (p : VulkanProgram) : Step :=
  let p := { p with vkResult := d.physicalDeviceCountResult }
  if p.vkResult ≠ VK_SUCCESS then fail .cerr "Failed to count physical device number" p
  else
    let availablePhysicalDevices := (List.range d.physicalDeviceCount).map Handle.physicalDevice
    let p := { p with vkResult := d.physicalDeviceListResult }
    match availablePhysicalDevices[0]? with
    | none => .error (.outOfBounds, p)
    | some gpu =>
      if p.vkResult ≠ VK_SUCCESS then fail .cerr "Failed to get a list of physical devices" p
      else
        let p := { p with vulkanProgramInfo.chosenGPU := gpu }
        match selectQueueFamily d.queueFamilies d.surfaceSupport with
        | none => fail .cout "Failed to find queue that satisfy requirements" p
        | some graphicsQueueFamilyIndex =>
          let p := { p with vulkanProgramInfo.graphicsQueueFamilyIndex :=
                              graphicsQueueFamilyIndex }
          let p := { p with vkResult := d.deviceExtensionListResult }
          if p.vkResult ≠ VK_SUCCESS then
            fail .cout "Failed to get a list of device extensions" p
          else
            let _unused := checkEnabledExtensionsSupported d.deviceExtensions
              p.vulkanProgramInfo.enabledDeviceExtensions
            let r := d.vkCreateDevice
            let p := emit (.vkCreateDevice p.vulkanProgramInfo.chosenGPU
              graphicsQueueFamilyIndex 1 p.vulkanProgramInfo.enabledDeviceExtensions r)
              { p with vkResult := r }
            if p.vkResult ≠ VK_SUCCESS then fail .cout "Failed to create gpu device" p
            else .ok { p with vulkanProgramInfo.GPUDevice := .GPUDevice }

/-- The image-view loop of `createSwapchain` (main.cpp:428-441), with
`remaining` iterations to go from index `i` on. -/
def imageViewLoop (d : Platform) (format : Nat) : Nat → Nat → VulkanProgram → Step
  | 0, _, p => .ok p
  | remaining + 1, i, p =>
      let image := p.vulkanProgramInfo.swapchainImages.getD i .null
      let r := d.vkCreateImageView i
      let p := emit (.vkCreateImageView p.vulkanProgramInfo.GPUDevice image format
        (.imageView i) r) { p with vkResult := r }
      if p.vkResult ≠ VK_SUCCESS then
        fail .cout ("Failed to create vulkan image view [" ++ toString i ++ "]") p
      else
        imageViewLoop d format remaining (i + 1)
          { p with vulkanProgramInfo.imageViews :=
                     p.vulkanProgramInfo.imageViews.set i (.imageView i) }

/-- Method `createSwapchain` (main.cpp:283-442).  Element 0 of `surfaceFormats`
is read at line 305.  A successful second `vkGetSwapchainImagesKHR` fills
every element of `swapchainImages`. -/
def createSwapchain (d : Platform) (p : VulkanProgram) : Step :=
  match d.surfaceFormats[0]? with
  | none => .error (.outOfBounds, p)
  | some surfaceFormat =>
    let p := { p with vulkanProgramInfo.vulkanSwapchainFormat := surfaceFormat.format }
    let p := { p with vkResult := d.surfaceCapabilitiesResult }
    if p.vkResult ≠ VK_SUCCESS then fail .cout "Failed to get surface capabilities" p
    else
      let surfaceCapabilities := d.surfaceCapabilities
      let swapchainExtent := chooseSwapchainExtent surfaceCapabilities
      let p := { p with vulkanProgramInfo.swapchainExtent := swapchainExtent }
      let swapchainCreateInfo : VkSwapchainCreateInfoKHR :=
        { surface := p.vulkanProgramInfo.vulkanSurface,
          minImageCount := surfaceCapabilities.minImageCount,
          imageFormat := surfaceFormat.format,
          imageColorSpace := surfaceFormat.colorSpace,
          imageExtent := swapchainExtent,
          imageArrayLayers := 1,
          imageUsage := VK_IMAGE_USAGE_COLOR_ATTACHMENT_BIT,
          imageSharingMode := VK_SHARING_MODE_EXCLUSIVE,
          preTransform := surfaceCapabilities.currentTransform,
          compositeAlpha := VK_COMPOSITE_ALPHA_OPAQUE_BIT_KHR,
          presentMode := VK_PRESENT_MODE_FIFO_KHR,
          clipped := VK_TRUE,
          oldSwapchain := .null }
      let r := d.vkCreateSwapchainKHR
      let p := emit (.vkCreateSwapchainKHR p.vulkanProgramInfo.GPUDevice swapchainCreateInfo r)
        { p with vkResult := r }
      if p.vkResult ≠ VK_SUCCESS then fail .cout "Failed to create swapchain" p
      else
        let p := { p with vulkanProgramInfo.vulkanSwapchain := .vulkanSwapchain }
        let swapchainImageCount := d.swapchainImageCount
        let p := { p with vkResult := d.swapchainImageCountResult }
        if p.vkResult ≠ VK_SUCCESS then
          fail .cout "Failed to count number of swapchain images" p
        else
          let p := { p with vulkanProgramInfo.swapchainImages :=
                              resize p.vulkanProgramInfo.swapchainImages swapchainImageCount }
          let p := { p with vkResult := d.swapchainImageListResult }
          if p.vkResult ≠ VK_SUCCESS then fail .cout "Failed to get swapchain images" p
          else
            let p := { p with vulkanProgramInfo.swapchainImages :=
                                (List.range p.vulkanProgramInfo.swapchainImages.length).map
                                  Handle.swapchainImage }
            let p := { p with vulkanProgramInfo.imageViews :=
                                resize p.vulkanProgramInfo.imageViews
                                  p.vulkanProgramInfo.swapchainImages.length }
            imageViewLoop d swapchainCreateInfo.imageFormat
              p.vulkanProgramInfo.imageViews.length 0 p

/-- Method `createGraphicsPipeline` (main.cpp:942-992): creates the render pass. -/
def createGraphicsPipeline (d : Platform) (p : VulkanProgram) : Step :=
  let r := d.vkCreateRenderPass
  let p := emit (.vkCreateRenderPass p.vulkanProgramInfo.GPUDevice
    p.vulkanProgramInfo.vulkanSwapchainFormat r) { p with vkResult := r }
  if p.vkResult ≠ VK_SUCCESS then fail .cout "Failed to create render pass" p
  else .ok { p with vulkanProgramInfo.renderPass := .renderPass }

/-- Function `readFile` (main.cpp:1120-1139): the content of the file, or
`exit(-1)` when it cannot be opened. -/
def readFile (d : Platform) (filename : String) (p : VulkanProgram) :
    Except (Termination × VulkanProgram) (List Nat) :=
  match d.readFile filename with
  | none => .error (failure .cout "failed to open file!" p)
  | some buffer => .ok buffer

/-- Method `createShaderModule` (main.cpp:1101-1118); `file` tags the handle the
call returns.  A failure throws `std::runtime_error`, which nothing
catches. -/
def createShaderModule (d : Platform) (file : String) (code : List Nat) (p : VulkanProgram) :
    Except (Termination × VulkanProgram) (Handle × VulkanProgram) :=
  let r := d.vkCreateShaderModule file
  let p := emit (.vkCreateShaderModule p.vulkanProgramInfo.GPUDevice code
    (.shaderModule file) r) p
  if r ≠ VK_SUCCESS then
    .error (.uncaughtException, emit (.throwRuntimeError "failed to create shader module!") p)
  else .ok (.shaderModule file, p)

/-- Method `createShaderPipeline` (main.cpp:787-937): reads the two shader
files, creates the two modules, the pipeline layout and the pipeline, and
destroys the two modules again. -/
def createShaderPipeline (d : Platform) (p : VulkanProgram) : Step := do
  let vertShaderCode ← readFile d "../src/vert.spv" p
  let fragShaderCode ← readFile d "../src/frag.spv" p
  let (vert, p) ← createShaderModule d "../src/vert.spv" vertShaderCode p
  let p := { p with vulkanProgramInfo.vertShaderModule := vert }
  let (frag, p) ← createShaderModule d "../src/frag.spv" fragShaderCode p
  let p := { p with vulkanProgramInfo.fragShaderModule := frag }
  let r := d.vkCreatePipelineLayout
  let p := emit (.vkCreatePipelineLayout p.vulkanProgramInfo.GPUDevice r) { p with vkResult := r }
  if p.vkResult ≠ VK_SUCCESS then fail .cout "Failed to create vulkan pipeline" p
  else
    let p := { p with vulkanProgramInfo.pipelineLayout := .pipelineLayout }
    let r := d.vkCreateGraphicsPipelines
    let p := emit (.vkCreateGraphicsPipelines p.vulkanProgramInfo.GPUDevice
      [p.vulkanProgramInfo.vertShaderModule, p.vulkanProgramInfo.fragShaderModule]
      p.vulkanProgramInfo.pipelineLayout p.vulkanProgramInfo.renderPass
      p.vulkanProgramInfo.swapchainExtent r) { p with vkResult := r }
    if p.vkResult ≠ VK_SUCCESS then fail .cout "Failed to create vulkan pipeline" p
    else
      let p := { p with vulkanProgramInfo.graphicsPipeline := .graphicsPipeline }
      let p := emit (.vkDestroyShaderModule p.vulkanProgramInfo.GPUDevice
        p.vulkanProgramInfo.fragShaderModule) p
      let p := emit (.vkDestroyShaderModule p.vulkanProgramInfo.GPUDevice
        p.vulkanProgramInfo.vertShaderModule) p
      .ok p

/-- The loop of `createFramebuffer` (main.cpp:997-1024), with `remaining`
iterations to go from index `i` on. -/
def framebufferLoop (d : Platform) : Nat → Nat → VulkanProgram → Step
  | 0, _, p => .ok p
  | remaining + 1, i, p =>
      let attachment := [p.vulkanProgramInfo.imageViews.getD i .null]
      let framebufferCreatInfo : VkFramebufferCreateInfo :=
        { renderPass := p.vulkanProgramInfo.renderPass,
          attachments := attachment,
          width := p.vulkanProgramInfo.swapchainExtent.width,
          height := p.vulkanProgramInfo.swapchainExtent.height,
          layers := 1 }
      let r := d.vkCreateFramebuffer i
      let p := emit (.vkCreateFramebuffer p.vulkanProgramInfo.GPUDevice framebufferCreatInfo
        (.framebuffer i) r) { p with vkResult := r }
      if p.vkResult ≠ VK_SUCCESS then fail .cout "Failed to create swapchain framebuffer" p
      else
        framebufferLoop d remaining (i + 1)
          { p with vulkanProgramInfo.swapchainFramebuffers :=
                     p.vulkanProgramInfo.swapchainFramebuffers.set i (.framebuffer i) }

/-- Method `createFramebuffer` (main.cpp:994-1025). -/
def createFramebuffer (d : Platform) (p : VulkanProgram) : Step :=
  let p := { p with vulkanProgramInfo.swapchainFramebuffers :=
                      resize p.vulkanProgramInfo.swapchainFramebuffers
                        p.vulkanProgramInfo.imageViews.length }
  framebufferLoop d p.vulkanProgramInfo.imageViews.length 0 p

/-- The recording loop of `createCmdPool` (main.cpp:734-781), with
`remaining` iterations to go from index `i` on. -/
def recordLoop (d : Platform) : Nat → Nat → VulkanProgram → Step
  | 0, _, p => .ok p
  | remaining + 1, i, p =>
      let cmdBuffer := p.vulkanProgramInfo.cmdBuffers.getD i .null
      let r := d.vkBeginCommandBuffer i
      let p := emit (.vkBeginCommandBuffer cmdBuffer r) { p with vkResult := r }
      if p.vkResult ≠ VK_SUCCESS then fail .cout "Failed to begin command buffer" p
      else
        let renderPassBeginInfo : VkRenderPassBeginInfo :=
          { renderPass := p.vulkanProgramInfo.renderPass,
            framebuffer := p.vulkanProgramInfo.swapchainFramebuffers.getD i .null,
            renderAreaOffset := (0, 0),
            renderAreaExtent := p.vulkanProgramInfo.swapchainExtent,
            clearValues := [(0, 0, 0, 1)] }
        let p := emit (.vkCmdBeginRenderPass cmdBuffer renderPassBeginInfo) p
        let p := emit (.vkCmdBindPipeline cmdBuffer VK_PIPELINE_BIND_POINT_GRAPHICS
          p.vulkanProgramInfo.graphicsPipeline) p
        let p := emit (.vkCmdDraw cmdBuffer 3 1 0 0) p
        let p := emit (.vkCmdEndRenderPass cmdBuffer) p
        let r := d.vkEndCommandBuffer i
        let p := emit (.vkEndCommandBuffer cmdBuffer r) { p with vkResult := r }
        if p.vkResult ≠ VK_SUCCESS then fail .cout "Failed to record command buffer" p
        else recordLoop d remaining (i + 1) p

/-- Method `createCmdPool` (main.cpp:702-782).  The result of
`vkAllocateCommandBuffers` is stored but not tested; a successful
allocation fills every element of `cmdBuffers`. -/
def createCmdPool (d : Platform) (p : VulkanProgram) : Step :=
  let r := d.vkCreateCommandPool
  let p := emit (.vkCreateCommandPool p.vulkanProgramInfo.GPUDevice
    p.vulkanProgramInfo.graphicsQueueFamilyIndex r) { p with vkResult := r }
  if p.vkResult ≠ VK_SUCCESS then fail .cout "Failed to create command pool" p
  else
    let p := { p with vulkanProgramInfo.cmdPool := .cmdPool }
    let p := { p with vulkanProgramInfo.cmdBuffers :=
                        resize p.vulkanProgramInfo.cmdBuffers
                          p.vulkanProgramInfo.swapchainFramebuffers.length }
    let r := d.vkAllocateCommandBuffers
    let p := emit (.vkAllocateCommandBuffers p.vulkanProgramInfo.GPUDevice
      p.vulkanProgramInfo.cmdPool
      (p.vulkanProgramInfo.swapchainFramebuffers.length % 2 ^ 32) r) { p with vkResult := r }
    let p := if r = VK_SUCCESS then
        { p with vulkanProgramInfo.cmdBuffers :=
                   (List.range p.vulkanProgramInfo.cmdBuffers.length).map Handle.cmdBuffer }
      else p
    recordLoop d p.vulkanProgramInfo.cmdBuffers.length 0 p

/-- Method `createSemaphores` (main.cpp:198-227). -/
def createSemaphores (d : Platform) (p : VulkanProgram) : Step :=
  let r := d.vkCreateSemaphore .imageAvailableSemaphore
  let p := emit (.vkCreateSemaphore p.vulkanProgramInfo.GPUDevice .imageAvailableSemaphore r)
    { p with vkResult := r }
  if p.vkResult ≠ VK_SUCCESS then fail .cout "Failed to create imageAvailableSemaphore" p
  else
    let p := { p with vulkanProgramInfo.imageAvailableSemaphore := .imageAvailableSemaphore }
    let r := d.vkCreateSemaphore .renderFinishedSemaphore
    let p := emit (.vkCreateSemaphore p.vulkanProgramInfo.GPUDevice .renderFinishedSemaphore r)
      { p with vkResult := r }
    if p.vkResult ≠ VK_SUCCESS then fail .cout "Failed to create renderFinishedSemaphore" p
    else
      .ok { p with vulkanProgramInfo.renderFinishedSemaphore := .renderFinishedSemaphore }

/-! ## The frame loop -/

/-- Method `drawFrame` (main.cpp:229-278) for frame number `frame`.  The element
`cmdBuffers[imageIndex]` is addressed at line 249. -/
def drawFrame (d : Platform) (frame : Nat) (p : VulkanProgram) : Step :=
  let acquired := d.vkAcquireNextImageKHR frame
  let imageIndex := acquired.2
  let p := emit (.vkAcquireNextImageKHR p.vulkanProgramInfo.GPUDevice
    p.vulkanProgramInfo.vulkanSwapchain UINT64_MAX
    p.vulkanProgramInfo.imageAvailableSemaphore .null acquired.1 imageIndex) p
  let waitSemaphores := [p.vulkanProgramInfo.imageAvailableSemaphore]
  let waitStages := [VK_PIPELINE_STAGE_COLOR_ATTACHMENT_OUTPUT_BIT]
  match p.vulkanProgramInfo.cmdBuffers[imageIndex]? with
  | none => .error (.outOfBounds, p)
  | some cmdBuffer =>
    let signalSemaphores := [p.vulkanProgramInfo.renderFinishedSemaphore]
    let submitInfo : VkSubmitInfo :=
      { waitSemaphores := waitSemaphores,
        waitDstStageMask := waitStages,
        commandBuffers := [cmdBuffer],
        signalSemaphores := signalSemaphores }
    let p := emit (.vkGetDeviceQueue p.vulkanProgramInfo.GPUDevice
      p.vulkanProgramInfo.graphicsQueueFamilyIndex 0)
      { p with vulkanProgramInfo.presentAndGraphicsQueue :=
                 .queue p.vulkanProgramInfo.graphicsQueueFamilyIndex 0 }
    let r := d.vkQueueSubmit frame
    let p := emit (.vkQueueSubmit p.vulkanProgramInfo.presentAndGraphicsQueue [submitInfo]
      .null r) { p with vkResult := r }
    let presentInfo : VkPresentInfoKHR :=
      { waitSemaphores := signalSemaphores,
        swapchains := [p.vulkanProgramInfo.vulkanSwapchain],
        imageIndices := [imageIndex] }
    let p := emit (.vkQueuePresentKHR p.vulkanProgramInfo.presentAndGraphicsQueue presentInfo
      (d.vkQueuePresentKHR frame)) p
    .ok (emit (.vkQueueWaitIdle p.vulkanProgramInfo.presentAndGraphicsQueue) p)

/-- The `while` loop of `vulkanProgramLoop` (main.cpp:190-194) with
`remaining` iterations to go before the window reports that it should
close, `frame` being the number of the next frame. -/
def frameLoop (d : Platform) : Nat → Nat → VulkanProgram → Step
  | 0, _, p => .ok p
  | remaining + 1, frame, p =>
      match drawFrame d frame (emit .glfwPollEvents p) with
      | .error e => .error e
      | .ok p => frameLoop d remaining (frame + 1) p

/-- Method `vulkanProgramLoop` (main.cpp:188-196). -/
def vulkanProgramLoop (d : Platform) (p : VulkanProgram) : Step :=
  match frameLoop d d.framesBeforeClose 0 p with
  | .error e => .error e
  | .ok p => .ok (emit (.vkDeviceWaitIdle p.vulkanProgramInfo.GPUDevice) p)

/-! ## Tear-down -/

/-- The free function `destroyDebugUtilsMessenger` (main.cpp:17-30). -/
def destroyDebugUtilsMessenger (d : Platform) (inst messenger : Handle)
    (p : VulkanProgram) : VulkanProgram :=
  if d.vkGetInstanceProcAddr "vkDestroyDebugUtilsMessengerEXT" then
    emit (.vkDestroyDebugUtilsMessengerEXT inst messenger) p
  else
    emit (.print .cerr "Could not find vkDestroyDebugUtilsMessenger") p

/-- Method `cleanup` (main.cpp:1029-1090). -/
def cleanup (d : Platform) (p : VulkanProgram) : VulkanProgram :=
  let info := p.vulkanProgramInfo
  let p := emit (.vkDestroySemaphore info.GPUDevice info.imageAvailableSemaphore) p
  let p := emit (.vkDestroySemaphore info.GPUDevice info.renderFinishedSemaphore) p
  let p := { p with trace := p.trace ++
    info.swapchainFramebuffers.map fun framebuffer =>
      Call.vkDestroyFramebuffer info.GPUDevice framebuffer }
  let p := { p with trace := p.trace ++
    info.imageViews.map fun imageView => Call.vkDestroyImageView info.GPUDevice imageView }
  let p := emit (.vkDestroySwapchainKHR info.GPUDevice info.vulkanSwapchain) p
  let p := emit (.vkDestroyCommandPool info.GPUDevice info.cmdPool) p
  let p := emit (.vkDestroyPipeline info.GPUDevice info.graphicsPipeline) p
  let p := emit (.vkDestroyPipelineLayout info.GPUDevice info.pipelineLayout) p
  let p := emit (.vkDestroyRenderPass info.GPUDevice info.renderPass) p
  let p := emit (.vkDestroyDevice info.GPUDevice) p
  let p := destroyDebugUtilsMessenger d info.vulkanInstance info.debugMessenger p
  let p := emit (.vkDestroySurfaceKHR info.vulkanInstance info.vulkanSurface) p
  let p := emit (.vkDestroyInstance info.vulkanInstance) p
  let p := emit (.glfwDestroyWindow p.window) p
  emit .glfwTerminate p

/-! ## The run -/

/-- The set-up phase of `run` up to and including `createCmdPool`
(main.cpp:59-68). -/
def setupThroughCmdPool (d : Platform) (p : VulkanProgram) : Step :=
  createGLFWWindow d p >>= createVulkanInstance d >>= surfaceVulkanAndWindow d
    >>= createDevice d >>= createSwapchain d >>= createGraphicsPipeline d
    >>= createShaderPipeline d >>= createFramebuffer d >>= createCmdPool d

/-- The set-up phase of `run` (main.cpp:59-70). -/
def setup (d : Platform) (p : VulkanProgram) : Step :=
  setupThroughCmdPool d p >>= createSemaphores d

/-- Method `VulkanProgram::run` (main.cpp:56-77): set-up, frame loop, tear-down. -/
def run (d : Platform) (p : VulkanProgram) : Step :=
  setup d p >>= vulkanProgramLoop d >>= fun p => .ok (cleanup d p)

/-- Function `main` (main.cpp:1219-1224): runs a freshly constructed program and
returns status 0. -/
def main (d : Platform) : Except (Termination × VulkanProgram) (Int × VulkanProgram) :=
  match run d {} with
  | .error e => .error e
  | .ok p => .ok (0, p)

/-! ## Descriptions used by the statements -/

/-- The diagnostics channel gets created: the entry point resolves and the
creation call returns success. -/
def messengerCreated (d : Platform) : Bool :=
  d.vkGetInstanceProcAddr "vkCreateDebugUtilsMessengerEXT"
    && decide (d.vkCreateDebugUtilsMessengerEXT = VK_SUCCESS)

/-- The calls `createVulkanInstance` issues after the instance exists. -/
def messengerCalls (d : Platform) : List Call :=
  if d.vkGetInstanceProcAddr "vkCreateDebugUtilsMessengerEXT" then
    if d.vkCreateDebugUtilsMessengerEXT = VK_SUCCESS then
      [.vkCreateDebugUtilsMessengerEXT .vulkanInstance messengerSeverity messengerType
        VK_SUCCESS]
    else
      [.vkCreateDebugUtilsMessengerEXT .vulkanInstance messengerSeverity messengerType
        d.vkCreateDebugUtilsMessengerEXT,
       .print .cerr "Failed to create debug utils messenger"]
  else
    [.print .cerr "Could not find vkCreateDebugUtilsMessengerEXT",
     .print .cerr "Failed to create debug utils messenger"]

/-- The creation info `createSwapchain` passes to `vkCreateSwapchainKHR`. -/
def swapchainCreateInfoOf (d : Platform) (surface : Handle) (surfaceFormat : VkSurfaceFormatKHR) :
    VkSwapchainCreateInfoKHR :=
  { surface := surface,
    minImageCount := d.surfaceCapabilities.minImageCount,
    imageFormat := surfaceFormat.format,
    imageColorSpace := surfaceFormat.colorSpace,
    imageExtent := chooseSwapchainExtent d.surfaceCapabilities,
    imageArrayLayers := 1,
    imageUsage := VK_IMAGE_USAGE_COLOR_ATTACHMENT_BIT,
    imageSharingMode := VK_SHARING_MODE_EXCLUSIVE,
    preTransform := d.surfaceCapabilities.currentTransform,
    compositeAlpha := VK_COMPOSITE_ALPHA_OPAQUE_BIT_KHR,
    presentMode := VK_PRESENT_MODE_FIFO_KHR,
    clipped := VK_TRUE,
    oldSwapchain := .null }

/-- The six calls that record command buffer `i` when both
`vkBeginCommandBuffer` and `vkEndCommandBuffer` succeed. -/
def recordedCalls (info : VulkanProgramInfo) (i : Nat) : List Call :=
  let cmdBuffer := info.cmdBuffers.getD i .null
  [.vkBeginCommandBuffer cmdBuffer VK_SUCCESS,
   .vkCmdBeginRenderPass cmdBuffer
     { renderPass := info.renderPass,
       framebuffer := info.swapchainFramebuffers.getD i .null,
       renderAreaOffset := (0, 0),
       renderAreaExtent := info.swapchainExtent,
       clearValues := [(0, 0, 0, 1)] },
   .vkCmdBindPipeline cmdBuffer VK_PIPELINE_BIND_POINT_GRAPHICS info.graphicsPipeline,
   .vkCmdDraw cmdBuffer 3 1 0 0,
   .vkCmdEndRenderPass cmdBuffer,
   .vkEndCommandBuffer cmdBuffer VK_SUCCESS]

/-- The vector `cmdBuffers` after `createCmdPool`: every element filled
when `vkAllocateCommandBuffers` succeeded, left as resized otherwise. -/
def allocatedCmdBuffers (d : Platform) (info : VulkanProgramInfo) : List Handle :=
  if d.vkAllocateCommandBuffers = VK_SUCCESS then
    (List.range info.swapchainFramebuffers.length).map Handle.cmdBuffer
  else resize info.cmdBuffers info.swapchainFramebuffers.length

/-- The content of `vulkanProgramInfo` after a successful set-up, in terms
of the answers of the platform: `idx` is the selected queue family and
`surfaceFormat` the first surface format. -/
def infoAfterSetup (d : Platform) (idx : Nat) (surfaceFormat : VkSurfaceFormatKHR) :
    VulkanProgramInfo :=
  { vulkanInstance := .vulkanInstance,
    GPUDevice := .GPUDevice,
    chosenGPU := .physicalDevice 0,
    cmdPool := .cmdPool,
    cmdBuffers :=
      if d.vkAllocateCommandBuffers = VK_SUCCESS then
        (List.range d.swapchainImageCount).map Handle.cmdBuffer
      else List.replicate d.swapchainImageCount .null,
    enabledLayers := [],
    enabledInstanceExtensions := "VK_EXT_debug_utils" :: d.glfwRequiredInstanceExtensions,
    enabledDeviceExtensions := [VK_KHR_SWAPCHAIN_EXTENSION_NAME],
    debugMessenger := if messengerCreated d then .debugMessenger else .null,
    graphicsQueueFamilyIndex := idx,
    vulkanSurface := .vulkanSurface,
    vulkanSwapchain := .vulkanSwapchain,
    vulkanSwapchainFormat := surfaceFormat.format,
    swapchainImages := (List.range d.swapchainImageCount).map Handle.swapchainImage,
    swapchainExtent := chooseSwapchainExtent d.surfaceCapabilities,
    imageViews := (List.range d.swapchainImageCount).map Handle.imageView,
    vertShaderModule := .shaderModule "../src/vert.spv",
    fragShaderModule := .shaderModule "../src/frag.spv",
    renderPass := .renderPass,
    pipelineLayout := .pipelineLayout,
    graphicsPipeline := .graphicsPipeline,
    swapchainFramebuffers := (List.range d.swapchainImageCount).map Handle.framebuffer,
    imageAvailableSemaphore := .imageAvailableSemaphore,
    renderFinishedSemaphore := .renderFinishedSemaphore,
    presentAndGraphicsQueue := .null }

/-- The trace of a set-up that succeeded up to and including the
allocation of the command buffers in `createCmdPool`, in terms of the
answers of the platform. -/
def traceBeforeRecording (d : Platform) (idx : Nat) (surfaceFormat : VkSurfaceFormatKHR)
    (vertShaderCode fragShaderCode : List Nat) : List Call :=
  [.glfwInit true,
   .glfwCreateWindow 800 500 .window,
   .vkCreateInstance [] ("VK_EXT_debug_utils" :: d.glfwRequiredInstanceExtensions) VK_SUCCESS]
  ++ messengerCalls d
  ++ [.glfwCreateWindowSurface .vulkanInstance .window VK_SUCCESS,
      .vkCreateDevice (.physicalDevice 0) idx 1 [VK_KHR_SWAPCHAIN_EXTENSION_NAME] VK_SUCCESS,
      .vkCreateSwapchainKHR .GPUDevice (swapchainCreateInfoOf d .vulkanSurface surfaceFormat)
        VK_SUCCESS]
  ++ ((List.range d.swapchainImageCount).map fun i =>
      Call.vkCreateImageView .GPUDevice (.swapchainImage i) surfaceFormat.format (.imageView i)
        VK_SUCCESS)
  ++ [.vkCreateRenderPass .GPUDevice surfaceFormat.format VK_SUCCESS,
      .vkCreateShaderModule .GPUDevice vertShaderCode (.shaderModule "../src/vert.spv")
        VK_SUCCESS,
      .vkCreateShaderModule .GPUDevice fragShaderCode (.shaderModule "../src/frag.spv")
        VK_SUCCESS,
      .vkCreatePipelineLayout .GPUDevice VK_SUCCESS,
      .vkCreateGraphicsPipelines .GPUDevice
        [.shaderModule "../src/vert.spv", .shaderModule "../src/frag.spv"]
        .pipelineLayout .renderPass (chooseSwapchainExtent d.surfaceCapabilities) VK_SUCCESS,
      .vkDestroyShaderModule .GPUDevice (.shaderModule "../src/frag.spv"),
      .vkDestroyShaderModule .GPUDevice (.shaderModule "../src/vert.spv")]
  ++ ((List.range d.swapchainImageCount).map fun i =>
      Call.vkCreateFramebuffer .GPUDevice
        { renderPass := .renderPass,
          attachments := [.imageView i],
          width := (chooseSwapchainExtent d.surfaceCapabilities).width,
          height := (chooseSwapchainExtent d.surfaceCapabilities).height,
          layers := 1 }
        (.framebuffer i) VK_SUCCESS)
  ++ [.vkCreateCommandPool .GPUDevice idx VK_SUCCESS,
      .vkAllocateCommandBuffers .GPUDevice .cmdPool (d.swapchainImageCount % 2 ^ 32)
        d.vkAllocateCommandBuffers]

/-- The trace of a set-up that succeeded up to and including
`createCmdPool`, in terms of the answers of the platform. -/
def traceThroughCmdPool (d : Platform) (idx : Nat) (surfaceFormat : VkSurfaceFormatKHR)
    (vertShaderCode fragShaderCode : List Nat) : List Call :=
  traceBeforeRecording d idx surfaceFormat vertShaderCode fragShaderCode
  ++ ((List.range d.swapchainImageCount).map
        (recordedCalls (infoAfterSetup d idx surfaceFormat))).flatten

/-- The trace of a successful set-up, in terms of the answers of the
platform. -/
def traceAfterSetup (d : Platform) (idx : Nat) (surfaceFormat : VkSurfaceFormatKHR)
    (vertShaderCode fragShaderCode : List Nat) : List Call :=
  traceThroughCmdPool d idx surfaceFormat vertShaderCode fragShaderCode
  ++ [.vkCreateSemaphore .GPUDevice .imageAvailableSemaphore VK_SUCCESS,
      .vkCreateSemaphore .GPUDevice .renderFinishedSemaphore VK_SUCCESS]

/-- The calls of one iteration of the frame loop, for frame number
`frame`, when `drawFrame` returns. -/
def frameCalls (d : Platform) (info : VulkanProgramInfo) (frame : Nat) : List Call :=
  let imageIndex := (d.vkAcquireNextImageKHR frame).2
  let queue := Handle.queue info.graphicsQueueFamilyIndex 0
  [.glfwPollEvents,
   .vkAcquireNextImageKHR info.GPUDevice info.vulkanSwapchain UINT64_MAX
     info.imageAvailableSemaphore .null (d.vkAcquireNextImageKHR frame).1 imageIndex,
   .vkGetDeviceQueue info.GPUDevice info.graphicsQueueFamilyIndex 0,
   .vkQueueSubmit queue
     [{ waitSemaphores := [info.imageAvailableSemaphore],
        waitDstStageMask := [VK_PIPELINE_STAGE_COLOR_ATTACHMENT_OUTPUT_BIT],
        commandBuffers := [info.cmdBuffers.getD imageIndex .null],
        signalSemaphores := [info.renderFinishedSemaphore] }]
     .null (d.vkQueueSubmit frame),
   .vkQueuePresentKHR queue
     { waitSemaphores := [info.renderFinishedSemaphore],
       swapchains := [info.vulkanSwapchain],
       imageIndices := [imageIndex] }
     (d.vkQueuePresentKHR frame),
   .vkQueueWaitIdle queue]

/-- The calls issued by `cleanup` itself. -/
def cleanupCalls (d : Platform) (p : VulkanProgram) : List Call :=
  (cleanup d { p with trace := [] }).trace

/-- The objects alive at the end of a trace: created along it and not
destroyed along it. -/
def liveObjects (trace : List Call) : List Handle :=
  (createdObjects trace).filter fun h => decide (h ∉ destroyedObjects trace)

/-- The objects a successful set-up creates, in creation order;
`messenger` tells whether the diagnostics channel got created. -/
def objectsCreatedBySetup (n : Nat) (messenger : Bool) : List Handle :=
  [.window, .vulkanInstance] ++ (if messenger then [.debugMessenger] else [])
  ++ [.vulkanSurface, .GPUDevice, .vulkanSwapchain]
  ++ (List.range n).map Handle.imageView
  ++ [.renderPass, .shaderModule "../src/vert.spv", .shaderModule "../src/frag.spv",
      .pipelineLayout, .graphicsPipeline]
  ++ (List.range n).map Handle.framebuffer
  ++ [.cmdPool, .imageAvailableSemaphore, .renderFinishedSemaphore]

/-- The objects destroyed by `cleanup` after a successful set-up and a
returning frame loop, in the order of their destruction; `messenger` is
the handle in the field `debugMessenger`, destroyed only when the loader
resolves the destroy entry point. -/
def objectsDestroyedByCleanup (n : Nat) (messenger : Option Handle) : List Handle :=
  [.imageAvailableSemaphore, .renderFinishedSemaphore]
  ++ (List.range n).map Handle.framebuffer
  ++ (List.range n).map Handle.imageView
  ++ [.vulkanSwapchain, .cmdPool, .graphicsPipeline, .pipelineLayout, .renderPass, .GPUDevice]
  ++ messenger.toList
  ++ [.vulkanSurface, .vulkanInstance, .window]

/-- A platform on which every call succeeds: one physical device with one
queue family that supports graphics and presentation, a swapchain of `n`
images, and a window that is closed after `frames` frames. -/
def samplePlatform (n frames : Nat) : Platform :=
  { glfwInit := true,
    glfwCreateWindow := true,
    glfwRequiredInstanceExtensions := ["VK_KHR_surface"],
    supportedLayers := [],
    instanceExtensionCountResult := VK_SUCCESS,
    instanceExtensionListResult := VK_SUCCESS,
    instanceExtensions :=
      [{ extensionName := "VK_EXT_debug_utils" }, { extensionName := "VK_KHR_surface" }],
    vkCreateInstance := VK_SUCCESS,
    vkGetInstanceProcAddr := fun _ => true,
    vkCreateDebugUtilsMessengerEXT := VK_SUCCESS,
    glfwCreateWindowSurface := VK_SUCCESS,
    physicalDeviceCountResult := VK_SUCCESS,
    physicalDeviceListResult := VK_SUCCESS,
    physicalDeviceCount := 1,
    queueFamilies := [{ queueFlags := VK_QUEUE_GRAPHICS_BIT }],
    surfaceSupport := fun _ => VK_TRUE,
    deviceExtensionListResult := VK_SUCCESS,
    deviceExtensions := [{ extensionName := VK_KHR_SWAPCHAIN_EXTENSION_NAME }],
    vkCreateDevice := VK_SUCCESS,
    surfaceFormats := [{ format := 44, colorSpace := 0 }],
    surfaceCapabilitiesResult := VK_SUCCESS,
    surfaceCapabilities :=
      { minImageCount := n, currentExtent := ⟨800, 500⟩,
        minImageExtent := ⟨1, 1⟩, maxImageExtent := ⟨4096, 4096⟩ },
    vkCreateSwapchainKHR := VK_SUCCESS,
    swapchainImageCountResult := VK_SUCCESS,
    swapchainImageCount := n,
    swapchainImageListResult := VK_SUCCESS,
    vkCreateImageView := fun _ => VK_SUCCESS,
    vkCreateRenderPass := VK_SUCCESS,
    readFile := fun _ => some [3, 2, 35, 7],
    vkCreateShaderModule := fun _ => VK_SUCCESS,
    vkCreatePipelineLayout := VK_SUCCESS,
    vkCreateGraphicsPipelines := VK_SUCCESS,
    vkCreateFramebuffer := fun _ => VK_SUCCESS,
    vkCreateCommandPool := VK_SUCCESS,
    vkAllocateCommandBuffers := VK_SUCCESS,
    vkBeginCommandBuffer := fun _ => VK_SUCCESS,
    vkEndCommandBuffer := fun _ => VK_SUCCESS,
    vkCreateSemaphore := fun _ => VK_SUCCESS,
    framesBeforeClose := frames,
    vkAcquireNextImageKHR := fun frame => (VK_SUCCESS, frame % n),
    vkQueueSubmit := fun _ => VK_SUCCESS,
    vkQueuePresentKHR := fun _ => VK_SUCCESS }

/-- Handle `x` is destroyed (or created) before handle `y` in the
sequence `l`: both occur, in this order. -/
abbrev occursBefore (x y : Handle) (l : List Handle) : Prop :=
  [x, y].Sublist l

/-- The state a step ended in, whether it returned or not. -/
def stateOf : Step → VulkanProgram
  | .ok p => p
  | .error e => e.2

/-- The program after the set-up on `samplePlatform n frames`. -/
def sampleAfterSetup (n frames : Nat) : VulkanProgram :=
  stateOf (setup (samplePlatform n frames) {})

/-- The program after the frame loop on `samplePlatform n frames`. -/
def sampleAfterLoop (n frames : Nat) : VulkanProgram :=
  stateOf (vulkanProgramLoop (samplePlatform n frames) (sampleAfterSetup n frames))

/-- The object a Vulkan creation call is issued on: the instance for the
diagnostics channel and the surface, the physical device for the logical
device, the logical device for everything created from it. -/
def Call.parent : Call → Option Handle
  | .vkCreateDebugUtilsMessengerEXT inst _ _ _ => some inst
  | .glfwCreateWindowSurface inst _ _ => some inst
  | .vkCreateDevice physicalDevice _ _ _ _ => some physicalDevice
  | .vkCreateSwapchainKHR device _ _ => some device
  | .vkCreateImageView device _ _ _ _ => some device
  | .vkCreateRenderPass device _ _ => some device
  | .vkCreateShaderModule device _ _ _ => some device
  | .vkCreatePipelineLayout device _ => some device
  | .vkCreateGraphicsPipelines device _ _ _ _ _ => some device
  | .vkCreateFramebuffer device _ _ _ => some device
  | .vkCreateCommandPool device _ _ => some device
  | .vkCreateSemaphore device _ _ => some device
  | _ => none

/-- The objects created along a trace by calls issued on `parent`. -/
def childrenOf (parent : Handle) (trace : List Call) : List Handle :=
  trace.filterMap fun c => if c.parent = some parent then c.created else none

/-- The calls that record into a command buffer. -/
def Call.isRecording : Call → Bool
  | .vkBeginCommandBuffer _ _ => true
  | .vkCmdBeginRenderPass _ _ => true
  | .vkCmdBindPipeline _ _ _ => true
  | .vkCmdDraw _ _ _ _ _ => true
  | .vkCmdEndRenderPass _ => true
  | .vkEndCommandBuffer _ _ => true
  | _ => false

/-- The objects that, by the data model, have to exist when a call is
issued: the dependencies of the object a creation call is asked to
create, and for a recording call the pipeline and the `n` framebuffers. -/
def Call.needs (n : Nat) : Call → List Handle
  | .vkCreateDebugUtilsMessengerEXT _ _ _ _ => [.vulkanInstance]
  | .glfwCreateWindowSurface _ _ _ => [.vulkanInstance]
  | .vkCreateDevice _ _ _ _ _ => [.vulkanSurface]
  | .vkCreateSwapchainKHR _ _ _ => [.GPUDevice, .vulkanSurface]
  | .vkCreateImageView _ _ _ _ _ => [.vulkanSwapchain]
  | .vkCreateRenderPass _ _ _ => [.vulkanSwapchain]
  | .vkCreateGraphicsPipelines _ _ _ _ _ _ => [.renderPass, .pipelineLayout]
  | .vkCreateFramebuffer _ info _ _ => .renderPass :: info.attachments
  | .vkCreateSemaphore _ _ _ => [.GPUDevice]
  | .vkBeginCommandBuffer _ _ => .graphicsPipeline :: (List.range n).map Handle.framebuffer
  | .vkCmdBeginRenderPass _ _ => .graphicsPipeline :: (List.range n).map Handle.framebuffer
  | .vkCmdBindPipeline _ _ _ => .graphicsPipeline :: (List.range n).map Handle.framebuffer
  | .vkCmdDraw _ _ _ _ _ => .graphicsPipeline :: (List.range n).map Handle.framebuffer
  | .vkCmdEndRenderPass _ => .graphicsPipeline :: (List.range n).map Handle.framebuffer
  | .vkEndCommandBuffer _ _ => .graphicsPipeline :: (List.range n).map Handle.framebuffer
  | _ => []

/-- A trace respects the creation order: whenever a call is issued,
everything it needs has been created successfully before. -/
def CreationOrdered (n : Nat) (trace : List Call) : Prop :=
  ∀ front c back, trace = front ++ c :: back →
    ∀ h ∈ c.needs n, h ∈ createdObjects front

/-- The trace a step ended with, whether it returned or not. -/
def traceOf (s : Step) : List Call :=
  (stateOf s).trace

/-- A property of the state when the step returns, and of the trace when
it does not. -/
def Holds (Q : VulkanProgram → Prop) (S : List Call → Prop) : Step → Prop
  | .ok p => Q p
  | .error e => S e.2.trace

/-- The call acquires a swapchain image. -/
def Call.isAcquire : Call → Bool
  | .vkAcquireNextImageKHR _ _ _ _ _ _ _ => true
  | _ => false

/-- The call submits work to a queue. -/
def Call.isSubmit : Call → Bool
  | .vkQueueSubmit _ _ _ _ => true
  | _ => false

/-- The call asks for the presentation of an image. -/
def Call.isPresent : Call → Bool
  | .vkQueuePresentKHR _ _ _ => true
  | _ => false

/-- The call blocks until the queue is idle. -/
def Call.isQueueWaitIdle : Call → Bool
  | .vkQueueWaitIdle _ => true
  | _ => false

/-- One step of the check that frames do not overlap.  The state says
whether an image has been acquired whose frame has not yet reached its
queue-wait-idle; `none` records that a second image was acquired in
between. -/
def flightStep : Option Bool → Call → Option Bool
  | none, _ => none
  | some inFlight, c =>
      if c.isAcquire then (if inFlight then none else some true)
      else if c.isQueueWaitIdle then some false
      else some inFlight

/-- The check that frames do not overlap, run along a list of calls. -/
def flightScan (s : Option Bool) (l : List Call) : Option Bool :=
  l.foldl flightStep s

/-- The text `name` occurs in `line`. -/
def mentions (line name : String) : Bool :=
  line.toList.tails.any fun rest => name.toList.isPrefixOf rest

/-- The fields of `VkDebugUtilsMessengerCallbackDataEXT` that describe the
message. -/
structure VkDebugUtilsMessengerCallbackDataEXT where
  pMessageIdName : String
  messageIdNumber : Int
  pMessage : String
  deriving DecidableEq, Repr

/-- The static method `debugMessengerCallback` (main.cpp:1144-1152).  `output`
is what has been written so far; the result is the value returned and what
has been written after the call. -/
def debugMessengerCallback (messageSeverity messageTypes : Nat)
    (pCallbackData : VkDebugUtilsMessengerCallbackDataEXT) (pUserData : Nat)
    (output : List Call) : Nat × List Call :=
  let _unused := (messageSeverity, messageTypes, pUserData)
  (VK_FALSE,
    output ++ [.print .cerr ("Validation Layer Debug Message: " ++ pCallbackData.pMessage)])

/-- The command buffer a recording call records into. -/
def Call.recordsInto : Call → Option Handle
  | .vkBeginCommandBuffer cmdBuffer _ => some cmdBuffer
  | .vkCmdBeginRenderPass cmdBuffer _ => some cmdBuffer
  | .vkCmdBindPipeline cmdBuffer _ _ => some cmdBuffer
  | .vkCmdDraw cmdBuffer _ _ _ _ => some cmdBuffer
  | .vkCmdEndRenderPass cmdBuffer => some cmdBuffer
  | .vkEndCommandBuffer cmdBuffer _ => some cmdBuffer
  | _ => none

/-- The call destroys nothing, or it is the destruction of a shader module
(which `createShaderPipeline` issues once the pipeline exists). -/
def Call.sparesObjects : Call → Bool
  | .vkDestroyShaderModule _ (.shaderModule _) => true
  | c => c.destroyed.isNone

/-- No call of the trace destroys anything but a shader module. -/
abbrev Sparing (trace : List Call) : Prop :=
  trace.all Call.sparesObjects = true

/-! # Theorems -/

/-! ## Capability negotiation -/

/-- The character comparison answers zero exactly on equal lists. -/
theorem strcmpChars_eq_zero_iff (a b : List Char) : strcmpChars a b = 0 ↔ a = b := by
  induction a generalizing b with
  | nil => cases b <;> simp [strcmpChars]
  | cons x xs ih =>
    cases b with
    | nil => simp [strcmpChars]
    | cons y ys =>
      by_cases h : x = y
      · simp [strcmpChars, h, ih]
      · by_cases h2 : x.toNat < y.toNat <;> simp [strcmpChars, h, h2]

/-- Function `strcmp` answers zero exactly on equal contents. -/
theorem strcmp_eq_zero_iff (a b : String) : strcmp a b = 0 ↔ a = b := by
  unfold strcmp
  rw [strcmpChars_eq_zero_iff]
  exact ⟨fun h => String.ext h, fun h => by rw [h]⟩

/-- The inner extension loop only ever raises the flag: its result is the
incoming flag or-ed with "some supported extension carries the name". -/
theorem extensionInnerLoop_eq (e : String) (S : List VkExtensionProperties) (flag : Bool) :
    extensionInnerLoop e S flag = (flag || decide (∃ s ∈ S, s.extensionName = e)) := by
  induction S generalizing flag with
  | nil => simp [extensionInnerLoop]
  | cons s rest ih =>
    rw [extensionInnerLoop, ih]
    by_cases h : s.extensionName = e
    · simp [strcmp_eq_zero_iff, h]
    · cases flag <;> simp [strcmp_eq_zero_iff, h]

/-- Once the flag is set, the outer extension loop accepts whatever
follows. -/
theorem extensionOuterLoop_true (S : List VkExtensionProperties) (R : List String) :
    extensionOuterLoop S R true = true := by
  induction R with
  | nil => simp [extensionOuterLoop]
  | cons e rest ih => simp [extensionOuterLoop, extensionInnerLoop_eq, ih]

/-- The inner layer loop, started with an unset flag, answers whether some
supported layer carries the name. -/
theorem layerInnerLoop_eq (e : String) (S : List VkLayerProperties) (flag : Bool) :
    layerInnerLoop e S flag = (flag || decide (∃ s ∈ S, s.layerName = e)) := by
  induction S generalizing flag with
  | nil => simp [layerInnerLoop]
  | cons s rest ih =>
    rw [layerInnerLoop, ih]
    by_cases h : s.layerName = e
    · simp [strcmp_eq_zero_iff, h]
    · have h' : ¬ e = s.layerName := fun h2 => h h2.symm
      cases flag <;> simp [strcmp_eq_zero_iff, h, h']

/-- C1 (failing input): with supported = {"diag_ext"} and requested =
{"diag_ext", "missing_ext"} the function `checkEnabledExtensionsSupported`
answers `true` although "missing_ext" is the name of no supported
extension; the two scenarios of the specification are answered as
specified (`true` for {"diag_ext"} against {"diag_ext","other_ext"},
`false` for {"missing_ext"} against {"other_ext"}). -/
theorem checkEnabledExtensionsSupported_accepts_unsupported :
    checkEnabledExtensionsSupported [{ extensionName := "diag_ext" }]
        ["diag_ext", "missing_ext"] = true
      ∧ ¬ (∀ r ∈ ["diag_ext", "missing_ext"],
            ∃ s ∈ [({ extensionName := "diag_ext" } : VkExtensionProperties)],
              s.extensionName = r)
      ∧ checkEnabledExtensionsSupported
          [{ extensionName := "diag_ext" }, { extensionName := "other_ext" }]
          ["diag_ext"] = true
      ∧ checkEnabledExtensionsSupported [{ extensionName := "other_ext" }]
          ["missing_ext"] = false := by
  refine ⟨?_, ?_, ?_, ?_⟩
  · simp [checkEnabledExtensionsSupported, extensionOuterLoop, extensionInnerLoop_eq]
  · simp
  · simp [checkEnabledExtensionsSupported, extensionOuterLoop, extensionInnerLoop_eq]
  · simp [checkEnabledExtensionsSupported, extensionOuterLoop, extensionInnerLoop_eq]

/-- C2: `enabledLayersSupported S R` is `true` exactly when every name of
`R` is the `layerName` of some element of `S`; for empty `R` it is `true`
whatever `S` is. -/
theorem enabledLayersSupported_iff (S : List VkLayerProperties) (R : List String) :
    (enabledLayersSupported S R = true ↔ ∀ r ∈ R, ∃ s ∈ S, s.layerName = r)
      ∧ enabledLayersSupported S [] = true := by
  refine ⟨?_, by simp [enabledLayersSupported]⟩
  induction R with
  | nil => simp [enabledLayersSupported]
  | cons e rest ih =>
    simp only [enabledLayersSupported, layerInnerLoop_eq, Bool.false_or, List.forall_mem_cons]
    by_cases h : ∃ s ∈ S, s.layerName = e
    · simp [h, ih]
    · simp [h]

/-! ## Queue-family selection -/

/-- The test of the selection loop on the flags is the test of bit 0. -/
theorem graphics_bit_test (flags : Nat) :
    flags &&& VK_QUEUE_GRAPHICS_BIT ≠ 0 ↔ flags.testBit 0 = true := by
  simp only [VK_QUEUE_GRAPHICS_BIT, Nat.and_one_is_mod, Nat.testBit_zero, decide_eq_true_eq]
  omega

/-- What the selection loop computes when started at counter `k` on the
rest `L` of the list, as long as the counter cannot wrap. -/
theorem queueFamilyLoop_spec (support : Nat → Nat) (L : List VkQueueFamilyProperties) :
    ∀ (k : Nat) (s : QueueSelection), k + L.length ≤ 2 ^ 32 → s.foundQueue = false →
      ((queueFamilyLoop support L k s).foundQueue = true →
        ∃ j family, L[j]? = some family
          ∧ (queueFamilyLoop support L k s).graphicsQueueFamilyIndex = k + j
          ∧ family.queueFlags.testBit 0 = true ∧ support (k + j) = VK_TRUE
          ∧ ∀ j2 < j, ∀ f2, L[j2]? = some f2 →
              ¬ (f2.queueFlags.testBit 0 = true ∧ support (k + j2) = VK_TRUE))
      ∧ ((queueFamilyLoop support L k s).foundQueue = false →
        ∀ j f2, L[j]? = some f2 →
          ¬ (f2.queueFlags.testBit 0 = true ∧ support (k + j) = VK_TRUE)) := by
  induction L with
  | nil =>
    intro k s _ hs
    simp [queueFamilyLoop, hs]
  | cons q rest ih =>
    intro k s hk hs
    by_cases hc : q.queueFlags &&& VK_QUEUE_GRAPHICS_BIT ≠ 0 ∧ support k = VK_TRUE
    · have hq : q.queueFlags.testBit 0 = true := (graphics_bit_test _).1 hc.1
      have e : queueFamilyLoop support (q :: rest) k s =
          { graphicsQueueFamilyIndex := k, presentationSupport := support k,
            foundQueue := true } := by
        rw [queueFamilyLoop]
        exact if_pos hc
      rw [e]
      refine ⟨fun _ => ⟨0, q, by simp, by simp, hq, by simpa using hc.2, ?_⟩, by simp⟩
      intro j2 hj2
      omega
    · have hq : ¬ (q.queueFlags.testBit 0 = true ∧ support k = VK_TRUE) := by
        rw [← graphics_bit_test]
        exact hc
      have e : queueFamilyLoop support (q :: rest) k s =
          queueFamilyLoop support rest ((k + 1) % 2 ^ 32)
            { s with presentationSupport := support k } := by
        rw [queueFamilyLoop]
        exact if_neg hc
      rw [e]
      rcases rest with _ | ⟨q2, rest2⟩
      · simp only [queueFamilyLoop, hs]
        refine ⟨by simp, fun _ j f2 hj => ?_⟩
        rcases j with _ | j
        · simp at hj
          subst hj
          simpa using hq
        · simp at hj
      · have hk1 : k + 1 < 2 ^ 32 := by
          simp only [List.length_cons] at hk
          omega
        rw [Nat.mod_eq_of_lt hk1]
        have hk2 : (k + 1) + (q2 :: rest2).length ≤ 2 ^ 32 := by
          simp only [List.length_cons] at hk ⊢
          omega
        obtain ⟨ih1, ih2⟩ := ih (k + 1) { s with presentationSupport := support k } hk2 hs
        refine ⟨fun hf => ?_, fun hf j f2 hj => ?_⟩
        · obtain ⟨j, family, h1, h2, h3, h4, h5⟩ := ih1 hf
          refine ⟨j + 1, family, by simpa using h1, by rw [h2]; omega, h3,
            by rw [← h4]; congr 1; omega, ?_⟩
          intro j2 hj2 f2 hf2
          rcases j2 with _ | j2
          · simp at hf2
            subst hf2
            simpa using hq
          · have := h5 j2 (by omega) f2 (by simpa using hf2)
            rwa [show k + (j2 + 1) = k + 1 + j2 by omega]
        · rcases j with _ | j
          · simp at hj
            subst hj
            simpa using hq
          · have := ih2 hf j f2 (by simpa using hj)
            rwa [show k + (j + 1) = k + 1 + j by omega]

/-- C3: for every list of queue families (of a length a `uint32_t` count
can report) and every surface-support answer per index, the selection of
`createDevice` stores index `i` exactly when `i` is the smallest index
whose flags include the graphics bit and whose surface-support answer is
`VK_TRUE`, and it aborts exactly when no index satisfies both; a single
family with graphics but without presentation support aborts. -/
theorem selectQueueFamily_first_suitable (L : List VkQueueFamilyProperties)
    (support : Nat → Nat) (hlen : L.length < 2 ^ 32) :
    (∀ i, selectQueueFamily L support = some i ↔
        (suitableFamily L support i ∧ ∀ j < i, ¬ suitableFamily L support j))
      ∧ (selectQueueFamily L support = none ↔ ∀ i, ¬ suitableFamily L support i)
      ∧ selectQueueFamily [{ queueFlags := VK_QUEUE_GRAPHICS_BIT }] (fun _ => VK_FALSE) = none := by
  have key := queueFamilyLoop_spec support L 0
    { graphicsQueueFamilyIndex := UINT32_MAX, presentationSupport := VK_FALSE,
      foundQueue := false } (by omega) rfl
  obtain ⟨k1, k2⟩ := key
  have hnone : selectQueueFamily L support = none ↔ ∀ i, ¬ suitableFamily L support i := by
    unfold selectQueueFamily
    constructor
    · intro h i ⟨f, hf1, hf2, hf3⟩
      simp only [Bool.not_eq_true_eq_eq_false, ite_eq_left_iff, Bool.not_eq_false, reduceCtorEq,
        imp_false, Bool.not_eq_true] at h
      exact k2 h i f hf1 ⟨hf2, by simpa using hf3⟩
    · intro h
      simp only [Bool.not_eq_true_eq_eq_false, ite_eq_left_iff, Bool.not_eq_false, reduceCtorEq,
        imp_false, Bool.not_eq_true]
      by_contra hf
      simp only [Bool.not_eq_false] at hf
      obtain ⟨j, family, h1, _, h3, h4, _⟩ := k1 hf
      exact h j ⟨family, h1, h3, by simpa using h4⟩
  refine ⟨fun i => ?_, hnone, ?_⟩
  · unfold selectQueueFamily
    constructor
    · intro h
      by_cases hf : (queueFamilyLoop support L 0
          { graphicsQueueFamilyIndex := UINT32_MAX, presentationSupport := VK_FALSE,
            foundQueue := false }).foundQueue = true
      · obtain ⟨j, family, h1, h2, h3, h4, h5⟩ := k1 hf
        simp only [hf, Bool.not_true, Bool.false_eq_true, if_false, Option.some.injEq] at h
        have hij : i = j := by omega
        subst hij
        refine ⟨⟨family, h1, h3, by simpa using h4⟩, ?_⟩
        rintro j2 hj2 ⟨f2, g1, g2, g3⟩
        exact h5 j2 hj2 f2 g1 ⟨g2, by simpa using g3⟩
      · simp [hf] at h
    · rintro ⟨⟨f, hf1, hf2, hf3⟩, hmin⟩
      by_cases hf : (queueFamilyLoop support L 0
          { graphicsQueueFamilyIndex := UINT32_MAX, presentationSupport := VK_FALSE,
            foundQueue := false }).foundQueue = true
      · obtain ⟨j, family, h1, h2, h3, h4, h5⟩ := k1 hf
        simp only [hf, Bool.not_true, Bool.false_eq_true, if_false, Option.some.injEq]
        rw [h2]
        simp only [Nat.zero_add] at h4 h5 ⊢
        rcases Nat.lt_trichotomy i j with hlt | heq | hgt
        · exact absurd ⟨hf2, by simpa using hf3⟩ (h5 i hlt f hf1)
        · exact heq.symm
        · exact absurd ⟨family, h1, h3, h4⟩ (hmin j hgt)
      · simp only [Bool.not_eq_true] at hf
        exact absurd ⟨hf2, by simpa using hf3⟩ (k2 hf i f hf1)
  · simp [selectQueueFamily, queueFamilyLoop, VK_TRUE, VK_FALSE]

/-- C3 (witness): two families, the first without presentation support,
the second with graphics and presentation: index 1 is stored. -/
theorem selectQueueFamily_first_suitable_witness :
    [({ queueFlags := 1 } : VkQueueFamilyProperties), { queueFlags := 3 }].length < 2 ^ 32
      ∧ selectQueueFamily [{ queueFlags := 1 }, { queueFlags := 3 }]
          (fun i => if i = 1 then VK_TRUE else VK_FALSE) = some 1 := by
  refine ⟨by decide, ?_⟩
  have h := (selectQueueFamily_first_suitable [{ queueFlags := 1 }, { queueFlags := 3 }]
    (fun i => if i = 1 then VK_TRUE else VK_FALSE) (by decide)).1 1
  refine h.2 ⟨⟨{ queueFlags := 3 }, by simp, by decide, by simp⟩, ?_⟩
  intro j hj
  have hj0 : j = 0 := by omega
  subst hj0
  rintro ⟨f, _, _, h3⟩
  simp [VK_TRUE, VK_FALSE] at h3

/-! ## The set-up steps when they succeed

One lemma per step of `run`: when the step returns, what it did to the
window, to `vulkanProgramInfo` and to the trace. -/

/-- A resized vector has the requested length. -/
theorem resize_length (v : List Handle) (n : Nat) : (resize v n).length = n := by
  simp only [resize, List.length_append, List.length_take, List.length_replicate]
  omega

/-- Writing elements `0 .. k-1` of a vector one after the other. -/
theorem foldl_set_prefix (f : Nat → Handle) (v : List Handle) :
    ∀ k, k ≤ v.length →
      (List.range k).foldl (fun w j => w.set j (f j)) v = (List.range k).map f ++ v.drop k := by
  intro k
  induction k with
  | zero => intro _; simp
  | succ k ih =>
    intro hk
    have hk2 : k < v.length := by omega
    rw [List.range_succ, List.foldl_append, ih (by omega)]
    simp only [List.foldl_cons, List.foldl_nil, List.map_append, List.map_cons, List.map_nil]
    have key : (v.drop k).set 0 (f k) = f k :: v.drop (k + 1) := by
      rw [List.drop_eq_getElem_cons hk2]
      rfl
    rw [List.set_append_right _ _ (by simp)]
    simp [key]

/-- Writing every element of a vector of length `n`. -/
theorem foldl_set_all (f : Nat → Handle) (v : List Handle) (n : Nat) (h : v.length = n) :
    (List.range' 0 n).foldl (fun w j => w.set j (f j)) v = (List.range n).map f := by
  rw [← List.range_eq_range', foldl_set_prefix f v n (by omega)]
  simp [← h]

/-- What a successful `createGLFWWindow` did. -/
theorem createGLFWWindow_ok {d : Platform} {p q : VulkanProgram}
    (h : createGLFWWindow d p = .ok q) :
    q.window = .window
      ∧ q.vulkanProgramInfo = { p.vulkanProgramInfo with
          enabledInstanceExtensions :=
            p.vulkanProgramInfo.enabledInstanceExtensions ++ d.glfwRequiredInstanceExtensions }
      ∧ q.trace = p.trace ++ [.glfwInit true, .glfwCreateWindow 800 500 .window] := by
  unfold createGLFWWindow at h
  simp only [fail, failure, emit] at h
  split_ifs at h <;> simp_all
  subst h
  simp

/-- What a successful `surfaceVulkanAndWindow` did. -/
theorem surfaceVulkanAndWindow_ok {d : Platform} {p q : VulkanProgram}
    (h : surfaceVulkanAndWindow d p = .ok q) :
    q.window = p.window
      ∧ q.vulkanProgramInfo = { p.vulkanProgramInfo with vulkanSurface := .vulkanSurface }
      ∧ q.trace = p.trace ++
          [.glfwCreateWindowSurface p.vulkanProgramInfo.vulkanInstance p.window VK_SUCCESS] := by
  unfold surfaceVulkanAndWindow at h
  simp only [fail, failure, emit] at h
  split_ifs at h
  simp_all
  subst h
  simp

/-- What a successful image-view loop did. -/
theorem imageViewLoop_ok (d : Platform) (format : Nat) :
    ∀ (remaining i : Nat) (p q : VulkanProgram),
      imageViewLoop d format remaining i p = .ok q →
      q.window = p.window
        ∧ q.vulkanProgramInfo = { p.vulkanProgramInfo with
            imageViews := (List.range' i remaining).foldl
              (fun v j => v.set j (Handle.imageView j)) p.vulkanProgramInfo.imageViews }
        ∧ q.trace = p.trace ++ (List.range' i remaining).map fun j =>
            Call.vkCreateImageView p.vulkanProgramInfo.GPUDevice
              (p.vulkanProgramInfo.swapchainImages.getD j .null) format (.imageView j)
              VK_SUCCESS := by
  intro remaining
  induction remaining with
  | zero =>
    intro i p q h
    simp only [imageViewLoop, Except.ok.injEq] at h
    subst h
    simp
  | succ n ih =>
    intro i p q h
    rw [imageViewLoop] at h
    simp only [fail, failure, emit] at h
    split_ifs at h with h1
    simp only [ne_eq, Decidable.not_not] at h1
    obtain ⟨k1, k2, k3⟩ := ih _ _ _ h
    refine ⟨by rw [k1], ?_, ?_⟩
    · rw [k2]
      simp [List.range'_succ]
    · rw [k3]
      simp [List.range'_succ, h1]

/-- What a successful `createVulkanInstance` did. -/
theorem createVulkanInstance_ok {d : Platform} {p q : VulkanProgram}
    (h : createVulkanInstance d p = .ok q) :
    q.window = p.window
      ∧ q.vulkanProgramInfo = { p.vulkanProgramInfo with
          vulkanInstance := .vulkanInstance,
          debugMessenger :=
            if messengerCreated d then .debugMessenger
            else p.vulkanProgramInfo.debugMessenger }
      ∧ q.trace = p.trace ++
          Call.vkCreateInstance p.vulkanProgramInfo.enabledLayers
            p.vulkanProgramInfo.enabledInstanceExtensions VK_SUCCESS :: messengerCalls d := by
  unfold createVulkanInstance at h
  simp only [fail] at h
  by_cases hproc : d.vkGetInstanceProcAddr "vkCreateDebugUtilsMessengerEXT" = true
  · by_cases hr : d.vkCreateDebugUtilsMessengerEXT = VK_SUCCESS
    · split_ifs at h with c1 c2 c3 c4 c5 c6
      · simp [createDebugUtilsMessenger, hproc, hr] at c6
      · simp only [ne_eq, Decidable.not_not] at c5
        simp only [createDebugUtilsMessenger, hproc, hr, if_true, emit, Except.ok.injEq] at h
        subst h
        simp [messengerCreated, messengerCalls, hproc, hr, c5]
    · split_ifs at h with c1 c2 c3 c4 c5 c6
      · simp only [ne_eq, Decidable.not_not] at c5
        simp only [createDebugUtilsMessenger, hproc, hr, if_true, if_false, emit,
          Except.ok.injEq] at h
        subst h
        simp [messengerCreated, messengerCalls, hproc, hr, c5]
      · simp [createDebugUtilsMessenger, hproc, hr] at c6
  · split_ifs at h with c1 c2 c3 c4 c5 c6
    · simp only [ne_eq, Decidable.not_not] at c5
      simp only [createDebugUtilsMessenger, hproc, if_false, emit, Except.ok.injEq] at h
      subst h
      simp [messengerCreated, messengerCalls, hproc, c5]
    · simp [createDebugUtilsMessenger, hproc, VK_ERROR_EXTENSION_NOT_PRESENT, VK_SUCCESS] at c6

/-- What a successful `createDevice` did. -/
theorem createDevice_ok {d : Platform} {p q : VulkanProgram}
    (h : createDevice d p = .ok q) :
    q.window = p.window
      ∧ ∃ idx, selectQueueFamily d.queueFamilies d.surfaceSupport = some idx
        ∧ q.vulkanProgramInfo = { p.vulkanProgramInfo with
            chosenGPU := .physicalDevice 0,
            graphicsQueueFamilyIndex := idx,
            GPUDevice := .GPUDevice }
        ∧ q.trace = p.trace ++
            [.vkCreateDevice (.physicalDevice 0) idx 1
              p.vulkanProgramInfo.enabledDeviceExtensions VK_SUCCESS] := by
  unfold createDevice at h
  simp only [fail, emit] at h
  repeat' split at h
  all_goals try contradiction
  rename_i h1 _ gpu hgpu h2 _ idx hidx h3 h4
  simp only [ne_eq, Decidable.not_not] at h4
  simp only [Except.ok.injEq] at h
  subst h
  have hg : gpu = .physicalDevice 0 := by
    rcases hn : d.physicalDeviceCount with _ | n
    · simp [hn] at hgpu
    · simp [hn, List.range_succ_eq_map] at hgpu
      exact hgpu.symm
  subst hg
  exact ⟨rfl, idx, hidx, by simp, by simp [h4]⟩

/-- What a successful `createSwapchain` did. -/
theorem createSwapchain_ok {d : Platform} {p q : VulkanProgram}
    (h : createSwapchain d p = .ok q) :
    q.window = p.window
      ∧ ∃ surfaceFormat, d.surfaceFormats[0]? = some surfaceFormat
        ∧ q.vulkanProgramInfo = { p.vulkanProgramInfo with
            vulkanSwapchainFormat := surfaceFormat.format,
            swapchainExtent := chooseSwapchainExtent d.surfaceCapabilities,
            vulkanSwapchain := .vulkanSwapchain,
            swapchainImages := (List.range d.swapchainImageCount).map Handle.swapchainImage,
            imageViews := (List.range d.swapchainImageCount).map Handle.imageView }
        ∧ q.trace = p.trace ++
            Call.vkCreateSwapchainKHR p.vulkanProgramInfo.GPUDevice
              (swapchainCreateInfoOf d p.vulkanProgramInfo.vulkanSurface surfaceFormat)
              VK_SUCCESS ::
            (List.range d.swapchainImageCount).map fun i =>
              Call.vkCreateImageView p.vulkanProgramInfo.GPUDevice (.swapchainImage i)
                surfaceFormat.format (.imageView i) VK_SUCCESS := by
  unfold createSwapchain at h
  simp only [fail, emit] at h
  split at h
  · contradiction
  rename_i fmt hfmt
  split at h
  · contradiction
  split at h
  · contradiction
  split at h
  · contradiction
  split at h
  · contradiction
  rename_i h1 h2 h3 h4
  simp only [ne_eq, Decidable.not_not] at h2
  obtain ⟨k1, k2, k3⟩ := imageViewLoop_ok _ _ _ _ _ _ h
  simp only [resize_length, List.length_map, List.length_range] at k2 k3
  rw [foldl_set_all _ _ _ (resize_length _ _)] at k2
  refine ⟨k1, fmt, hfmt, ?_, ?_⟩
  · rw [k2]
  · rw [k3, ← List.range_eq_range']
    simp only [swapchainCreateInfoOf, h2, List.append_assoc, List.singleton_append,
      List.cons.injEq, true_and, List.append_cancel_left_eq]
    apply List.map_congr_left
    intro i hi
    simp only [List.mem_range] at hi
    simp [hi]

/-- What a successful `createGraphicsPipeline` did. -/
theorem createGraphicsPipeline_ok {d : Platform} {p q : VulkanProgram}
    (h : createGraphicsPipeline d p = .ok q) :
    q.window = p.window
      ∧ q.vulkanProgramInfo = { p.vulkanProgramInfo with renderPass := .renderPass }
      ∧ q.trace = p.trace ++
          [.vkCreateRenderPass p.vulkanProgramInfo.GPUDevice
            p.vulkanProgramInfo.vulkanSwapchainFormat VK_SUCCESS] := by
  unfold createGraphicsPipeline at h
  simp only [fail, emit] at h
  split at h
  · contradiction
  rename_i h1
  simp only [ne_eq, Decidable.not_not] at h1
  simp only [Except.ok.injEq] at h
  subst h
  simp [h1]

/-- What a successful `createShaderPipeline` did. -/
theorem createShaderPipeline_ok {d : Platform} {p q : VulkanProgram}
    (h : createShaderPipeline d p = .ok q) :
    q.window = p.window
      ∧ ∃ vertShaderCode fragShaderCode,
        d.readFile "../src/vert.spv" = some vertShaderCode
        ∧ d.readFile "../src/frag.spv" = some fragShaderCode
        ∧ q.vulkanProgramInfo = { p.vulkanProgramInfo with
            vertShaderModule := .shaderModule "../src/vert.spv",
            fragShaderModule := .shaderModule "../src/frag.spv",
            pipelineLayout := .pipelineLayout,
            graphicsPipeline := .graphicsPipeline }
        ∧ q.trace = p.trace ++
            [.vkCreateShaderModule p.vulkanProgramInfo.GPUDevice vertShaderCode
               (.shaderModule "../src/vert.spv") VK_SUCCESS,
             .vkCreateShaderModule p.vulkanProgramInfo.GPUDevice fragShaderCode
               (.shaderModule "../src/frag.spv") VK_SUCCESS,
             .vkCreatePipelineLayout p.vulkanProgramInfo.GPUDevice VK_SUCCESS,
             .vkCreateGraphicsPipelines p.vulkanProgramInfo.GPUDevice
               [.shaderModule "../src/vert.spv", .shaderModule "../src/frag.spv"]
               .pipelineLayout p.vulkanProgramInfo.renderPass
               p.vulkanProgramInfo.swapchainExtent VK_SUCCESS,
             .vkDestroyShaderModule p.vulkanProgramInfo.GPUDevice
               (.shaderModule "../src/frag.spv"),
             .vkDestroyShaderModule p.vulkanProgramInfo.GPUDevice
               (.shaderModule "../src/vert.spv")] := by
  rcases hv : d.readFile "../src/vert.spv" with _ | vertShaderCode
  · simp [createShaderPipeline, readFile, hv, bind, Except.bind] at h
  rcases hf : d.readFile "../src/frag.spv" with _ | fragShaderCode
  · simp [createShaderPipeline, readFile, hv, hf, bind, Except.bind] at h
  by_cases r1 : d.vkCreateShaderModule "../src/vert.spv" = VK_SUCCESS
  swap
  · simp [createShaderPipeline, readFile, createShaderModule, hv, hf, r1, bind,
      Except.bind] at h
  by_cases r2 : d.vkCreateShaderModule "../src/frag.spv" = VK_SUCCESS
  swap
  · simp [createShaderPipeline, readFile, createShaderModule, hv, hf, r1, r2, bind,
      Except.bind] at h
  by_cases r3 : d.vkCreatePipelineLayout = VK_SUCCESS
  swap
  · simp [createShaderPipeline, readFile, createShaderModule, hv, hf, r1, r2, r3, bind,
      Except.bind, emit, fail] at h
  by_cases r4 : d.vkCreateGraphicsPipelines = VK_SUCCESS
  swap
  · simp [createShaderPipeline, readFile, createShaderModule, hv, hf, r1, r2, r3, r4, bind,
      Except.bind, emit, fail] at h
  simp only [createShaderPipeline, readFile, createShaderModule, hv, hf, r1, r2, r3, r4, bind,
    Except.bind, emit, fail, ne_eq, not_true_eq_false, if_false, Except.ok.injEq] at h
  subst h
  exact ⟨rfl, vertShaderCode, fragShaderCode, rfl, rfl, rfl, by simp⟩

/-- What a successful framebuffer loop did. -/
theorem framebufferLoop_ok (d : Platform) :
    ∀ (remaining i : Nat) (p q : VulkanProgram),
      framebufferLoop d remaining i p = .ok q →
      q.window = p.window
        ∧ q.vulkanProgramInfo = { p.vulkanProgramInfo with
            swapchainFramebuffers := (List.range' i remaining).foldl
              (fun v j => v.set j (Handle.framebuffer j))
              p.vulkanProgramInfo.swapchainFramebuffers }
        ∧ q.trace = p.trace ++ (List.range' i remaining).map fun j =>
            Call.vkCreateFramebuffer p.vulkanProgramInfo.GPUDevice
              { renderPass := p.vulkanProgramInfo.renderPass,
                attachments := [p.vulkanProgramInfo.imageViews.getD j .null],
                width := p.vulkanProgramInfo.swapchainExtent.width,
                height := p.vulkanProgramInfo.swapchainExtent.height,
                layers := 1 }
              (.framebuffer j) VK_SUCCESS := by
  intro remaining
  induction remaining with
  | zero =>
    intro i p q h
    simp only [framebufferLoop, Except.ok.injEq] at h
    subst h
    simp
  | succ n ih =>
    intro i p q h
    rw [framebufferLoop] at h
    simp only [fail, failure, emit] at h
    split_ifs at h with h1
    simp only [ne_eq, Decidable.not_not] at h1
    obtain ⟨k1, k2, k3⟩ := ih _ _ _ h
    refine ⟨by rw [k1], ?_, ?_⟩
    · rw [k2]
      simp [List.range'_succ]
    · rw [k3]
      simp [List.range'_succ, h1]

/-- What a successful `createFramebuffer` did. -/
theorem createFramebuffer_ok {d : Platform} {p q : VulkanProgram}
    (h : createFramebuffer d p = .ok q) :
    q.window = p.window
      ∧ q.vulkanProgramInfo = { p.vulkanProgramInfo with
          swapchainFramebuffers :=
            (List.range p.vulkanProgramInfo.imageViews.length).map Handle.framebuffer }
      ∧ q.trace = p.trace ++ (List.range p.vulkanProgramInfo.imageViews.length).map fun j =>
          Call.vkCreateFramebuffer p.vulkanProgramInfo.GPUDevice
            { renderPass := p.vulkanProgramInfo.renderPass,
              attachments := [p.vulkanProgramInfo.imageViews.getD j .null],
              width := p.vulkanProgramInfo.swapchainExtent.width,
              height := p.vulkanProgramInfo.swapchainExtent.height,
              layers := 1 }
            (.framebuffer j) VK_SUCCESS := by
  unfold createFramebuffer at h
  obtain ⟨k1, k2, k3⟩ := framebufferLoop_ok _ _ _ _ _ h
  simp only at k1 k2 k3
  rw [foldl_set_all _ _ _ (resize_length _ _)] at k2
  rw [← List.range_eq_range'] at k3
  exact ⟨k1, k2, k3⟩

/-- What a successful recording loop did: the state is untouched, the
trace grows by the six recording calls of each index. -/
theorem recordLoop_ok (d : Platform) :
    ∀ (remaining i : Nat) (p q : VulkanProgram),
      recordLoop d remaining i p = .ok q →
      q.window = p.window
        ∧ q.vulkanProgramInfo = p.vulkanProgramInfo
        ∧ q.trace = p.trace ++
            ((List.range' i remaining).map (recordedCalls p.vulkanProgramInfo)).flatten := by
  intro remaining
  induction remaining with
  | zero =>
    intro i p q h
    simp only [recordLoop, Except.ok.injEq] at h
    subst h
    simp
  | succ n ih =>
    intro i p q h
    rw [recordLoop] at h
    simp only [fail, failure, emit] at h
    split_ifs at h with h1 h2
    simp only [ne_eq, Decidable.not_not] at h1 h2
    obtain ⟨k1, k2, k3⟩ := ih _ _ _ h
    refine ⟨by rw [k1], by rw [k2], ?_⟩
    rw [k3]
    simp [List.range'_succ, h1, h2, recordedCalls]

/-- What a successful `createCmdPool` did. -/
theorem createCmdPool_ok {d : Platform} {p q : VulkanProgram}
    (h : createCmdPool d p = .ok q) :
    q.window = p.window
      ∧ q.vulkanProgramInfo = { p.vulkanProgramInfo with
          cmdPool := .cmdPool,
          cmdBuffers := allocatedCmdBuffers d p.vulkanProgramInfo }
      ∧ q.trace = p.trace ++
          [.vkCreateCommandPool p.vulkanProgramInfo.GPUDevice
             p.vulkanProgramInfo.graphicsQueueFamilyIndex VK_SUCCESS,
           .vkAllocateCommandBuffers p.vulkanProgramInfo.GPUDevice .cmdPool
             (p.vulkanProgramInfo.swapchainFramebuffers.length % 2 ^ 32)
             d.vkAllocateCommandBuffers] ++
          ((List.range p.vulkanProgramInfo.swapchainFramebuffers.length).map
            (recordedCalls q.vulkanProgramInfo)).flatten := by
  unfold createCmdPool at h
  simp only [fail, emit] at h
  split at h
  · contradiction
  rename_i h1
  simp only [ne_eq, Decidable.not_not] at h1
  obtain ⟨k1, k2, k3⟩ := recordLoop_ok _ _ _ _ _ h
  have e : q.vulkanProgramInfo = { p.vulkanProgramInfo with
      cmdPool := .cmdPool,
      cmdBuffers := allocatedCmdBuffers d p.vulkanProgramInfo } := by
    rw [k2]
    by_cases ha : d.vkAllocateCommandBuffers = VK_SUCCESS
    · simp [allocatedCmdBuffers, ha, resize_length]
    · simp [allocatedCmdBuffers, ha]
  by_cases ha : d.vkAllocateCommandBuffers = VK_SUCCESS
  · simp only [ha, if_true, resize_length, List.length_map, List.length_range] at k1 k3
    refine ⟨k1, e, ?_⟩
    rw [e, k3, ← List.range_eq_range']
    simp [allocatedCmdBuffers, ha, resize_length, h1]
  · simp only [ha, if_false, resize_length] at k1 k3
    refine ⟨k1, e, ?_⟩
    rw [e, k3, ← List.range_eq_range']
    simp [allocatedCmdBuffers, ha, h1]

/-- What a successful `createSemaphores` did. -/
theorem createSemaphores_ok {d : Platform} {p q : VulkanProgram}
    (h : createSemaphores d p = .ok q) :
    q.window = p.window
      ∧ q.vulkanProgramInfo = { p.vulkanProgramInfo with
          imageAvailableSemaphore := .imageAvailableSemaphore,
          renderFinishedSemaphore := .renderFinishedSemaphore }
      ∧ q.trace = p.trace ++
          [.vkCreateSemaphore p.vulkanProgramInfo.GPUDevice .imageAvailableSemaphore VK_SUCCESS,
           .vkCreateSemaphore p.vulkanProgramInfo.GPUDevice .renderFinishedSemaphore
             VK_SUCCESS] := by
  unfold createSemaphores at h
  simp only [fail, emit] at h
  split at h
  · contradiction
  split at h
  · contradiction
  rename_i h1 h2
  simp only [ne_eq, Decidable.not_not] at h1 h2
  simp only [Except.ok.injEq] at h
  subst h
  simp [h1, h2]

/-- A sequence of two steps returns only when both do. -/
theorem bind_ok {f : VulkanProgram → Step} {x : Step} {q : VulkanProgram}
    (h : x >>= f = .ok q) : ∃ a, x = .ok a ∧ f a = .ok q := by
  cases x with
  | error e => simp [bind, Except.bind] at h
  | ok a => exact ⟨a, rfl, h⟩

/-- The commands recorded for an index do not depend on the two
semaphore fields. -/
theorem recordedCalls_congr (a b : VulkanProgramInfo) (i : Nat)
    (h1 : a.cmdBuffers = b.cmdBuffers) (h2 : a.renderPass = b.renderPass)
    (h3 : a.swapchainFramebuffers = b.swapchainFramebuffers)
    (h4 : a.swapchainExtent = b.swapchainExtent)
    (h5 : a.graphicsPipeline = b.graphicsPipeline) :
    recordedCalls a i = recordedCalls b i := by
  simp [recordedCalls, h1, h2, h3, h4, h5]

/-- A set-up that succeeded up to and including `createCmdPool`, started
on a freshly constructed program, leaves the state described by
`infoAfterSetup`, the two semaphores still being null, and the trace
described by `traceThroughCmdPool`. -/
theorem setupThroughCmdPool_ok {d : Platform} {q : VulkanProgram}
    (h : setupThroughCmdPool d {} = .ok q) :
    ∃ idx surfaceFormat vertShaderCode fragShaderCode,
      selectQueueFamily d.queueFamilies d.surfaceSupport = some idx
        ∧ d.surfaceFormats[0]? = some surfaceFormat
        ∧ d.readFile "../src/vert.spv" = some vertShaderCode
        ∧ d.readFile "../src/frag.spv" = some fragShaderCode
        ∧ q.window = .window
        ∧ q.vulkanProgramInfo = { infoAfterSetup d idx surfaceFormat with
            imageAvailableSemaphore := .null, renderFinishedSemaphore := .null }
        ∧ q.trace = traceThroughCmdPool d idx surfaceFormat vertShaderCode fragShaderCode := by
  unfold setupThroughCmdPool at h
  obtain ⟨p8, h, h9⟩ := bind_ok h
  obtain ⟨p7, h, h8⟩ := bind_ok h
  obtain ⟨p6, h, h7⟩ := bind_ok h
  obtain ⟨p5, h, h6⟩ := bind_ok h
  obtain ⟨p4, h, h5⟩ := bind_ok h
  obtain ⟨p3, h, h4⟩ := bind_ok h
  obtain ⟨p2, h, h3⟩ := bind_ok h
  obtain ⟨p1, h1, h2⟩ := bind_ok h
  obtain ⟨w1, i1, t1⟩ := createGLFWWindow_ok h1
  obtain ⟨w2, i2, t2⟩ := createVulkanInstance_ok h2
  obtain ⟨w3, i3, t3⟩ := surfaceVulkanAndWindow_ok h3
  obtain ⟨w4, idx, hidx, i4, t4⟩ := createDevice_ok h4
  obtain ⟨w5, fmt, hfmt, i5, t5⟩ := createSwapchain_ok h5
  obtain ⟨w6, i6, t6⟩ := createGraphicsPipeline_ok h6
  obtain ⟨w7, vc, fc, hvc, hfc, i7, t7⟩ := createShaderPipeline_ok h7
  obtain ⟨w8, i8, t8⟩ := createFramebuffer_ok h8
  obtain ⟨w9, i9, t9⟩ := createCmdPool_ok h9
  have w : q.window = .window := by
    rw [w9, w8, w7, w6, w5, w4, w3, w2, w1]
  simp only [List.singleton_append] at i1 t1
  simp only [i1, w1] at i2 t2
  simp only [i2, w2, w1] at i3 t3
  simp only [i3] at i4 t4
  simp only [i4] at i5 t5
  simp only [i5] at i6 t6
  simp only [i6] at i7 t7
  simp only [i7, List.length_map, List.length_range] at i8 t8
  simp only [i8, List.length_map, List.length_range] at i9 t9
  have hfb : ∀ j ∈ List.range d.swapchainImageCount,
      ((List.range d.swapchainImageCount).map Handle.imageView).getD j .null
        = Handle.imageView j := by
    intro j hj
    simp [List.mem_range.1 hj]
  rw [List.map_congr_left (fun j hj => by rw [hfb j hj])] at t8
  have hrec : recordedCalls q.vulkanProgramInfo
      = recordedCalls (infoAfterSetup d idx fmt) := by
    funext i
    apply recordedCalls_congr <;> rw [i9] <;>
      simp [infoAfterSetup, allocatedCmdBuffers, resize]
  rw [hrec] at t9
  refine ⟨idx, fmt, vc, fc, hidx, hfmt, hvc, hfc, w, ?_, ?_⟩
  · rw [i9]
    simp [infoAfterSetup, allocatedCmdBuffers, resize]
  · rw [t9, t8, t7, t6, t5, t4, t3, t2, t1]
    simp [traceThroughCmdPool, traceBeforeRecording]

/-- A successful set-up, started on a freshly constructed program, leaves
the state and the trace described by `infoAfterSetup` and
`traceAfterSetup`. -/
theorem setup_ok {d : Platform} {q : VulkanProgram} (h : setup d {} = .ok q) :
    ∃ idx surfaceFormat vertShaderCode fragShaderCode,
      selectQueueFamily d.queueFamilies d.surfaceSupport = some idx
        ∧ d.surfaceFormats[0]? = some surfaceFormat
        ∧ d.readFile "../src/vert.spv" = some vertShaderCode
        ∧ d.readFile "../src/frag.spv" = some fragShaderCode
        ∧ q.window = .window
        ∧ q.vulkanProgramInfo = infoAfterSetup d idx surfaceFormat
        ∧ q.trace = traceAfterSetup d idx surfaceFormat vertShaderCode fragShaderCode := by
  unfold setup at h
  obtain ⟨p9, h9, h10⟩ := bind_ok h
  obtain ⟨idx, fmt, vc, fc, hidx, hfmt, hvc, hfc, w9, i9, t9⟩ := setupThroughCmdPool_ok h9
  obtain ⟨w10, i10, t10⟩ := createSemaphores_ok h10
  simp only [i9] at i10 t10
  refine ⟨idx, fmt, vc, fc, hidx, hfmt, hvc, hfc, by rw [w10, w9], ?_, ?_⟩
  · rw [i10]
    simp [infoAfterSetup]
  · rw [t10, t9]
    simp [traceAfterSetup, infoAfterSetup]

/-- What one returning iteration of the frame loop did. -/
theorem drawFrame_ok {d : Platform} {frame : Nat} {p q : VulkanProgram}
    (h : drawFrame d frame (emit .glfwPollEvents p) = .ok q) :
    q.window = p.window
      ∧ (d.vkAcquireNextImageKHR frame).2 < p.vulkanProgramInfo.cmdBuffers.length
      ∧ q.vulkanProgramInfo = { p.vulkanProgramInfo with
          presentAndGraphicsQueue := .queue p.vulkanProgramInfo.graphicsQueueFamilyIndex 0 }
      ∧ q.trace = p.trace ++ frameCalls d p.vulkanProgramInfo frame := by
  unfold drawFrame at h
  simp only [emit] at h
  split at h
  · contradiction
  rename_i cb hcb
  simp only [Except.ok.injEq] at h
  subst h
  obtain ⟨hlt, hget⟩ := List.getElem?_eq_some_iff.1 hcb
  refine ⟨rfl, hlt, rfl, ?_⟩
  simp [frameCalls, hcb]

/-- What a returning frame loop did. -/
theorem frameLoop_ok (d : Platform) :
    ∀ (remaining frame : Nat) (p q : VulkanProgram),
      frameLoop d remaining frame p = .ok q →
      q.window = p.window
        ∧ q.vulkanProgramInfo = { p.vulkanProgramInfo with
            presentAndGraphicsQueue :=
              if remaining = 0 then p.vulkanProgramInfo.presentAndGraphicsQueue
              else .queue p.vulkanProgramInfo.graphicsQueueFamilyIndex 0 }
        ∧ q.trace = p.trace ++
            ((List.range' frame remaining).map (frameCalls d p.vulkanProgramInfo)).flatten := by
  intro remaining
  induction remaining with
  | zero =>
    intro frame p q h
    simp only [frameLoop, Except.ok.injEq] at h
    subst h
    simp
  | succ n ih =>
    intro frame p q h
    rw [frameLoop] at h
    split at h
    · contradiction
    rename_i p1 h1
    obtain ⟨w1, _, i1, t1⟩ := drawFrame_ok h1
    obtain ⟨w2, i2, t2⟩ := ih _ _ _ h
    refine ⟨by rw [w2, w1], ?_, ?_⟩
    · rw [i2, i1]
      by_cases hn : n = 0 <;> simp [hn]
    · have hc : frameCalls d p1.vulkanProgramInfo = frameCalls d p.vulkanProgramInfo := by
        funext k
        rw [i1]
        rfl
      rw [t2, t1, hc]
      simp [List.range'_succ]

/-- What a returning `vulkanProgramLoop` did. -/
theorem vulkanProgramLoop_ok {d : Platform} {p q : VulkanProgram}
    (h : vulkanProgramLoop d p = .ok q) :
    q.window = p.window
      ∧ q.vulkanProgramInfo = { p.vulkanProgramInfo with
          presentAndGraphicsQueue :=
            if d.framesBeforeClose = 0 then p.vulkanProgramInfo.presentAndGraphicsQueue
            else .queue p.vulkanProgramInfo.graphicsQueueFamilyIndex 0 }
      ∧ q.trace = p.trace ++
          ((List.range d.framesBeforeClose).map (frameCalls d p.vulkanProgramInfo)).flatten
          ++ [.vkDeviceWaitIdle p.vulkanProgramInfo.GPUDevice] := by
  unfold vulkanProgramLoop at h
  split at h
  · contradiction
  rename_i p1 h1
  obtain ⟨w1, i1, t1⟩ := frameLoop_ok _ _ _ _ _ h1
  simp only [Except.ok.injEq] at h
  subst h
  refine ⟨w1, i1, ?_⟩
  simp [emit, t1, i1, List.range_eq_range']

/-- The trace after `cleanup` is the trace before it followed by the
calls of `cleanup`. -/
theorem cleanup_trace (d : Platform) (p : VulkanProgram) :
    (cleanup d p).trace = p.trace ++ cleanupCalls d p := by
  unfold cleanupCalls cleanup destroyDebugUtilsMessenger
  by_cases h : d.vkGetInstanceProcAddr "vkDestroyDebugUtilsMessengerEXT" = true <;>
    simp [emit, h]

/-- The calls of `cleanup`, written out. -/
theorem cleanupCalls_eq (d : Platform) (p : VulkanProgram) :
    cleanupCalls d p =
      [.vkDestroySemaphore p.vulkanProgramInfo.GPUDevice
          p.vulkanProgramInfo.imageAvailableSemaphore,
       .vkDestroySemaphore p.vulkanProgramInfo.GPUDevice
          p.vulkanProgramInfo.renderFinishedSemaphore]
      ++ p.vulkanProgramInfo.swapchainFramebuffers.map
          (Call.vkDestroyFramebuffer p.vulkanProgramInfo.GPUDevice)
      ++ p.vulkanProgramInfo.imageViews.map
          (Call.vkDestroyImageView p.vulkanProgramInfo.GPUDevice)
      ++ [.vkDestroySwapchainKHR p.vulkanProgramInfo.GPUDevice
            p.vulkanProgramInfo.vulkanSwapchain,
          .vkDestroyCommandPool p.vulkanProgramInfo.GPUDevice p.vulkanProgramInfo.cmdPool,
          .vkDestroyPipeline p.vulkanProgramInfo.GPUDevice p.vulkanProgramInfo.graphicsPipeline,
          .vkDestroyPipelineLayout p.vulkanProgramInfo.GPUDevice
            p.vulkanProgramInfo.pipelineLayout,
          .vkDestroyRenderPass p.vulkanProgramInfo.GPUDevice p.vulkanProgramInfo.renderPass,
          .vkDestroyDevice p.vulkanProgramInfo.GPUDevice,
          if d.vkGetInstanceProcAddr "vkDestroyDebugUtilsMessengerEXT" then
            .vkDestroyDebugUtilsMessengerEXT p.vulkanProgramInfo.vulkanInstance
              p.vulkanProgramInfo.debugMessenger
          else .print .cerr "Could not find vkDestroyDebugUtilsMessenger",
          .vkDestroySurfaceKHR p.vulkanProgramInfo.vulkanInstance
            p.vulkanProgramInfo.vulkanSurface,
          .vkDestroyInstance p.vulkanProgramInfo.vulkanInstance,
          .glfwDestroyWindow p.window,
          .glfwTerminate] := by
  unfold cleanupCalls cleanup destroyDebugUtilsMessenger
  by_cases h : d.vkGetInstanceProcAddr "vkDestroyDebugUtilsMessengerEXT" = true <;>
    simp [emit, h]

/-! ## Objects created and destroyed along a run -/

/-- Filtering with a function that keeps everything. -/
theorem filterMap_some_fun {α β : Type} (f : α → β) (l : List α) :
    l.filterMap (fun x => some (f x)) = l.map f := by
  induction l with
  | nil => rfl
  | cons a l ih => simp [List.filterMap_cons, ih]

/-- Filtering with a function that keeps nothing. -/
theorem filterMap_none_fun {α β : Type} (l : List α) :
    l.filterMap (fun _ => (none : Option β)) = [] := by
  induction l with
  | nil => rfl
  | cons a l ih => simp [List.filterMap_cons, ih]

/-- Created objects of a concatenation. -/
theorem createdObjects_append (s t : List Call) :
    createdObjects (s ++ t) = createdObjects s ++ createdObjects t := by
  simp [createdObjects]

/-- Destroyed objects of a concatenation. -/
theorem destroyedObjects_append (s t : List Call) :
    destroyedObjects (s ++ t) = destroyedObjects s ++ destroyedObjects t := by
  simp [destroyedObjects]

/-- The messenger calls create the diagnostics channel or nothing. -/
theorem createdObjects_messengerCalls (d : Platform) :
    createdObjects (messengerCalls d) = if messengerCreated d then [.debugMessenger] else [] := by
  unfold messengerCalls messengerCreated createdObjects
  by_cases h1 : d.vkGetInstanceProcAddr "vkCreateDebugUtilsMessengerEXT" = true <;>
    by_cases h2 : d.vkCreateDebugUtilsMessengerEXT = VK_SUCCESS <;>
    simp [h1, h2, Call.created]

/-- The messenger calls destroy nothing. -/
theorem destroyedObjects_messengerCalls (d : Platform) :
    destroyedObjects (messengerCalls d) = [] := by
  unfold messengerCalls destroyedObjects
  by_cases h1 : d.vkGetInstanceProcAddr "vkCreateDebugUtilsMessengerEXT" = true <;>
    by_cases h2 : d.vkCreateDebugUtilsMessengerEXT = VK_SUCCESS <;>
    simp [h1, h2, Call.destroyed]

/-- Recording creates nothing. -/
theorem createdObjects_recorded (info : VulkanProgramInfo) (l : List Nat) :
    createdObjects ((l.map (recordedCalls info)).flatten) = [] := by
  induction l with
  | nil => rfl
  | cons i l ih =>
    rw [List.map_cons, List.flatten_cons, createdObjects_append, ih]
    simp [createdObjects, recordedCalls, Call.created]

/-- Recording destroys nothing. -/
theorem destroyedObjects_recorded (info : VulkanProgramInfo) (l : List Nat) :
    destroyedObjects ((l.map (recordedCalls info)).flatten) = [] := by
  induction l with
  | nil => rfl
  | cons i l ih =>
    rw [List.map_cons, List.flatten_cons, destroyedObjects_append, ih]
    simp [destroyedObjects, recordedCalls, Call.destroyed]

/-- The objects created along the trace of a successful set-up. -/
theorem createdObjects_traceAfterSetup (d : Platform) (idx : Nat)
    (fmt : VkSurfaceFormatKHR) (vc fc : List Nat) :
    createdObjects (traceAfterSetup d idx fmt vc fc)
      = objectsCreatedBySetup d.swapchainImageCount (messengerCreated d) := by
  simp only [traceAfterSetup, traceThroughCmdPool, traceBeforeRecording, createdObjects_append,
    createdObjects_messengerCalls, createdObjects_recorded, objectsCreatedBySetup]
  simp [createdObjects, Call.created, List.filterMap_map, Function.comp_def,
    filterMap_some_fun]

/-- The objects destroyed along the trace of a successful set-up: the two
shader modules. -/
theorem destroyedObjects_traceAfterSetup (d : Platform) (idx : Nat)
    (fmt : VkSurfaceFormatKHR) (vc fc : List Nat) :
    destroyedObjects (traceAfterSetup d idx fmt vc fc)
      = [.shaderModule "../src/frag.spv", .shaderModule "../src/vert.spv"] := by
  simp only [traceAfterSetup, traceThroughCmdPool, traceBeforeRecording, destroyedObjects_append,
    destroyedObjects_messengerCalls, destroyedObjects_recorded]
  simp [destroyedObjects, Call.destroyed, List.filterMap_map, Function.comp_def,
    filterMap_none_fun]

/-- The frame loop creates nothing. -/
theorem createdObjects_frames (d : Platform) (info : VulkanProgramInfo) (l : List Nat) :
    createdObjects ((l.map (frameCalls d info)).flatten) = [] := by
  induction l with
  | nil => rfl
  | cons i l ih =>
    rw [List.map_cons, List.flatten_cons, createdObjects_append, ih]
    simp [createdObjects, frameCalls, Call.created]

/-- The frame loop destroys nothing. -/
theorem destroyedObjects_frames (d : Platform) (info : VulkanProgramInfo) (l : List Nat) :
    destroyedObjects ((l.map (frameCalls d info)).flatten) = [] := by
  induction l with
  | nil => rfl
  | cons i l ih =>
    rw [List.map_cons, List.flatten_cons, destroyedObjects_append, ih]
    simp [destroyedObjects, frameCalls, Call.destroyed]

/-- After a successful set-up and a returning frame loop: what has been
created, what has been destroyed, and what `cleanup` destroys. -/
theorem run_ok {d : Platform} {p r : VulkanProgram}
    (hs : setup d {} = .ok p) (hl : vulkanProgramLoop d p = .ok r) :
    createdObjects r.trace = objectsCreatedBySetup d.swapchainImageCount (messengerCreated d)
      ∧ destroyedObjects r.trace
          = [.shaderModule "../src/frag.spv", .shaderModule "../src/vert.spv"]
      ∧ destroyedObjects (cleanupCalls d r) = objectsDestroyedByCleanup d.swapchainImageCount
          (if d.vkGetInstanceProcAddr "vkDestroyDebugUtilsMessengerEXT" then
            some (if messengerCreated d then .debugMessenger else .null)
           else none) := by
  obtain ⟨idx, fmt, vc, fc, _, _, _, _, w, i, t⟩ := setup_ok hs
  obtain ⟨w2, i2, t2⟩ := vulkanProgramLoop_ok hl
  refine ⟨?_, ?_, ?_⟩
  · rw [t2, t, createdObjects_append, createdObjects_append, createdObjects_frames,
      createdObjects_traceAfterSetup]
    simp [createdObjects, Call.created]
  · rw [t2, t, destroyedObjects_append, destroyedObjects_append, destroyedObjects_frames,
      destroyedObjects_traceAfterSetup]
    simp [destroyedObjects, Call.destroyed]
  · rw [cleanupCalls_eq, i2, w2, w, i]
    by_cases h : d.vkGetInstanceProcAddr "vkDestroyDebugUtilsMessengerEXT" = true <;>
      simp [destroyedObjects, Call.destroyed, infoAfterSetup, objectsDestroyedByCleanup, h,
        List.filterMap_map, Function.comp_def, filterMap_some_fun]

/-! ## Extent selection -/

/-- C4: when the current width is the sentinel `2^32-1` and the minimum
extent is component-wise at most the maximum extent, the extent chosen by
`createSwapchain` lies between the two bounds component-wise and is the
default 1600 x 1000 clamped into them; it is the extent a successful
`createSwapchain` stores in `swapchainExtent`. -/
theorem chooseSwapchainExtent_sentinel (caps : VkSurfaceCapabilitiesKHR)
    (hs : caps.currentExtent.width = UINT32_MAX)
    (hw : caps.minImageExtent.width ≤ caps.maxImageExtent.width)
    (hh : caps.minImageExtent.height ≤ caps.maxImageExtent.height) :
    caps.minImageExtent.width ≤ (chooseSwapchainExtent caps).width
      ∧ (chooseSwapchainExtent caps).width ≤ caps.maxImageExtent.width
      ∧ caps.minImageExtent.height ≤ (chooseSwapchainExtent caps).height
      ∧ (chooseSwapchainExtent caps).height ≤ caps.maxImageExtent.height
      ∧ (chooseSwapchainExtent caps).width
          = max caps.minImageExtent.width (min caps.maxImageExtent.width 1600)
      ∧ (chooseSwapchainExtent caps).height
          = max caps.minImageExtent.height (min caps.maxImageExtent.height 1000)
      ∧ ∀ (d : Platform) (p q : VulkanProgram), d.surfaceCapabilities = caps →
          createSwapchain d p = .ok q →
          q.vulkanProgramInfo.swapchainExtent = chooseSwapchainExtent caps := by
  have e : chooseSwapchainExtent caps =
      { width := max caps.minImageExtent.width (min caps.maxImageExtent.width 1600),
        height := max caps.minImageExtent.height (min caps.maxImageExtent.height 1000) } := by
    unfold chooseSwapchainExtent
    rw [if_pos hs]
  refine ⟨?_, ?_, ?_, ?_, ?_, ?_, ?_⟩
  · rw [e]; exact le_max_left _ _
  · rw [e]; exact max_le hw (min_le_left _ _)
  · rw [e]; exact le_max_left _ _
  · rw [e]; exact max_le hh (min_le_left _ _)
  · rw [e]
  · rw [e]
  · intro d p q hd hq
    obtain ⟨_, fmt, _, hi, _⟩ := createSwapchain_ok hq
    rw [hi, ← hd]

/-- C4 (witness): with the sentinel width, minimum (200,200) and maximum
(4000,3000) the chosen extent is (1600,1000). -/
theorem chooseSwapchainExtent_sentinel_witness :
    chooseSwapchainExtent
        { minImageCount := 2, currentExtent := ⟨UINT32_MAX, UINT32_MAX⟩,
          minImageExtent := ⟨200, 200⟩, maxImageExtent := ⟨4000, 3000⟩ }
      = { width := 1600, height := 1000 } := by
  have h := chooseSwapchainExtent_sentinel
    { minImageCount := 2, currentExtent := ⟨UINT32_MAX, UINT32_MAX⟩,
      minImageExtent := ⟨200, 200⟩, maxImageExtent := ⟨4000, 3000⟩ }
    rfl (by decide) (by decide)
  obtain ⟨_, _, _, _, h5, h6, _⟩ := h
  cases hc : chooseSwapchainExtent
        { minImageCount := 2, currentExtent := ⟨UINT32_MAX, UINT32_MAX⟩,
          minImageExtent := ⟨200, 200⟩, maxImageExtent := ⟨4000, 3000⟩ } with
  | mk w ht =>
    rw [hc] at h5 h6
    simp only at h5 h6
    simp only [VkExtent2D.mk.injEq]
    exact ⟨by rw [h5]; decide, by rw [h6]; decide⟩

/-- C5: when the current width is not the sentinel `2^32-1`, the extent
chosen by `createSwapchain` is exactly `currentExtent`, whatever the
minimum and maximum extents are; a successful `createSwapchain` has stored
it in `swapchainExtent` and passed it as `imageExtent` of the swapchain
creation call. -/
theorem chooseSwapchainExtent_fixed (caps : VkSurfaceCapabilitiesKHR)
    (hs : caps.currentExtent.width ≠ UINT32_MAX) :
    chooseSwapchainExtent caps = caps.currentExtent
      ∧ ∀ (d : Platform) (p q : VulkanProgram), d.surfaceCapabilities = caps →
          createSwapchain d p = .ok q →
          q.vulkanProgramInfo.swapchainExtent = caps.currentExtent
            ∧ ∃ info, Call.vkCreateSwapchainKHR p.vulkanProgramInfo.GPUDevice info VK_SUCCESS
                  ∈ q.trace
                ∧ info.imageExtent = caps.currentExtent := by
  have e : chooseSwapchainExtent caps = caps.currentExtent := by
    unfold chooseSwapchainExtent
    rw [if_neg hs]
  refine ⟨e, ?_⟩
  intro d p q hd hq
  obtain ⟨_, fmt, _, hi, ht⟩ := createSwapchain_ok hq
  refine ⟨by rw [hi, hd, e], swapchainCreateInfoOf d p.vulkanProgramInfo.vulkanSurface fmt, ?_, ?_⟩
  · rw [ht]
    simp
  · simp only [swapchainCreateInfoOf]
    rw [hd, e]

/-- C5 (witness): a current extent of (1024,768) is chosen as it is,
although it lies below the minimum extent (2000,2000). -/
theorem chooseSwapchainExtent_fixed_witness :
    (1024 : Nat) ≠ UINT32_MAX
      ∧ chooseSwapchainExtent
          { minImageCount := 2, currentExtent := ⟨1024, 768⟩,
            minImageExtent := ⟨2000, 2000⟩, maxImageExtent := ⟨4000, 3000⟩ }
        = { width := 1024, height := 768 } :=
  ⟨by decide,
   (chooseSwapchainExtent_fixed
      { minImageCount := 2, currentExtent := ⟨1024, 768⟩,
        minImageExtent := ⟨2000, 2000⟩, maxImageExtent := ⟨4000, 3000⟩ }
      (by decide)).1⟩

/-! ## Tear-down order -/

/-- An element of a first part occurs before an element of a second part. -/
theorem occursBefore_split {x y : Handle} {l : List Handle} (l1 l2 : List Handle)
    (h : l = l1 ++ l2) (hx : x ∈ l1) (hy : y ∈ l2) : occursBefore x y l := by
  subst h
  exact (List.singleton_sublist.2 hx).append (List.singleton_sublist.2 hy)

/-- The order of destruction inside `cleanup`, for the dependencies of the
data model. -/
theorem objectsDestroyedByCleanup_order (n : Nat) (m : Option Handle) :
    (∀ i < n, occursBefore (.imageView i) .vulkanSwapchain (objectsDestroyedByCleanup n m))
      ∧ (∀ i < n, occursBefore (.framebuffer i) .renderPass (objectsDestroyedByCleanup n m))
      ∧ (∀ i < n, ∀ j < n,
          occursBefore (.framebuffer i) (.imageView j) (objectsDestroyedByCleanup n m))
      ∧ occursBefore .graphicsPipeline .renderPass (objectsDestroyedByCleanup n m)
      ∧ occursBefore .graphicsPipeline .pipelineLayout (objectsDestroyedByCleanup n m)
      ∧ occursBefore .cmdPool .graphicsPipeline (objectsDestroyedByCleanup n m)
      ∧ occursBefore .vulkanSwapchain .GPUDevice (objectsDestroyedByCleanup n m)
      ∧ occursBefore .vulkanSwapchain .vulkanSurface (objectsDestroyedByCleanup n m)
      ∧ (∀ i < n, occursBefore (.framebuffer i) .cmdPool (objectsDestroyedByCleanup n m)) := by
  refine ⟨fun i hi => ?_, fun i hi => ?_, fun i hi j hj => ?_, ?_, ?_, ?_, ?_, ?_,
    fun i hi => ?_⟩
  · exact occursBefore_split
      ([.imageAvailableSemaphore, .renderFinishedSemaphore]
        ++ (List.range n).map Handle.framebuffer ++ (List.range n).map Handle.imageView)
      ([.vulkanSwapchain, .cmdPool, .graphicsPipeline, .pipelineLayout, .renderPass, .GPUDevice]
        ++ m.toList ++ [.vulkanSurface, .vulkanInstance, .window])
      (by simp [objectsDestroyedByCleanup]) (by simp [hi]) (by simp)
  · exact occursBefore_split
      ([.imageAvailableSemaphore, .renderFinishedSemaphore]
        ++ (List.range n).map Handle.framebuffer ++ (List.range n).map Handle.imageView)
      ([.vulkanSwapchain, .cmdPool, .graphicsPipeline, .pipelineLayout, .renderPass, .GPUDevice]
        ++ m.toList ++ [.vulkanSurface, .vulkanInstance, .window])
      (by simp [objectsDestroyedByCleanup]) (by simp [hi]) (by simp)
  · exact occursBefore_split
      ([.imageAvailableSemaphore, .renderFinishedSemaphore]
        ++ (List.range n).map Handle.framebuffer)
      ((List.range n).map Handle.imageView
        ++ [.vulkanSwapchain, .cmdPool, .graphicsPipeline, .pipelineLayout, .renderPass,
            .GPUDevice]
        ++ m.toList ++ [.vulkanSurface, .vulkanInstance, .window])
      (by simp [objectsDestroyedByCleanup]) (by simp [hi]) (by simp [hj])
  · exact occursBefore_split
      ([.imageAvailableSemaphore, .renderFinishedSemaphore]
        ++ (List.range n).map Handle.framebuffer ++ (List.range n).map Handle.imageView
        ++ [.vulkanSwapchain, .cmdPool, .graphicsPipeline])
      ([.pipelineLayout, .renderPass, .GPUDevice]
        ++ m.toList ++ [.vulkanSurface, .vulkanInstance, .window])
      (by simp [objectsDestroyedByCleanup]) (by simp) (by simp)
  · exact occursBefore_split
      ([.imageAvailableSemaphore, .renderFinishedSemaphore]
        ++ (List.range n).map Handle.framebuffer ++ (List.range n).map Handle.imageView
        ++ [.vulkanSwapchain, .cmdPool, .graphicsPipeline])
      ([.pipelineLayout, .renderPass, .GPUDevice]
        ++ m.toList ++ [.vulkanSurface, .vulkanInstance, .window])
      (by simp [objectsDestroyedByCleanup]) (by simp) (by simp)
  · exact occursBefore_split
      ([.imageAvailableSemaphore, .renderFinishedSemaphore]
        ++ (List.range n).map Handle.framebuffer ++ (List.range n).map Handle.imageView
        ++ [.vulkanSwapchain, .cmdPool])
      ([.graphicsPipeline, .pipelineLayout, .renderPass, .GPUDevice]
        ++ m.toList ++ [.vulkanSurface, .vulkanInstance, .window])
      (by simp [objectsDestroyedByCleanup]) (by simp) (by simp)
  · exact occursBefore_split
      ([.imageAvailableSemaphore, .renderFinishedSemaphore]
        ++ (List.range n).map Handle.framebuffer ++ (List.range n).map Handle.imageView
        ++ [.vulkanSwapchain])
      ([.cmdPool, .graphicsPipeline, .pipelineLayout, .renderPass, .GPUDevice]
        ++ m.toList ++ [.vulkanSurface, .vulkanInstance, .window])
      (by simp [objectsDestroyedByCleanup]) (by simp) (by simp)
  · exact occursBefore_split
      ([.imageAvailableSemaphore, .renderFinishedSemaphore]
        ++ (List.range n).map Handle.framebuffer ++ (List.range n).map Handle.imageView
        ++ [.vulkanSwapchain])
      ([.cmdPool, .graphicsPipeline, .pipelineLayout, .renderPass, .GPUDevice]
        ++ m.toList ++ [.vulkanSurface, .vulkanInstance, .window])
      (by simp [objectsDestroyedByCleanup]) (by simp) (by simp)
  · exact occursBefore_split
      ([.imageAvailableSemaphore, .renderFinishedSemaphore]
        ++ (List.range n).map Handle.framebuffer)
      ((List.range n).map Handle.imageView
        ++ [.vulkanSwapchain, .cmdPool, .graphicsPipeline, .pipelineLayout, .renderPass,
            .GPUDevice]
        ++ m.toList ++ [.vulkanSurface, .vulkanInstance, .window])
      (by simp [objectsDestroyedByCleanup]) (by simp [hi]) (by simp)

/-- The objects alive after a successful set-up and a returning frame
loop. -/
theorem liveObjects_after_loop {d : Platform} {p r : VulkanProgram}
    (hs : setup d {} = .ok p) (hl : vulkanProgramLoop d p = .ok r) :
    liveObjects r.trace =
      [.window, .vulkanInstance] ++ (if messengerCreated d then [.debugMessenger] else [])
      ++ [.vulkanSurface, .GPUDevice, .vulkanSwapchain]
      ++ (List.range d.swapchainImageCount).map Handle.imageView
      ++ [.renderPass, .pipelineLayout, .graphicsPipeline]
      ++ (List.range d.swapchainImageCount).map Handle.framebuffer
      ++ [.cmdPool, .imageAvailableSemaphore, .renderFinishedSemaphore] := by
  obtain ⟨hc, hd, _⟩ := run_ok hs hl
  unfold liveObjects
  rw [hc, hd]
  by_cases hm : messengerCreated d = true <;>
    simp [objectsCreatedBySetup, hm, List.filter_cons, List.filter_append, List.filter_map,
      Function.comp_def]

/-- The calls of `cleanup` create nothing. -/
theorem createdObjects_cleanupCalls (d : Platform) (p : VulkanProgram) :
    createdObjects (cleanupCalls d p) = [] := by
  rw [cleanupCalls_eq]
  by_cases h : d.vkGetInstanceProcAddr "vkDestroyDebugUtilsMessengerEXT" = true <;>
    simp [createdObjects, Call.created, h, List.filterMap_map, Function.comp_def,
      filterMap_none_fun]

/-- C6 (amended): after a set-up in which every step succeeded (the
diagnostics channel included), a frame loop that ended, and with the
loader resolving the messenger destroy entry point, `cleanup` destroys
the two semaphores, the framebuffers and the image views in index order,
the swapchain, the command pool, the pipeline, the pipeline layout, the
render pass, the device, the diagnostics channel, the surface, the
instance and the window, in this order; this sequence is a rearrangement
of the objects that were alive when `cleanup` started, it contains no
handle twice, and after `cleanup` no created object is left alive. -/
theorem cleanup_destroys_each_live_object_once {d : Platform} {p r : VulkanProgram}
    (hs : setup d {} = .ok p) (hl : vulkanProgramLoop d p = .ok r)
    (hm : messengerCreated d = true)
    (hd : d.vkGetInstanceProcAddr "vkDestroyDebugUtilsMessengerEXT" = true) :
    destroyedObjects (cleanupCalls d r) =
        [.imageAvailableSemaphore, .renderFinishedSemaphore]
        ++ (List.range d.swapchainImageCount).map Handle.framebuffer
        ++ (List.range d.swapchainImageCount).map Handle.imageView
        ++ [.vulkanSwapchain, .cmdPool, .graphicsPipeline, .pipelineLayout, .renderPass,
            .GPUDevice, .debugMessenger, .vulkanSurface, .vulkanInstance, .window]
      ∧ (destroyedObjects (cleanupCalls d r)).Perm (liveObjects r.trace)
      ∧ (destroyedObjects (cleanupCalls d r)).Nodup
      ∧ liveObjects (cleanup d r).trace = [] := by
  obtain ⟨hc, hdd, hcl⟩ := run_ok hs hl
  have hlive := liveObjects_after_loop hs hl
  simp only [hm, hd, if_true] at hcl hlive
  have e : destroyedObjects (cleanupCalls d r) =
        [.imageAvailableSemaphore, .renderFinishedSemaphore]
        ++ (List.range d.swapchainImageCount).map Handle.framebuffer
        ++ (List.range d.swapchainImageCount).map Handle.imageView
        ++ [.vulkanSwapchain, .cmdPool, .graphicsPipeline, .pipelineLayout, .renderPass,
            .GPUDevice, .debugMessenger, .vulkanSurface, .vulkanInstance, .window] := by
    rw [hcl]
    simp [objectsDestroyedByCleanup]
  have hperm : (destroyedObjects (cleanupCalls d r)).Perm (liveObjects r.trace) := by
    rw [e, hlive]
    generalize (List.range d.swapchainImageCount).map Handle.framebuffer = F
    generalize (List.range d.swapchainImageCount).map Handle.imageView = V
    rw [List.perm_iff_count]
    intro x
    simp only [List.count_append, List.count_cons, List.count_nil]
    omega
  refine ⟨e, hperm, ?_, ?_⟩
  · rw [e]
    have injF : Function.Injective Handle.framebuffer := fun a b h => by cases h; rfl
    have injV : Function.Injective Handle.imageView := fun a b h => by cases h; rfl
    simp [List.nodup_append, List.nodup_cons, List.nodup_map_iff injF,
      List.nodup_map_iff injV, List.nodup_range, List.Disjoint]
  · unfold liveObjects
    rw [cleanup_trace, createdObjects_append, destroyedObjects_append,
      createdObjects_cleanupCalls, List.append_nil, List.filter_eq_nil_iff]
    intro a ha
    simp only [decide_eq_true_eq, Decidable.not_not, List.mem_append]
    by_cases h0 : a ∈ destroyedObjects r.trace
    · exact Or.inl h0
    · refine Or.inr (hperm.mem_iff.2 ?_)
      unfold liveObjects
      simp [List.mem_filter, ha, h0]

/-- C6 (counterexample): on `samplePlatform 2 1` the set-up succeeds and
the frame loop ends, and the sequence of objects destroyed by `cleanup`
is not the reverse of the sequence in which the objects alive at that
point were created (the semaphores, for one, are destroyed in the order of
their creation). -/
theorem cleanup_not_reverse_of_creation :
    setup (samplePlatform 2 1) {} = .ok (sampleAfterSetup 2 1)
      ∧ vulkanProgramLoop (samplePlatform 2 1) (sampleAfterSetup 2 1)
          = .ok (sampleAfterLoop 2 1)
      ∧ destroyedObjects (cleanupCalls (samplePlatform 2 1) (sampleAfterLoop 2 1))
          ≠ (liveObjects (sampleAfterLoop 2 1).trace).reverse := by
  refine ⟨rfl, rfl, ?_⟩
  decide

/-- C6 (witness): on `samplePlatform 2 1` the hypotheses hold and `cleanup`
destroys the sixteen objects in the stated order. -/
theorem cleanup_destroys_each_live_object_once_witness :
    setup (samplePlatform 2 1) {} = .ok (sampleAfterSetup 2 1)
      ∧ vulkanProgramLoop (samplePlatform 2 1) (sampleAfterSetup 2 1)
          = .ok (sampleAfterLoop 2 1)
      ∧ destroyedObjects (cleanupCalls (samplePlatform 2 1) (sampleAfterLoop 2 1))
          = [.imageAvailableSemaphore, .renderFinishedSemaphore, .framebuffer 0,
             .framebuffer 1, .imageView 0, .imageView 1, .vulkanSwapchain, .cmdPool,
             .graphicsPipeline, .pipelineLayout, .renderPass, .GPUDevice, .debugMessenger,
             .vulkanSurface, .vulkanInstance, .window] :=
  ⟨rfl, rfl,
   (@cleanup_destroys_each_live_object_once (samplePlatform 2 1) _ _ rfl rfl rfl rfl).1.trans
     (by decide)⟩

/-- C7 (amended): after a successful set-up and a frame loop that ended,
`cleanup` destroys every image view before the swapchain, every
framebuffer before the render pass and before every image view, the
pipeline before the render pass and before the pipeline layout, the
command pool before the pipeline, and the swapchain before the device and
before the surface; the framebuffers, however, are destroyed before the
command pool. -/
theorem cleanup_dependency_order {d : Platform} {p r : VulkanProgram}
    (hs : setup d {} = .ok p) (hl : vulkanProgramLoop d p = .ok r) :
    (∀ i < d.swapchainImageCount,
        occursBefore (.imageView i) .vulkanSwapchain (destroyedObjects (cleanupCalls d r)))
      ∧ (∀ i < d.swapchainImageCount,
        occursBefore (.framebuffer i) .renderPass (destroyedObjects (cleanupCalls d r)))
      ∧ (∀ i < d.swapchainImageCount, ∀ j < d.swapchainImageCount,
        occursBefore (.framebuffer i) (.imageView j) (destroyedObjects (cleanupCalls d r)))
      ∧ occursBefore .graphicsPipeline .renderPass (destroyedObjects (cleanupCalls d r))
      ∧ occursBefore .graphicsPipeline .pipelineLayout (destroyedObjects (cleanupCalls d r))
      ∧ occursBefore .cmdPool .graphicsPipeline (destroyedObjects (cleanupCalls d r))
      ∧ occursBefore .vulkanSwapchain .GPUDevice (destroyedObjects (cleanupCalls d r))
      ∧ occursBefore .vulkanSwapchain .vulkanSurface (destroyedObjects (cleanupCalls d r))
      ∧ (∀ i < d.swapchainImageCount,
        occursBefore (.framebuffer i) .cmdPool (destroyedObjects (cleanupCalls d r))) := by
  rw [(run_ok hs hl).2.2]
  exact objectsDestroyedByCleanup_order _ _

/-- C7 (witness): on `samplePlatform 1 0` the hypotheses hold and the
image view is destroyed before the swapchain. -/
theorem cleanup_dependency_order_witness :
    setup (samplePlatform 1 0) {} = .ok (sampleAfterSetup 1 0)
      ∧ vulkanProgramLoop (samplePlatform 1 0) (sampleAfterSetup 1 0)
          = .ok (sampleAfterLoop 1 0)
      ∧ occursBefore (.imageView 0) .vulkanSwapchain
          (destroyedObjects (cleanupCalls (samplePlatform 1 0) (sampleAfterLoop 1 0))) :=
  ⟨rfl, rfl,
   (@cleanup_dependency_order (samplePlatform 1 0) _ _ rfl rfl).1 0 (by decide)⟩

/-- C7 (counterexample): on `samplePlatform 1 0` the set-up succeeds, the
frame loop ends, and `cleanup` does not destroy the command pool before
the framebuffer, although the command buffers of the pool depend on the
framebuffers: the framebuffer is destroyed first. -/
theorem cleanup_framebuffer_before_cmdPool :
    setup (samplePlatform 1 0) {} = .ok (sampleAfterSetup 1 0)
      ∧ vulkanProgramLoop (samplePlatform 1 0) (sampleAfterSetup 1 0)
          = .ok (sampleAfterLoop 1 0)
      ∧ ¬ occursBefore .cmdPool (.framebuffer 0)
          (destroyedObjects (cleanupCalls (samplePlatform 1 0) (sampleAfterLoop 1 0)))
      ∧ occursBefore (.framebuffer 0) .cmdPool
          (destroyedObjects (cleanupCalls (samplePlatform 1 0) (sampleAfterLoop 1 0))) := by
  refine ⟨rfl, rfl, ?_, ?_⟩
  · decide
  · decide

/-- Children of a concatenation. -/
theorem childrenOf_append (h : Handle) (s t : List Call) :
    childrenOf h (s ++ t) = childrenOf h s ++ childrenOf h t := by
  simp [childrenOf]

/-- The messenger calls create nothing from the device. -/
theorem childrenOf_messengerCalls (d : Platform) :
    childrenOf .GPUDevice (messengerCalls d) = [] := by
  unfold messengerCalls childrenOf
  by_cases h1 : d.vkGetInstanceProcAddr "vkCreateDebugUtilsMessengerEXT" = true <;>
    by_cases h2 : d.vkCreateDebugUtilsMessengerEXT = VK_SUCCESS <;>
    simp [h1, h2, Call.created, Call.parent]

/-- Recording creates nothing from the device. -/
theorem childrenOf_recorded (info : VulkanProgramInfo) (l : List Nat) :
    childrenOf .GPUDevice ((l.map (recordedCalls info)).flatten) = [] := by
  induction l with
  | nil => rfl
  | cons i l ih =>
    rw [List.map_cons, List.flatten_cons, childrenOf_append, ih]
    simp [childrenOf, recordedCalls, Call.created, Call.parent]

/-- The frame loop creates nothing from the device. -/
theorem childrenOf_frames (d : Platform) (info : VulkanProgramInfo) (l : List Nat) :
    childrenOf .GPUDevice ((l.map (frameCalls d info)).flatten) = [] := by
  induction l with
  | nil => rfl
  | cons i l ih =>
    rw [List.map_cons, List.flatten_cons, childrenOf_append, ih]
    simp [childrenOf, frameCalls, Call.created, Call.parent]

/-- The objects a successful set-up creates from the logical device. -/
theorem childrenOf_traceAfterSetup (d : Platform) (idx : Nat)
    (fmt : VkSurfaceFormatKHR) (vc fc : List Nat) :
    childrenOf .GPUDevice (traceAfterSetup d idx fmt vc fc)
      = [.vulkanSwapchain] ++ (List.range d.swapchainImageCount).map Handle.imageView
        ++ [.renderPass, .shaderModule "../src/vert.spv", .shaderModule "../src/frag.spv",
            .pipelineLayout, .graphicsPipeline]
        ++ (List.range d.swapchainImageCount).map Handle.framebuffer
        ++ [.cmdPool, .imageAvailableSemaphore, .renderFinishedSemaphore] := by
  simp only [traceAfterSetup, traceThroughCmdPool, traceBeforeRecording, childrenOf_append,
    childrenOf_messengerCalls, childrenOf_recorded]
  simp [childrenOf, Call.created, Call.parent, List.filterMap_map, Function.comp_def,
    filterMap_some_fun]

/-- C8 (amended): in the destroy sequence of a run whose set-up succeeded
and whose frame loop ended, every object created by a call on the logical
device is destroyed before the logical device (in `cleanup` itself: both
semaphores, every framebuffer, every image view, the swapchain, the
command pool, the pipeline, the pipeline layout and the render pass); the
logical device and the surface are destroyed before the instance, and so
is the diagnostics channel when it was created and the loader resolves its
destroy entry point; when the loader does not resolve that entry point,
`cleanup` logs a line on the error stream instead and the channel is not
destroyed at all; and the destruction of the instance is the last Vulkan
call of `cleanup`, followed only by the two calls that close the window
system. -/
theorem cleanup_device_and_instance_last {d : Platform} {p r : VulkanProgram}
    (hs : setup d {} = .ok p) (hl : vulkanProgramLoop d p = .ok r) :
    (∀ h ∈ childrenOf .GPUDevice r.trace,
        occursBefore h .GPUDevice (destroyedObjects (cleanup d r).trace))
      ∧ (∀ h ∈ [Handle.imageAvailableSemaphore, .renderFinishedSemaphore]
            ++ (List.range d.swapchainImageCount).map Handle.framebuffer
            ++ (List.range d.swapchainImageCount).map Handle.imageView
            ++ [.vulkanSwapchain, .cmdPool, .graphicsPipeline, .pipelineLayout, .renderPass],
          occursBefore h .GPUDevice (destroyedObjects (cleanupCalls d r)))
      ∧ occursBefore .GPUDevice .vulkanInstance (destroyedObjects (cleanupCalls d r))
      ∧ occursBefore .vulkanSurface .vulkanInstance (destroyedObjects (cleanupCalls d r))
      ∧ (messengerCreated d = true →
          d.vkGetInstanceProcAddr "vkDestroyDebugUtilsMessengerEXT" = true →
          occursBefore .debugMessenger .vulkanInstance (destroyedObjects (cleanupCalls d r)))
      ∧ (d.vkGetInstanceProcAddr "vkDestroyDebugUtilsMessengerEXT" = false →
          Handle.debugMessenger ∉ destroyedObjects (cleanup d r).trace
            ∧ Call.print .cerr "Could not find vkDestroyDebugUtilsMessenger"
                ∈ cleanupCalls d r)
      ∧ ∃ front, cleanupCalls d r
          = front ++ [.vkDestroyInstance .vulkanInstance, .glfwDestroyWindow .window,
              .glfwTerminate] := by
  obtain ⟨hc, hdd, hcl⟩ := run_ok hs hl
  obtain ⟨idx, fmt, vc, fc, _, _, _, _, w, i, t⟩ := setup_ok hs
  obtain ⟨w2, i2, t2⟩ := vulkanProgramLoop_ok hl
  have hch : childrenOf .GPUDevice r.trace
      = [.vulkanSwapchain] ++ (List.range d.swapchainImageCount).map Handle.imageView
        ++ [.renderPass, .shaderModule "../src/vert.spv", .shaderModule "../src/frag.spv",
            .pipelineLayout, .graphicsPipeline]
        ++ (List.range d.swapchainImageCount).map Handle.framebuffer
        ++ [.cmdPool, .imageAvailableSemaphore, .renderFinishedSemaphore] := by
    rw [t2, t, childrenOf_append, childrenOf_append, childrenOf_frames,
      childrenOf_traceAfterSetup]
    simp [childrenOf, Call.created, Call.parent]
  refine ⟨?_, ?_, ?_, ?_, ?_, ?_, ?_⟩
  · intro h hh
    rw [hch] at hh
    rw [cleanup_trace, destroyedObjects_append, hdd, hcl]
    refine occursBefore_split
      ([.shaderModule "../src/frag.spv", .shaderModule "../src/vert.spv",
          .imageAvailableSemaphore, .renderFinishedSemaphore]
        ++ (List.range d.swapchainImageCount).map Handle.framebuffer
        ++ (List.range d.swapchainImageCount).map Handle.imageView
        ++ [.vulkanSwapchain, .cmdPool, .graphicsPipeline, .pipelineLayout, .renderPass])
      (.GPUDevice :: ((if d.vkGetInstanceProcAddr "vkDestroyDebugUtilsMessengerEXT" then
            some (if messengerCreated d then Handle.debugMessenger else .null)
           else none).toList ++ [.vulkanSurface, .vulkanInstance, .window]))
      (by simp [objectsDestroyedByCleanup]) ?_ (by simp)
    simp only [List.mem_append] at hh
    rcases hh with (((h1 | h1) | h1) | h1) | h1
    · simp only [List.mem_singleton] at h1
      subst h1
      simp
    · simp only [List.mem_append, h1, true_or, or_true]
    · simp only [List.mem_cons, List.mem_singleton, List.mem_nil_iff, or_false] at h1
      rcases h1 with rfl | rfl | rfl | rfl | rfl <;> simp
    · simp only [List.mem_append, h1, true_or, or_true]
    · simp only [List.mem_cons, List.mem_singleton, List.mem_nil_iff, or_false] at h1
      rcases h1 with rfl | rfl | rfl <;> simp
  · intro h hh
    rw [hcl]
    exact occursBefore_split
      ([.imageAvailableSemaphore, .renderFinishedSemaphore]
        ++ (List.range d.swapchainImageCount).map Handle.framebuffer
        ++ (List.range d.swapchainImageCount).map Handle.imageView
        ++ [.vulkanSwapchain, .cmdPool, .graphicsPipeline, .pipelineLayout, .renderPass])
      (.GPUDevice :: ((if d.vkGetInstanceProcAddr "vkDestroyDebugUtilsMessengerEXT" then
            some (if messengerCreated d then Handle.debugMessenger else .null)
           else none).toList ++ [.vulkanSurface, .vulkanInstance, .window]))
      (by simp [objectsDestroyedByCleanup]) hh (by simp)
  · rw [hcl]
    exact occursBefore_split
      ([.imageAvailableSemaphore, .renderFinishedSemaphore]
        ++ (List.range d.swapchainImageCount).map Handle.framebuffer
        ++ (List.range d.swapchainImageCount).map Handle.imageView
        ++ [.vulkanSwapchain, .cmdPool, .graphicsPipeline, .pipelineLayout, .renderPass,
            .GPUDevice])
      ((if d.vkGetInstanceProcAddr "vkDestroyDebugUtilsMessengerEXT" then
            some (if messengerCreated d then Handle.debugMessenger else .null)
           else none).toList ++ [.vulkanSurface, .vulkanInstance, .window])
      (by simp [objectsDestroyedByCleanup]) (by simp) (by simp)
  · rw [hcl]
    exact occursBefore_split
      ([.imageAvailableSemaphore, .renderFinishedSemaphore]
        ++ (List.range d.swapchainImageCount).map Handle.framebuffer
        ++ (List.range d.swapchainImageCount).map Handle.imageView
        ++ [.vulkanSwapchain, .cmdPool, .graphicsPipeline, .pipelineLayout, .renderPass,
            .GPUDevice]
        ++ (if d.vkGetInstanceProcAddr "vkDestroyDebugUtilsMessengerEXT" then
            some (if messengerCreated d then Handle.debugMessenger else .null)
           else none).toList ++ [.vulkanSurface])
      [.vulkanInstance, .window]
      (by simp [objectsDestroyedByCleanup]) (by simp) (by simp)
  · intro hm hd
    rw [hcl]
    simp only [hm, hd, if_true]
    exact occursBefore_split
      ([.imageAvailableSemaphore, .renderFinishedSemaphore]
        ++ (List.range d.swapchainImageCount).map Handle.framebuffer
        ++ (List.range d.swapchainImageCount).map Handle.imageView
        ++ [.vulkanSwapchain, .cmdPool, .graphicsPipeline, .pipelineLayout, .renderPass,
            .GPUDevice, .debugMessenger])
      [.vulkanSurface, .vulkanInstance, .window]
      (by simp [objectsDestroyedByCleanup]) (by simp) (by simp)
  · intro hd
    constructor
    · rw [cleanup_trace, destroyedObjects_append, hdd, hcl]
      simp [objectsDestroyedByCleanup, hd]
    · rw [cleanupCalls_eq]
      simp [hd]
  · rw [cleanupCalls_eq, i2, w2, w, i]
    simp only [infoAfterSetup]
    refine ⟨[.vkDestroySemaphore .GPUDevice .imageAvailableSemaphore,
        .vkDestroySemaphore .GPUDevice .renderFinishedSemaphore]
      ++ ((List.range d.swapchainImageCount).map Handle.framebuffer).map
          (Call.vkDestroyFramebuffer .GPUDevice)
      ++ ((List.range d.swapchainImageCount).map Handle.imageView).map
          (Call.vkDestroyImageView .GPUDevice)
      ++ [.vkDestroySwapchainKHR .GPUDevice .vulkanSwapchain,
          .vkDestroyCommandPool .GPUDevice .cmdPool,
          .vkDestroyPipeline .GPUDevice .graphicsPipeline,
          .vkDestroyPipelineLayout .GPUDevice .pipelineLayout,
          .vkDestroyRenderPass .GPUDevice .renderPass,
          .vkDestroyDevice .GPUDevice,
          if d.vkGetInstanceProcAddr "vkDestroyDebugUtilsMessengerEXT" then
            .vkDestroyDebugUtilsMessengerEXT .vulkanInstance
              (if messengerCreated d then .debugMessenger else .null)
          else .print .cerr "Could not find vkDestroyDebugUtilsMessenger",
          .vkDestroySurfaceKHR .vulkanInstance .vulkanSurface], ?_⟩
    simp

/-- C8 (witness): on `samplePlatform 2 1` the hypotheses hold; the second
framebuffer is destroyed before the device and the diagnostics channel
before the instance. -/
theorem cleanup_device_and_instance_last_witness :
    setup (samplePlatform 2 1) {} = .ok (sampleAfterSetup 2 1)
      ∧ vulkanProgramLoop (samplePlatform 2 1) (sampleAfterSetup 2 1)
          = .ok (sampleAfterLoop 2 1)
      ∧ occursBefore (.framebuffer 1) .GPUDevice
          (destroyedObjects (cleanupCalls (samplePlatform 2 1) (sampleAfterLoop 2 1)))
      ∧ occursBefore .debugMessenger .vulkanInstance
          (destroyedObjects (cleanupCalls (samplePlatform 2 1) (sampleAfterLoop 2 1))) :=
  ⟨rfl, rfl,
   (@cleanup_device_and_instance_last (samplePlatform 2 1) _ _ rfl rfl).2.1
     (.framebuffer 1) (by decide),
   (@cleanup_device_and_instance_last (samplePlatform 2 1) _ _ rfl rfl).2.2.2.2.1 rfl rfl⟩

/-- When a call with property `P` splits a trace whose first part `T1`
has no call with that property, the part before the call extends `T1`. -/
theorem prefix_of_split {P : Call → Prop} {T1 T2 front back : List Call} {c : Call}
    (h : T1 ++ T2 = front ++ c :: back) (hT1 : ∀ x ∈ T1, ¬ P x) (hc : P c) :
    ∃ mid, front = T1 ++ mid := by
  rcases List.append_eq_append_iff.1 h with ⟨a, ha, _⟩ | ⟨b, hb, hb2⟩
  · exact ⟨a, ha⟩
  · rcases b with _ | ⟨x, b⟩
    · exact ⟨[], by simpa using hb.symm⟩
    · simp only [List.cons_append, List.cons.injEq] at hb2
      obtain ⟨rfl, _⟩ := hb2
      exact absurd hc (hT1 c (by rw [hb]; simp))

/-- No messenger call records. -/
theorem messengerCalls_not_recording (d : Platform) :
    ∀ c ∈ messengerCalls d, ¬ c.isRecording = true := by
  unfold messengerCalls
  by_cases h1 : d.vkGetInstanceProcAddr "vkCreateDebugUtilsMessengerEXT" = true <;>
    by_cases h2 : d.vkCreateDebugUtilsMessengerEXT = VK_SUCCESS <;>
    simp [h1, h2, Call.isRecording]

/-- The order of creation in a successful set-up, for the dependencies of
the data model. -/
theorem objectsCreatedBySetup_order (n : Nat) (m : Bool) :
    (m = true → occursBefore .vulkanInstance .debugMessenger (objectsCreatedBySetup n m))
      ∧ occursBefore .vulkanInstance .vulkanSurface (objectsCreatedBySetup n m)
      ∧ occursBefore .vulkanSurface .GPUDevice (objectsCreatedBySetup n m)
      ∧ occursBefore .GPUDevice .vulkanSwapchain (objectsCreatedBySetup n m)
      ∧ occursBefore .vulkanSurface .vulkanSwapchain (objectsCreatedBySetup n m)
      ∧ (∀ i < n, occursBefore .vulkanSwapchain (.imageView i) (objectsCreatedBySetup n m))
      ∧ occursBefore .vulkanSwapchain .renderPass (objectsCreatedBySetup n m)
      ∧ occursBefore .renderPass .graphicsPipeline (objectsCreatedBySetup n m)
      ∧ occursBefore .pipelineLayout .graphicsPipeline (objectsCreatedBySetup n m)
      ∧ (∀ i < n, occursBefore .renderPass (.framebuffer i) (objectsCreatedBySetup n m))
      ∧ (∀ i < n, ∀ j < n,
          occursBefore (.imageView j) (.framebuffer i) (objectsCreatedBySetup n m))
      ∧ occursBefore .GPUDevice .imageAvailableSemaphore (objectsCreatedBySetup n m)
      ∧ occursBefore .GPUDevice .renderFinishedSemaphore (objectsCreatedBySetup n m) := by
  refine ⟨fun hm => ?_, ?_, ?_, ?_, ?_, fun i hi => ?_, ?_, ?_, ?_, fun i hi => ?_,
    fun i hi j hj => ?_, ?_, ?_⟩
  · subst hm
    exact occursBefore_split [.window, .vulkanInstance]
      ([.debugMessenger, .vulkanSurface, .GPUDevice, .vulkanSwapchain]
        ++ (List.range n).map Handle.imageView
        ++ [.renderPass, .shaderModule "../src/vert.spv", .shaderModule "../src/frag.spv",
            .pipelineLayout, .graphicsPipeline]
        ++ (List.range n).map Handle.framebuffer
        ++ [.cmdPool, .imageAvailableSemaphore, .renderFinishedSemaphore])
      (by simp [objectsCreatedBySetup]) (by simp) (by simp)
  · exact occursBefore_split ([.window, .vulkanInstance] ++ (if m then [.debugMessenger] else []))
      ([.vulkanSurface, .GPUDevice, .vulkanSwapchain]
        ++ (List.range n).map Handle.imageView
        ++ [.renderPass, .shaderModule "../src/vert.spv", .shaderModule "../src/frag.spv",
            .pipelineLayout, .graphicsPipeline]
        ++ (List.range n).map Handle.framebuffer
        ++ [.cmdPool, .imageAvailableSemaphore, .renderFinishedSemaphore])
      (by simp [objectsCreatedBySetup]) (by simp) (by simp)
  · exact occursBefore_split
      ([.window, .vulkanInstance] ++ (if m then [.debugMessenger] else []) ++ [.vulkanSurface])
      ([.GPUDevice, .vulkanSwapchain]
        ++ (List.range n).map Handle.imageView
        ++ [.renderPass, .shaderModule "../src/vert.spv", .shaderModule "../src/frag.spv",
            .pipelineLayout, .graphicsPipeline]
        ++ (List.range n).map Handle.framebuffer
        ++ [.cmdPool, .imageAvailableSemaphore, .renderFinishedSemaphore])
      (by simp [objectsCreatedBySetup]) (by simp) (by simp)
  · exact occursBefore_split
      ([.window, .vulkanInstance] ++ (if m then [.debugMessenger] else [])
        ++ [.vulkanSurface, .GPUDevice])
      ([.vulkanSwapchain]
        ++ (List.range n).map Handle.imageView
        ++ [.renderPass, .shaderModule "../src/vert.spv", .shaderModule "../src/frag.spv",
            .pipelineLayout, .graphicsPipeline]
        ++ (List.range n).map Handle.framebuffer
        ++ [.cmdPool, .imageAvailableSemaphore, .renderFinishedSemaphore])
      (by simp [objectsCreatedBySetup]) (by simp) (by simp)
  · exact occursBefore_split
      ([.window, .vulkanInstance] ++ (if m then [.debugMessenger] else [])
        ++ [.vulkanSurface, .GPUDevice])
      ([.vulkanSwapchain]
        ++ (List.range n).map Handle.imageView
        ++ [.renderPass, .shaderModule "../src/vert.spv", .shaderModule "../src/frag.spv",
            .pipelineLayout, .graphicsPipeline]
        ++ (List.range n).map Handle.framebuffer
        ++ [.cmdPool, .imageAvailableSemaphore, .renderFinishedSemaphore])
      (by simp [objectsCreatedBySetup]) (by simp) (by simp)
  · exact occursBefore_split
      ([.window, .vulkanInstance] ++ (if m then [.debugMessenger] else [])
        ++ [.vulkanSurface, .GPUDevice, .vulkanSwapchain])
      ((List.range n).map Handle.imageView
        ++ [.renderPass, .shaderModule "../src/vert.spv", .shaderModule "../src/frag.spv",
            .pipelineLayout, .graphicsPipeline]
        ++ (List.range n).map Handle.framebuffer
        ++ [.cmdPool, .imageAvailableSemaphore, .renderFinishedSemaphore])
      (by simp [objectsCreatedBySetup]) (by simp) (by simp [hi])
  · exact occursBefore_split
      ([.window, .vulkanInstance] ++ (if m then [.debugMessenger] else [])
        ++ [.vulkanSurface, .GPUDevice, .vulkanSwapchain])
      ((List.range n).map Handle.imageView
        ++ [.renderPass, .shaderModule "../src/vert.spv", .shaderModule "../src/frag.spv",
            .pipelineLayout, .graphicsPipeline]
        ++ (List.range n).map Handle.framebuffer
        ++ [.cmdPool, .imageAvailableSemaphore, .renderFinishedSemaphore])
      (by simp [objectsCreatedBySetup]) (by simp) (by simp)
  · exact occursBefore_split
      ([.window, .vulkanInstance] ++ (if m then [.debugMessenger] else [])
        ++ [.vulkanSurface, .GPUDevice, .vulkanSwapchain]
        ++ (List.range n).map Handle.imageView
        ++ [.renderPass, .shaderModule "../src/vert.spv", .shaderModule "../src/frag.spv",
            .pipelineLayout])
      ([.graphicsPipeline]
        ++ (List.range n).map Handle.framebuffer
        ++ [.cmdPool, .imageAvailableSemaphore, .renderFinishedSemaphore])
      (by simp [objectsCreatedBySetup]) (by simp) (by simp)
  · exact occursBefore_split
      ([.window, .vulkanInstance] ++ (if m then [.debugMessenger] else [])
        ++ [.vulkanSurface, .GPUDevice, .vulkanSwapchain]
        ++ (List.range n).map Handle.imageView
        ++ [.renderPass, .shaderModule "../src/vert.spv", .shaderModule "../src/frag.spv",
            .pipelineLayout])
      ([.graphicsPipeline]
        ++ (List.range n).map Handle.framebuffer
        ++ [.cmdPool, .imageAvailableSemaphore, .renderFinishedSemaphore])
      (by simp [objectsCreatedBySetup]) (by simp) (by simp)
  · exact occursBefore_split
      ([.window, .vulkanInstance] ++ (if m then [.debugMessenger] else [])
        ++ [.vulkanSurface, .GPUDevice, .vulkanSwapchain]
        ++ (List.range n).map Handle.imageView
        ++ [.renderPass, .shaderModule "../src/vert.spv", .shaderModule "../src/frag.spv",
            .pipelineLayout, .graphicsPipeline])
      ((List.range n).map Handle.framebuffer
        ++ [.cmdPool, .imageAvailableSemaphore, .renderFinishedSemaphore])
      (by simp [objectsCreatedBySetup]) (by simp) (by simp [hi])
  · exact occursBefore_split
      ([.window, .vulkanInstance] ++ (if m then [.debugMessenger] else [])
        ++ [.vulkanSurface, .GPUDevice, .vulkanSwapchain]
        ++ (List.range n).map Handle.imageView
        ++ [.renderPass, .shaderModule "../src/vert.spv", .shaderModule "../src/frag.spv",
            .pipelineLayout, .graphicsPipeline])
      ((List.range n).map Handle.framebuffer
        ++ [.cmdPool, .imageAvailableSemaphore, .renderFinishedSemaphore])
      (by simp [objectsCreatedBySetup]) (by simp [hj]) (by simp [hi])
  · exact occursBefore_split
      ([.window, .vulkanInstance] ++ (if m then [.debugMessenger] else [])
        ++ [.vulkanSurface, .GPUDevice])
      ([.vulkanSwapchain]
        ++ (List.range n).map Handle.imageView
        ++ [.renderPass, .shaderModule "../src/vert.spv", .shaderModule "../src/frag.spv",
            .pipelineLayout, .graphicsPipeline]
        ++ (List.range n).map Handle.framebuffer
        ++ [.cmdPool, .imageAvailableSemaphore, .renderFinishedSemaphore])
      (by simp [objectsCreatedBySetup]) (by simp) (by simp)
  · exact occursBefore_split
      ([.window, .vulkanInstance] ++ (if m then [.debugMessenger] else [])
        ++ [.vulkanSurface, .GPUDevice])
      ([.vulkanSwapchain]
        ++ (List.range n).map Handle.imageView
        ++ [.renderPass, .shaderModule "../src/vert.spv", .shaderModule "../src/frag.spv",
            .pipelineLayout, .graphicsPipeline]
        ++ (List.range n).map Handle.framebuffer
        ++ [.cmdPool, .imageAvailableSemaphore, .renderFinishedSemaphore])
      (by simp [objectsCreatedBySetup]) (by simp) (by simp)

/-- No call before the recording loop records. -/
theorem traceBeforeRecording_not_recording (d : Platform) (idx : Nat)
    (fmt : VkSurfaceFormatKHR) (vc fc : List Nat) :
    ∀ c ∈ traceBeforeRecording d idx fmt vc fc, ¬ c.isRecording = true := by
  intro c hc
  simp only [traceBeforeRecording, List.mem_append] at hc
  rcases hc with (((((h | h) | h) | h) | h) | h) | h
  · simp only [List.mem_cons, List.mem_singleton, List.mem_nil_iff, or_false] at h
    rcases h with rfl | rfl | rfl <;> simp [Call.isRecording]
  · exact messengerCalls_not_recording d c h
  · simp only [List.mem_cons, List.mem_singleton, List.mem_nil_iff, or_false] at h
    rcases h with rfl | rfl | rfl <;> simp [Call.isRecording]
  · simp only [List.mem_map] at h
    obtain ⟨i, _, rfl⟩ := h
    simp [Call.isRecording]
  · simp only [List.mem_cons, List.mem_singleton, List.mem_nil_iff, or_false] at h
    rcases h with rfl | rfl | rfl | rfl | rfl | rfl | rfl <;> simp [Call.isRecording]
  · simp only [List.mem_map] at h
    obtain ⟨i, _, rfl⟩ := h
    simp [Call.isRecording]
  · simp only [List.mem_cons, List.mem_singleton, List.mem_nil_iff, or_false] at h
    rcases h with rfl | rfl <;> simp [Call.isRecording]

/-- The objects created before the recording loop starts. -/
theorem createdObjects_traceBeforeRecording (d : Platform) (idx : Nat)
    (fmt : VkSurfaceFormatKHR) (vc fc : List Nat) :
    createdObjects (traceBeforeRecording d idx fmt vc fc)
      = [.window, .vulkanInstance] ++ (if messengerCreated d then [.debugMessenger] else [])
        ++ [.vulkanSurface, .GPUDevice, .vulkanSwapchain]
        ++ (List.range d.swapchainImageCount).map Handle.imageView
        ++ [.renderPass, .shaderModule "../src/vert.spv", .shaderModule "../src/frag.spv",
            .pipelineLayout, .graphicsPipeline]
        ++ (List.range d.swapchainImageCount).map Handle.framebuffer
        ++ [.cmdPool] := by
  simp only [traceBeforeRecording, createdObjects_append, createdObjects_messengerCalls]
  simp [createdObjects, Call.created, List.filterMap_map, Function.comp_def,
    filterMap_some_fun]

/-- The creation order of a set-up that succeeds: the instance is created
before the diagnostics channel and the surface; the surface before the
logical device, which is created on the physical device chosen before
(device 0); the device and the surface before the swapchain; the
swapchain before each image view and before the render pass; the render
pass and the pipeline layout before the pipeline; the render pass and
every image view before each framebuffer; the device before the two
semaphores; and every call that records into a command buffer is issued
after the pipeline and every framebuffer have been created. -/
theorem creation_order_of_setup {d : Platform} {p : VulkanProgram} (hs : setup d {} = .ok p) :
    (messengerCreated d = true →
        occursBefore .vulkanInstance .debugMessenger (createdObjects p.trace))
      ∧ occursBefore .vulkanInstance .vulkanSurface (createdObjects p.trace)
      ∧ occursBefore .vulkanSurface .GPUDevice (createdObjects p.trace)
      ∧ occursBefore .GPUDevice .vulkanSwapchain (createdObjects p.trace)
      ∧ occursBefore .vulkanSurface .vulkanSwapchain (createdObjects p.trace)
      ∧ (∀ i < d.swapchainImageCount,
          occursBefore .vulkanSwapchain (.imageView i) (createdObjects p.trace))
      ∧ occursBefore .vulkanSwapchain .renderPass (createdObjects p.trace)
      ∧ occursBefore .renderPass .graphicsPipeline (createdObjects p.trace)
      ∧ occursBefore .pipelineLayout .graphicsPipeline (createdObjects p.trace)
      ∧ (∀ i < d.swapchainImageCount,
          occursBefore .renderPass (.framebuffer i) (createdObjects p.trace))
      ∧ (∀ i < d.swapchainImageCount, ∀ j < d.swapchainImageCount,
          occursBefore (.imageView j) (.framebuffer i) (createdObjects p.trace))
      ∧ occursBefore .GPUDevice .imageAvailableSemaphore (createdObjects p.trace)
      ∧ occursBefore .GPUDevice .renderFinishedSemaphore (createdObjects p.trace)
      ∧ (p.vulkanProgramInfo.chosenGPU = .physicalDevice 0
          ∧ ∀ c ∈ p.trace, c.created = some .GPUDevice →
              c.parent = some p.vulkanProgramInfo.chosenGPU)
      ∧ ∀ front c back, p.trace = front ++ c :: back → c.isRecording = true →
          .graphicsPipeline ∈ createdObjects front
            ∧ ∀ i < d.swapchainImageCount, .framebuffer i ∈ createdObjects front := by
  obtain ⟨idx, fmt, vc, fc, _, _, _, _, w, i, t⟩ := setup_ok hs
  have hc : createdObjects p.trace
      = objectsCreatedBySetup d.swapchainImageCount (messengerCreated d) := by
    rw [t, createdObjects_traceAfterSetup]
  rw [hc]
  obtain ⟨o1, o2, o3, o4, o5, o6, o7, o8, o9, o10, o11, o12, o13⟩ :=
    objectsCreatedBySetup_order d.swapchainImageCount (messengerCreated d)
  refine ⟨o1, o2, o3, o4, o5, o6, o7, o8, o9, o10, o11, o12, o13, ⟨?_, ?_⟩, ?_⟩
  · rw [i]
    rfl
  · intro c hcm hcr
    rw [i]
    rw [t] at hcm
    simp only [traceAfterSetup, traceThroughCmdPool, List.mem_append] at hcm
    rcases hcm with (hT1 | hR) | hS
    · simp only [traceBeforeRecording, List.mem_append] at hT1
      rcases hT1 with (((((h | h) | h) | h) | h) | h) | h
      · simp only [List.mem_cons, List.mem_singleton, List.mem_nil_iff, or_false] at h
        rcases h with rfl | rfl | rfl <;> simp [Call.created] at hcr
      · have hmem : Handle.GPUDevice ∈ createdObjects (messengerCalls d) :=
          List.mem_filterMap.2 ⟨c, h, hcr⟩
        rw [createdObjects_messengerCalls] at hmem
        split_ifs at hmem <;> simp at hmem
      · simp only [List.mem_cons, List.mem_singleton, List.mem_nil_iff, or_false] at h
        rcases h with rfl | rfl | rfl
        · simp [Call.created] at hcr
        · simp [Call.parent, infoAfterSetup]
        · simp [Call.created] at hcr
      · simp only [List.mem_map] at h
        obtain ⟨k, _, rfl⟩ := h
        simp [Call.created] at hcr
      · simp only [List.mem_cons, List.mem_singleton, List.mem_nil_iff, or_false] at h
        rcases h with rfl | rfl | rfl | rfl | rfl | rfl | rfl <;> simp [Call.created] at hcr
      · simp only [List.mem_map] at h
        obtain ⟨k, _, rfl⟩ := h
        simp [Call.created] at hcr
      · simp only [List.mem_cons, List.mem_singleton, List.mem_nil_iff, or_false] at h
        rcases h with rfl | rfl <;> simp [Call.created] at hcr
    · have hmem : Handle.GPUDevice ∈ createdObjects
          ((List.range d.swapchainImageCount).map
            (recordedCalls (infoAfterSetup d idx fmt))).flatten :=
        List.mem_filterMap.2 ⟨c, hR, hcr⟩
      rw [createdObjects_recorded] at hmem
      simp at hmem
    · simp only [List.mem_cons, List.mem_singleton, List.mem_nil_iff, or_false] at hS
      rcases hS with rfl | rfl <;> simp [Call.created] at hcr
  · intro front c back hsplit hrec
    rw [t, traceAfterSetup, traceThroughCmdPool, List.append_assoc] at hsplit
    obtain ⟨mid, hmid⟩ := @prefix_of_split (fun c => c.isRecording = true) _ _ _ _ _ hsplit
      (traceBeforeRecording_not_recording d idx fmt vc fc) hrec
    rw [hmid, createdObjects_append, createdObjects_traceBeforeRecording]
    refine ⟨by simp, fun k hk => by simp [hk]⟩

/-! ## Parallel arrays -/

/-- C10: when the set-up has succeeded up to and including
`createCmdPool`, the vectors `swapchainImages`, `imageViews`,
`swapchainFramebuffers` and `cmdBuffers` all have the length the driver
reported as the image count of the swapchain, and `createSemaphores`
leaves these lengths as they are. -/
theorem parallel_arrays_same_length {d : Platform} {q : VulkanProgram}
    (h : setupThroughCmdPool d {} = .ok q) :
    (q.vulkanProgramInfo.swapchainImages.length = d.swapchainImageCount
        ∧ q.vulkanProgramInfo.imageViews.length = d.swapchainImageCount
        ∧ q.vulkanProgramInfo.swapchainFramebuffers.length = d.swapchainImageCount
        ∧ q.vulkanProgramInfo.cmdBuffers.length = d.swapchainImageCount)
      ∧ ∀ r, createSemaphores d q = .ok r →
          r.vulkanProgramInfo.swapchainImages.length = d.swapchainImageCount
            ∧ r.vulkanProgramInfo.imageViews.length = d.swapchainImageCount
            ∧ r.vulkanProgramInfo.swapchainFramebuffers.length = d.swapchainImageCount
            ∧ r.vulkanProgramInfo.cmdBuffers.length = d.swapchainImageCount := by
  obtain ⟨idx, fmt, vc, fc, _, _, _, _, _, i, _⟩ := setupThroughCmdPool_ok h
  have hcmd : (infoAfterSetup d idx fmt).cmdBuffers.length = d.swapchainImageCount := by
    simp only [infoAfterSetup]
    split_ifs <;> simp
  have key : q.vulkanProgramInfo.swapchainImages.length = d.swapchainImageCount
      ∧ q.vulkanProgramInfo.imageViews.length = d.swapchainImageCount
      ∧ q.vulkanProgramInfo.swapchainFramebuffers.length = d.swapchainImageCount
      ∧ q.vulkanProgramInfo.cmdBuffers.length = d.swapchainImageCount := by
    rw [i]
    exact ⟨by simp [infoAfterSetup], by simp [infoAfterSetup], by simp [infoAfterSetup], hcmd⟩
  refine ⟨key, fun r hr => ?_⟩
  obtain ⟨_, i2, _⟩ := createSemaphores_ok hr
  rw [i2]
  exact key

/-- C10 (witness): on `samplePlatform 3 0` the set-up succeeds up to and
including `createCmdPool`, and the command-buffer vector has three
elements. -/
theorem parallel_arrays_same_length_witness :
    setupThroughCmdPool (samplePlatform 3 0) {}
        = .ok (stateOf (setupThroughCmdPool (samplePlatform 3 0) {}))
      ∧ (stateOf (setupThroughCmdPool (samplePlatform 3 0) {})).vulkanProgramInfo.cmdBuffers.length
          = 3 :=
  ⟨rfl, (@parallel_arrays_same_length (samplePlatform 3 0) _ rfl).1.2.2.2⟩

/-- The empty trace respects the creation order. -/
theorem creationOrdered_nil (n : Nat) : CreationOrdered n [] := by
  intro front c back h
  simp at h

/-- Appending one call keeps the creation order exactly when what the
call needs has been created. -/
theorem creationOrdered_snoc (n : Nat) (t : List Call) (c : Call) :
    CreationOrdered n (t ++ [c]) ↔
      CreationOrdered n t ∧ ∀ h ∈ c.needs n, h ∈ createdObjects t := by
  constructor
  · intro h
    refine ⟨fun front x back ht => h front x (back ++ [c]) (by rw [ht]; simp), ?_⟩
    exact h t c [] rfl
  · rintro ⟨h1, h2⟩ front x back ht
    rcases List.eq_nil_or_concat back with hb | ⟨back2, y, hb⟩
    · subst hb
      have := List.append_inj' ht (by simp)
      obtain ⟨rfl, hx⟩ := this
      simp only [List.cons.injEq, and_true] at hx
      subst hx
      exact h2
    · subst hb
      rw [List.concat_eq_append, ← List.cons_append, ← List.append_assoc] at ht
      have := List.append_inj' ht (by simp)
      obtain ⟨ht2, _⟩ := this
      exact h1 front x back2 ht2

/-- Appending calls that need nothing new keeps the creation order. -/
theorem creationOrdered_append (n : Nat) (t ext : List Call)
    (ht : CreationOrdered n t)
    (hext : ∀ c ∈ ext, ∀ h ∈ c.needs n, h ∈ createdObjects t) :
    CreationOrdered n (t ++ ext) := by
  induction ext using List.reverseRecOn with
  | nil => simpa using ht
  | append_singleton ext c ih =>
    rw [← List.append_assoc, creationOrdered_snoc]
    refine ⟨ih (fun x hx => hext x (by simp [hx])), fun h hh => ?_⟩
    rw [createdObjects_append]
    exact List.mem_append_left _ (hext c (by simp) h hh)

/-- Sequencing two steps. -/
theorem holds_bind {Q R : VulkanProgram → Prop} {S : List Call → Prop} {x : Step}
    {f : VulkanProgram → Step} (hx : Holds Q S x) (hf : ∀ p, Q p → Holds R S (f p)) :
    Holds R S (x >>= f) := by
  cases x with
  | error e => exact hx
  | ok p => exact hf p hx

/-! ## The creation order along every run -/

/-- Emitting a call keeps the creation order exactly when what the call
needs has been created. -/
theorem creationOrdered_emit (n : Nat) (c : Call) (p : VulkanProgram) :
    CreationOrdered n (emit c p).trace ↔
      CreationOrdered n p.trace ∧ ∀ h ∈ c.needs n, h ∈ createdObjects p.trace := by
  simp only [emit, creationOrdered_snoc]

/-- The created objects after emitting a call. -/
theorem mem_createdObjects_emit (h : Handle) (c : Call) (p : VulkanProgram) :
    h ∈ createdObjects (emit c p).trace ↔ h ∈ createdObjects p.trace ∨ c.created = some h := by
  simp only [emit, createdObjects_append, List.mem_append]
  simp [createdObjects]

/-- Emitting a call leaves the window untouched. -/
theorem emit_window (c : Call) (p : VulkanProgram) : (emit c p).window = p.window := rfl

/-- Emitting a call leaves `vulkanProgramInfo` untouched. -/
theorem emit_info (c : Call) (p : VulkanProgram) :
    (emit c p).vulkanProgramInfo = p.vulkanProgramInfo := rfl

/-- Emitting a call leaves `vkResult` untouched. -/
theorem emit_vkResult (c : Call) (p : VulkanProgram) : (emit c p).vkResult = p.vkResult := rfl

/-- What `Holds` says of a step that returned. -/
theorem holds_ok (Q : VulkanProgram → Prop) (S : List Call → Prop) (p : VulkanProgram) :
    Holds Q S (.ok p) ↔ Q p := Iff.rfl

/-- What `Holds` says of a step that did not return. -/
theorem holds_error (Q : VulkanProgram → Prop) (S : List Call → Prop)
    (e : Termination × VulkanProgram) : Holds Q S (.error e) ↔ S e.2.trace := Iff.rfl

/-- A failing step keeps the creation order. -/
theorem holds_fail (n : Nat) (Q : VulkanProgram → Prop) (stream : Stream) (line : String)
    (p : VulkanProgram) :
    Holds Q (CreationOrdered n) (fail stream line p) ↔ CreationOrdered n p.trace := by
  simp [Holds, fail, failure, creationOrdered_emit, Call.needs]

/-- The creation order through `createGLFWWindow`. -/
theorem createGLFWWindow_ordered (n : Nat) (d : Platform) (p : VulkanProgram)
    (ho : CreationOrdered n p.trace) :
    Holds (fun q => CreationOrdered n q.trace
        ∧ ∀ h ∈ createdObjects p.trace, h ∈ createdObjects q.trace)
      (CreationOrdered n) (createGLFWWindow d p) := by
  unfold createGLFWWindow
  simp only [emit_window, emit_info, emit_vkResult]
  repeat' split
  all_goals
    simp [holds_ok, holds_fail, creationOrdered_emit, mem_createdObjects_emit, Call.needs, ho]
  all_goals
    intro h hh
    exact Or.inl (Or.inl hh)

/-- The creation order through `createVulkanInstance`. -/
theorem createVulkanInstance_ordered (n : Nat) (d : Platform) (p : VulkanProgram)
    (ho : CreationOrdered n p.trace) :
    Holds (fun q => CreationOrdered n q.trace
        ∧ (∀ h ∈ createdObjects p.trace, h ∈ createdObjects q.trace)
        ∧ .vulkanInstance ∈ createdObjects q.trace)
      (CreationOrdered n) (createVulkanInstance d p) := by
  unfold createVulkanInstance
  by_cases hproc : d.vkGetInstanceProcAddr "vkCreateDebugUtilsMessengerEXT" = true <;>
    by_cases hr : d.vkCreateDebugUtilsMessengerEXT = VK_SUCCESS <;>
    simp only [createDebugUtilsMessenger, hproc, hr, if_true, if_false, Bool.false_eq_true,
      emit_window, emit_info, emit_vkResult] <;>
    repeat' split
  all_goals
    simp_all [holds_ok, holds_fail, creationOrdered_emit, mem_createdObjects_emit, Call.needs,
      Call.created, VK_ERROR_EXTENSION_NOT_PRESENT, VK_SUCCESS]

/-- Weakening what `Holds` says of a returning step. -/
theorem holds_mono {Q R : VulkanProgram → Prop} {S : List Call → Prop} {x : Step}
    (hx : Holds Q S x) (h : ∀ q, Q q → R q) : Holds R S x := by
  cases x with
  | error e => exact hx
  | ok p => exact h p hx

/-- Adding what is known of the state a step returns. -/
theorem holds_and_ok {Q R : VulkanProgram → Prop} {S : List Call → Prop} {x : Step}
    (hx : Holds Q S x) (h : ∀ q, x = .ok q → R q) : Holds (fun q => Q q ∧ R q) S x := by
  cases x with
  | error e => exact hx
  | ok p => exact ⟨hx, h p rfl⟩

/-- The creation order through `surfaceVulkanAndWindow`. -/
theorem surfaceVulkanAndWindow_ordered (n : Nat) (d : Platform) (p : VulkanProgram)
    (ho : CreationOrdered n p.trace) (h1 : .vulkanInstance ∈ createdObjects p.trace) :
    Holds (fun q => CreationOrdered n q.trace
        ∧ (∀ h ∈ createdObjects p.trace, h ∈ createdObjects q.trace)
        ∧ .vulkanSurface ∈ createdObjects q.trace)
      (CreationOrdered n) (surfaceVulkanAndWindow d p) := by
  unfold surfaceVulkanAndWindow
  simp only [emit_window, emit_info, emit_vkResult]
  repeat' split
  all_goals
    simp_all [holds_ok, holds_fail, creationOrdered_emit, mem_createdObjects_emit, Call.needs,
      Call.created]

/-- The creation order through `createDevice`. -/
theorem createDevice_ordered (n : Nat) (d : Platform) (p : VulkanProgram)
    (ho : CreationOrdered n p.trace) (h1 : .vulkanSurface ∈ createdObjects p.trace) :
    Holds (fun q => CreationOrdered n q.trace
        ∧ (∀ h ∈ createdObjects p.trace, h ∈ createdObjects q.trace)
        ∧ .GPUDevice ∈ createdObjects q.trace)
      (CreationOrdered n) (createDevice d p) := by
  unfold createDevice
  simp only [emit_window, emit_info, emit_vkResult]
  repeat' split
  all_goals
    simp_all [holds_ok, holds_error, holds_fail, creationOrdered_emit, mem_createdObjects_emit,
      Call.needs, Call.created]

/-- The creation order through the image-view loop. -/
theorem imageViewLoop_ordered (n : Nat) (d : Platform) (format : Nat) :
    ∀ (remaining i : Nat) (p : VulkanProgram), CreationOrdered n p.trace →
      .vulkanSwapchain ∈ createdObjects p.trace →
      Holds (fun q => CreationOrdered n q.trace
          ∧ ∀ h ∈ createdObjects p.trace, h ∈ createdObjects q.trace)
        (CreationOrdered n) (imageViewLoop d format remaining i p) := by
  intro remaining
  induction remaining with
  | zero =>
    intro i p ho h1
    simp [imageViewLoop, holds_ok, ho]
  | succ k ih =>
    intro i p ho h1
    rw [imageViewLoop]
    simp only [emit_window, emit_info, emit_vkResult]
    split
    · simp [holds_fail, creationOrdered_emit, Call.needs, ho, h1]
    · refine holds_mono (ih _ _ ?_ ?_) ?_
      · simp [creationOrdered_emit, Call.needs, ho, h1]
      · simp [mem_createdObjects_emit, h1]
      · rintro q ⟨hq1, hq2⟩
        refine ⟨hq1, fun h hh => hq2 h ?_⟩
        simp [mem_createdObjects_emit, hh]

/-- The creation order through `createSwapchain`. -/
theorem createSwapchain_ordered (n : Nat) (d : Platform) (p : VulkanProgram)
    (ho : CreationOrdered n p.trace) (h1 : .GPUDevice ∈ createdObjects p.trace)
    (h2 : .vulkanSurface ∈ createdObjects p.trace) :
    Holds (fun q => CreationOrdered n q.trace
        ∧ ∀ h ∈ createdObjects p.trace, h ∈ createdObjects q.trace)
      (CreationOrdered n) (createSwapchain d p) := by
  unfold createSwapchain
  simp only [emit_window, emit_info, emit_vkResult]
  repeat' split
  all_goals try
    simp_all [holds_ok, holds_error, holds_fail, creationOrdered_emit, mem_createdObjects_emit,
      Call.needs, Call.created]
  refine holds_mono (imageViewLoop_ordered n d _ _ _ _ ?_ ?_) ?_
  · simp_all [creationOrdered_emit, Call.needs]
  · simp_all [mem_createdObjects_emit, Call.created]
  · rintro q ⟨hq1, hq2⟩
    refine ⟨hq1, fun h hh => hq2 h ?_⟩
    simp [mem_createdObjects_emit, hh]

/-- The creation order through `createGraphicsPipeline`. -/
theorem createGraphicsPipeline_ordered (n : Nat) (d : Platform) (p : VulkanProgram)
    (ho : CreationOrdered n p.trace) (h1 : .vulkanSwapchain ∈ createdObjects p.trace) :
    Holds (fun q => CreationOrdered n q.trace
        ∧ (∀ h ∈ createdObjects p.trace, h ∈ createdObjects q.trace)
        ∧ .renderPass ∈ createdObjects q.trace)
      (CreationOrdered n) (createGraphicsPipeline d p) := by
  unfold createGraphicsPipeline
  simp only [emit_window, emit_info, emit_vkResult]
  repeat' split
  all_goals
    simp_all [holds_ok, holds_fail, creationOrdered_emit, mem_createdObjects_emit, Call.needs,
      Call.created]

/-- The creation order through `createShaderPipeline`. -/
theorem createShaderPipeline_ordered (n : Nat) (d : Platform) (p : VulkanProgram)
    (ho : CreationOrdered n p.trace) (h1 : .renderPass ∈ createdObjects p.trace) :
    Holds (fun q => CreationOrdered n q.trace
        ∧ (∀ h ∈ createdObjects p.trace, h ∈ createdObjects q.trace)
        ∧ .graphicsPipeline ∈ createdObjects q.trace)
      (CreationOrdered n) (createShaderPipeline d p) := by
  unfold createShaderPipeline
  rcases hv : d.readFile "../src/vert.spv" with _ | vc
  · simp [readFile, hv, bind, Except.bind, holds_error, failure, creationOrdered_emit,
      Call.needs, ho]
  rcases hf : d.readFile "../src/frag.spv" with _ | fc
  · simp [readFile, hv, hf, bind, Except.bind, holds_error, failure, creationOrdered_emit,
      Call.needs, ho]
  by_cases h1 : d.vkCreateShaderModule "../src/vert.spv" = VK_SUCCESS
  swap
  · simp [readFile, hv, hf, bind, Except.bind, holds_error, createShaderModule, h1,
      creationOrdered_emit, Call.needs, ho]
  by_cases h2 : d.vkCreateShaderModule "../src/frag.spv" = VK_SUCCESS
  swap
  · simp [readFile, hv, hf, bind, Except.bind, holds_error, createShaderModule, h1, h2,
      creationOrdered_emit, Call.needs, ho]
  by_cases h3 : d.vkCreatePipelineLayout = VK_SUCCESS
  swap
  · simp [readFile, hv, hf, bind, Except.bind, holds_fail, createShaderModule, h1, h2, h3,
      creationOrdered_emit, Call.needs, ho, emit_vkResult]
  by_cases h4 : d.vkCreateGraphicsPipelines = VK_SUCCESS
  swap
  · simp [readFile, hv, hf, bind, Except.bind, holds_fail, createShaderModule, h1, h2, h3, h4,
      creationOrdered_emit, Call.needs, ho, emit_vkResult, emit_info, mem_createdObjects_emit,
      Call.created]
    simp_all
  · simp [readFile, hv, hf, bind, Except.bind, holds_ok, createShaderModule, h1, h2, h3, h4,
      creationOrdered_emit, Call.needs, ho, emit_vkResult, emit_info, mem_createdObjects_emit,
      Call.created]
    simp_all

/-- The creation order through the framebuffer loop. -/
theorem framebufferLoop_ordered (n : Nat) (d : Platform) :
    ∀ (remaining i : Nat) (p : VulkanProgram), CreationOrdered n p.trace →
      .renderPass ∈ createdObjects p.trace →
      (∀ j, i ≤ j → j < i + remaining →
        p.vulkanProgramInfo.imageViews.getD j .null ∈ createdObjects p.trace) →
      Holds (fun q => CreationOrdered n q.trace
          ∧ ∀ h ∈ createdObjects p.trace, h ∈ createdObjects q.trace)
        (CreationOrdered n) (framebufferLoop d remaining i p) := by
  intro remaining
  induction remaining with
  | zero =>
    intro i p ho h1 h2
    simp [framebufferLoop, holds_ok, ho]
  | succ k ih =>
    intro i p ho h1 h2
    have hi := h2 i (le_refl i) (by omega)
    simp only [List.getD_eq_getElem?_getD] at hi
    rw [framebufferLoop]
    simp only [emit_window, emit_info, emit_vkResult]
    split
    · simp [holds_fail, creationOrdered_emit, Call.needs, ho, h1, hi]
    · refine holds_mono (ih _ _ ?_ ?_ ?_) ?_
      · simp [creationOrdered_emit, Call.needs, ho, h1, hi]
      · simp [mem_createdObjects_emit, h1]
      · intro j hj1 hj2
        simp only [emit_info, mem_createdObjects_emit]
        exact Or.inl (h2 j (by omega) (by omega))
      · rintro q ⟨hq1, hq2⟩
        refine ⟨hq1, fun h hh => hq2 h ?_⟩
        simp [mem_createdObjects_emit, hh]

/-- The creation order through `createFramebuffer`. -/
theorem createFramebuffer_ordered (n : Nat) (d : Platform) (p : VulkanProgram)
    (ho : CreationOrdered n p.trace) (h1 : .renderPass ∈ createdObjects p.trace)
    (h2 : ∀ j, j < p.vulkanProgramInfo.imageViews.length →
      p.vulkanProgramInfo.imageViews.getD j .null ∈ createdObjects p.trace) :
    Holds (fun q => CreationOrdered n q.trace
        ∧ ∀ h ∈ createdObjects p.trace, h ∈ createdObjects q.trace)
      (CreationOrdered n) (createFramebuffer d p) := by
  unfold createFramebuffer
  exact framebufferLoop_ordered n d _ 0 _ ho h1 (fun j _ hj => h2 j (by simpa using hj))

/-- The creation order through the recording loop. -/
theorem recordLoop_ordered (n : Nat) (d : Platform) :
    ∀ (remaining i : Nat) (p : VulkanProgram), CreationOrdered n p.trace →
      .graphicsPipeline ∈ createdObjects p.trace →
      (∀ j, j < n → .framebuffer j ∈ createdObjects p.trace) →
      Holds (fun q => CreationOrdered n q.trace
          ∧ ∀ h ∈ createdObjects p.trace, h ∈ createdObjects q.trace)
        (CreationOrdered n) (recordLoop d remaining i p) := by
  intro remaining
  induction remaining with
  | zero =>
    intro i p ho h1 h2
    simp [recordLoop, holds_ok, ho]
  | succ k ih =>
    intro i p ho h1 h2
    rw [recordLoop]
    simp only [emit_window, emit_info, emit_vkResult]
    split
    · simp [holds_fail, creationOrdered_emit, Call.needs, ho, h1]
      intro a ha
      exact h2 a ha
    · split
      · simp [holds_fail, creationOrdered_emit, Call.needs, ho, h1, mem_createdObjects_emit,
          Call.created]
        intro a ha
        exact h2 a ha
      · refine holds_mono (ih _ _ ?_ ?_ ?_) ?_
        · simp [creationOrdered_emit, Call.needs, ho, h1, mem_createdObjects_emit,
            Call.created]
          intro a ha
          exact h2 a ha
        · simp [mem_createdObjects_emit, h1, Call.created]
        · intro j hj
          simp [mem_createdObjects_emit, h2 j hj, Call.created]
        · rintro q ⟨hq1, hq2⟩
          refine ⟨hq1, fun h hh => hq2 h ?_⟩
          simp [mem_createdObjects_emit, hh, Call.created]

/-- The creation order through `createCmdPool`. -/
theorem createCmdPool_ordered (n : Nat) (d : Platform) (p : VulkanProgram)
    (ho : CreationOrdered n p.trace) (h1 : .graphicsPipeline ∈ createdObjects p.trace)
    (h2 : ∀ j, j < n → .framebuffer j ∈ createdObjects p.trace) :
    Holds (fun q => CreationOrdered n q.trace
        ∧ ∀ h ∈ createdObjects p.trace, h ∈ createdObjects q.trace)
      (CreationOrdered n) (createCmdPool d p) := by
  unfold createCmdPool
  simp only [emit_window, emit_info, emit_vkResult]
  split
  · simp [holds_fail, creationOrdered_emit, Call.needs, ho]
  · refine holds_mono (recordLoop_ordered n d _ 0 _ ?_ ?_ ?_) ?_
    · split <;> simp [creationOrdered_emit, Call.needs, ho]
    · split <;> simp [mem_createdObjects_emit, h1, Call.created]
    · intro j hj
      split <;> simp [mem_createdObjects_emit, h2 j hj, Call.created]
    · rintro q ⟨hq1, hq2⟩
      refine ⟨hq1, fun h hh => hq2 h ?_⟩
      split <;> simp [mem_createdObjects_emit, hh, Call.created]

/-- The creation order through `createSemaphores`. -/
theorem createSemaphores_ordered (n : Nat) (d : Platform) (p : VulkanProgram)
    (ho : CreationOrdered n p.trace) (h1 : .GPUDevice ∈ createdObjects p.trace) :
    Holds (fun q => CreationOrdered n q.trace) (CreationOrdered n) (createSemaphores d p) := by
  unfold createSemaphores
  simp only [emit_window, emit_info, emit_vkResult]
  repeat' split
  all_goals
    simp_all [holds_ok, holds_fail, creationOrdered_emit, mem_createdObjects_emit, Call.needs,
      Call.created]

/-- The creation order through `drawFrame`. -/
theorem drawFrame_ordered (n : Nat) (d : Platform) (frame : Nat) (p : VulkanProgram)
    (ho : CreationOrdered n p.trace) :
    Holds (fun q => CreationOrdered n q.trace) (CreationOrdered n) (drawFrame d frame p) := by
  unfold drawFrame
  simp only [emit_window, emit_info, emit_vkResult]
  split
  all_goals
    simp_all [holds_ok, holds_error, creationOrdered_emit, Call.needs]

/-- The creation order through the frame loop. -/
theorem frameLoop_ordered (n : Nat) (d : Platform) :
    ∀ (remaining frame : Nat) (p : VulkanProgram), CreationOrdered n p.trace →
      Holds (fun q => CreationOrdered n q.trace) (CreationOrdered n)
        (frameLoop d remaining frame p) := by
  intro remaining
  induction remaining with
  | zero =>
    intro frame p ho
    simpa [frameLoop, holds_ok] using ho
  | succ k ih =>
    intro frame p ho
    rw [frameLoop]
    have h := drawFrame_ordered n d frame (emit .glfwPollEvents p)
      (by simp [creationOrdered_emit, Call.needs, ho])
    cases hres : drawFrame d frame (emit .glfwPollEvents p) with
    | error e =>
      rw [hres] at h
      exact h
    | ok q =>
      rw [hres] at h
      exact ih _ _ h

/-- The creation order through `vulkanProgramLoop`. -/
theorem vulkanProgramLoop_ordered (n : Nat) (d : Platform) (p : VulkanProgram)
    (ho : CreationOrdered n p.trace) :
    Holds (fun q => CreationOrdered n q.trace) (CreationOrdered n) (vulkanProgramLoop d p) := by
  unfold vulkanProgramLoop
  have h := frameLoop_ordered n d d.framesBeforeClose 0 p ho
  cases hres : frameLoop d d.framesBeforeClose 0 p with
  | error e =>
    rw [hres] at h
    exact h
  | ok q =>
    rw [hres] at h
    simp only [holds_ok] at h ⊢
    simp [creationOrdered_emit, Call.needs, h]

/-- The creation order through `cleanup`: its calls create nothing and need
nothing. -/
theorem cleanup_ordered (n : Nat) (d : Platform) (p : VulkanProgram)
    (ho : CreationOrdered n p.trace) : CreationOrdered n (cleanup d p).trace := by
  rw [cleanup_trace]
  refine creationOrdered_append n _ _ ho ?_
  intro c hc
  rw [cleanupCalls_eq] at hc
  simp only [List.mem_append, List.mem_cons, List.mem_map, List.mem_singleton,
    List.mem_nil_iff, or_false] at hc
  have : c.needs n = [] := by
    by_cases hp : d.vkGetInstanceProcAddr "vkDestroyDebugUtilsMessengerEXT" = true
    all_goals
      simp only [hp, if_true, if_false, Bool.false_eq_true] at hc
      rcases hc with ((hc | hc) | hc) | hc
      · rcases hc with rfl | rfl <;> rfl
      · obtain ⟨a, _, rfl⟩ := hc
        rfl
      · obtain ⟨a, _, rfl⟩ := hc
        rfl
      · rcases hc with rfl | rfl | rfl | rfl | rfl | rfl | rfl | rfl | rfl | rfl | rfl <;> rfl
  simp [this]

/-- What holds of the state a step returns and of the trace it aborts with
holds of the trace it ends with. -/
theorem holds_traceOf {S : List Call → Prop} {x : Step}
    (h : Holds (fun q => S q.trace) S x) : S (traceOf x) := by
  cases x with
  | error e => exact h
  | ok p => exact h

/-- After `createSwapchain`: the swapchain and every image view exist, and
`imageViews` lists them. -/
theorem createSwapchain_stage (d : Platform) (p : VulkanProgram)
    (ho : CreationOrdered d.swapchainImageCount p.trace)
    (h1 : .GPUDevice ∈ createdObjects p.trace) (h2 : .vulkanSurface ∈ createdObjects p.trace) :
    Holds (fun q => CreationOrdered d.swapchainImageCount q.trace
        ∧ .GPUDevice ∈ createdObjects q.trace
        ∧ .vulkanSwapchain ∈ createdObjects q.trace
        ∧ q.vulkanProgramInfo.imageViews
            = (List.range d.swapchainImageCount).map Handle.imageView
        ∧ ∀ i < d.swapchainImageCount, .imageView i ∈ createdObjects q.trace)
      (CreationOrdered d.swapchainImageCount) (createSwapchain d p) := by
  refine holds_mono (holds_and_ok (createSwapchain_ordered _ d p ho h1 h2)
    (fun q hq => createSwapchain_ok hq)) ?_
  rintro q ⟨⟨hq1, hq2⟩, _, fmt, _, hinfo, htrace⟩
  refine ⟨hq1, hq2 _ h1, ?_, ?_, ?_⟩
  · rw [htrace]
    simp [createdObjects, Call.created]
  · rw [hinfo]
  · intro i hi
    rw [htrace]
    simp only [createdObjects_append, List.mem_append]
    right
    simp only [createdObjects, List.filterMap_cons, Call.created, if_true, List.mem_cons,
      List.filterMap_map, Function.comp_def, filterMap_some_fun, List.mem_map, List.mem_range]
    exact Or.inr ⟨i, hi, rfl⟩

/-- After `createGraphicsPipeline`: the render pass exists as well. -/
theorem createGraphicsPipeline_stage (d : Platform) (p : VulkanProgram)
    (ho : CreationOrdered d.swapchainImageCount p.trace)
    (h1 : .GPUDevice ∈ createdObjects p.trace)
    (h2 : .vulkanSwapchain ∈ createdObjects p.trace)
    (h3 : p.vulkanProgramInfo.imageViews
      = (List.range d.swapchainImageCount).map Handle.imageView)
    (h4 : ∀ i < d.swapchainImageCount, .imageView i ∈ createdObjects p.trace) :
    Holds (fun q => CreationOrdered d.swapchainImageCount q.trace
        ∧ .GPUDevice ∈ createdObjects q.trace
        ∧ .renderPass ∈ createdObjects q.trace
        ∧ q.vulkanProgramInfo.imageViews
            = (List.range d.swapchainImageCount).map Handle.imageView
        ∧ ∀ i < d.swapchainImageCount, .imageView i ∈ createdObjects q.trace)
      (CreationOrdered d.swapchainImageCount) (createGraphicsPipeline d p) := by
  refine holds_mono (holds_and_ok (createGraphicsPipeline_ordered _ d p ho h2)
    (fun q hq => createGraphicsPipeline_ok hq)) ?_
  rintro q ⟨⟨hq1, hq2, hq3⟩, _, hinfo, _⟩
  refine ⟨hq1, hq2 _ h1, hq3, ?_, fun i hi => hq2 _ (h4 i hi)⟩
  rw [hinfo]
  exact h3

/-- After `createShaderPipeline`: the pipeline exists as well. -/
theorem createShaderPipeline_stage (d : Platform) (p : VulkanProgram)
    (ho : CreationOrdered d.swapchainImageCount p.trace)
    (h1 : .GPUDevice ∈ createdObjects p.trace)
    (h2 : .renderPass ∈ createdObjects p.trace)
    (h3 : p.vulkanProgramInfo.imageViews
      = (List.range d.swapchainImageCount).map Handle.imageView)
    (h4 : ∀ i < d.swapchainImageCount, .imageView i ∈ createdObjects p.trace) :
    Holds (fun q => CreationOrdered d.swapchainImageCount q.trace
        ∧ .GPUDevice ∈ createdObjects q.trace
        ∧ .renderPass ∈ createdObjects q.trace
        ∧ .graphicsPipeline ∈ createdObjects q.trace
        ∧ q.vulkanProgramInfo.imageViews
            = (List.range d.swapchainImageCount).map Handle.imageView
        ∧ ∀ i < d.swapchainImageCount, .imageView i ∈ createdObjects q.trace)
      (CreationOrdered d.swapchainImageCount) (createShaderPipeline d p) := by
  refine holds_mono (holds_and_ok (createShaderPipeline_ordered _ d p ho h2)
    (fun q hq => createShaderPipeline_ok hq)) ?_
  rintro q ⟨⟨hq1, hq2, hq3⟩, _, vc, fc, _, _, hinfo, _⟩
  refine ⟨hq1, hq2 _ h1, hq2 _ h2, hq3, ?_, fun i hi => hq2 _ (h4 i hi)⟩
  rw [hinfo]
  exact h3

/-- After `createFramebuffer`: every framebuffer exists as well. -/
theorem createFramebuffer_stage (d : Platform) (p : VulkanProgram)
    (ho : CreationOrdered d.swapchainImageCount p.trace)
    (h1 : .GPUDevice ∈ createdObjects p.trace)
    (h2 : .renderPass ∈ createdObjects p.trace)
    (h5 : .graphicsPipeline ∈ createdObjects p.trace)
    (h3 : p.vulkanProgramInfo.imageViews
      = (List.range d.swapchainImageCount).map Handle.imageView)
    (h4 : ∀ i < d.swapchainImageCount, .imageView i ∈ createdObjects p.trace) :
    Holds (fun q => CreationOrdered d.swapchainImageCount q.trace
        ∧ .GPUDevice ∈ createdObjects q.trace
        ∧ .graphicsPipeline ∈ createdObjects q.trace
        ∧ ∀ i < d.swapchainImageCount, .framebuffer i ∈ createdObjects q.trace)
      (CreationOrdered d.swapchainImageCount) (createFramebuffer d p) := by
  have hlen : p.vulkanProgramInfo.imageViews.length = d.swapchainImageCount := by
    simp [h3]
  refine holds_mono (holds_and_ok (createFramebuffer_ordered _ d p ho h2 ?_)
    (fun q hq => createFramebuffer_ok hq)) ?_
  · intro j hj
    rw [hlen] at hj
    have : p.vulkanProgramInfo.imageViews.getD j .null = .imageView j := by
      rw [h3]
      simp [List.getD_eq_getElem?_getD, hj]
    rw [this]
    exact h4 j hj
  · rintro q ⟨⟨hq1, hq2⟩, _, _, htrace⟩
    refine ⟨hq1, hq2 _ h1, hq2 _ h5, ?_⟩
    intro i hi
    rw [htrace, hlen]
    simp only [createdObjects_append, List.mem_append]
    right
    simp only [createdObjects, Call.created, if_true,
      List.filterMap_map, Function.comp_def, filterMap_some_fun, List.mem_map, List.mem_range]
    exact ⟨i, hi, rfl⟩

/-- Along every run, whether it ends normally or is aborted at any step,
each call is issued only after everything it needs has been created
successfully. -/
theorem run_creationOrdered (d : Platform) :
    CreationOrdered d.swapchainImageCount (traceOf (run d {})) := by
  have s1 : Holds (fun q => CreationOrdered d.swapchainImageCount q.trace)
      (CreationOrdered d.swapchainImageCount) (createGLFWWindow d {}) :=
    holds_mono (createGLFWWindow_ordered _ d {} (creationOrdered_nil _)) (fun q hq => hq.1)
  have s2 := holds_bind s1 (fun p hp => holds_mono
    (R := fun q => CreationOrdered d.swapchainImageCount q.trace
      ∧ .vulkanInstance ∈ createdObjects q.trace)
    (createVulkanInstance_ordered _ d p hp) (fun q hq => ⟨hq.1, hq.2.2⟩))
  have s3 := holds_bind s2 (fun p hp => holds_mono
    (R := fun q => CreationOrdered d.swapchainImageCount q.trace
      ∧ .vulkanSurface ∈ createdObjects q.trace)
    (surfaceVulkanAndWindow_ordered _ d p hp.1 hp.2) (fun q hq => ⟨hq.1, hq.2.2⟩))
  have s4 := holds_bind s3 (fun p hp => holds_mono
    (R := fun q => CreationOrdered d.swapchainImageCount q.trace
      ∧ .vulkanSurface ∈ createdObjects q.trace ∧ .GPUDevice ∈ createdObjects q.trace)
    (createDevice_ordered _ d p hp.1 hp.2) (fun q hq => ⟨hq.1, hq.2.1 _ hp.2, hq.2.2⟩))
  have s5 := holds_bind s4 (fun p hp => createSwapchain_stage d p hp.1 hp.2.2 hp.2.1)
  have s6 := holds_bind s5 (fun p hp => createGraphicsPipeline_stage d p hp.1 hp.2.1 hp.2.2.1
    hp.2.2.2.1 hp.2.2.2.2)
  have s7 := holds_bind s6 (fun p hp => createShaderPipeline_stage d p hp.1 hp.2.1 hp.2.2.1
    hp.2.2.2.1 hp.2.2.2.2)
  have s8 := holds_bind s7 (fun p hp => createFramebuffer_stage d p hp.1 hp.2.1 hp.2.2.1
    hp.2.2.2.1 hp.2.2.2.2.1 hp.2.2.2.2.2)
  have s9 := holds_bind s8 (fun p hp => holds_mono
    (R := fun q => CreationOrdered d.swapchainImageCount q.trace
      ∧ .GPUDevice ∈ createdObjects q.trace)
    (createCmdPool_ordered _ d p hp.1 hp.2.2.1 hp.2.2.2) (fun q hq => ⟨hq.1, hq.2 _ hp.2.1⟩))
  have s10 := holds_bind s9 (fun p hp => createSemaphores_ordered _ d p hp.1 hp.2)
  have s11 := holds_bind s10 (fun p hp => vulkanProgramLoop_ordered _ d p hp)
  have s12 := holds_bind (R := fun q => CreationOrdered d.swapchainImageCount q.trace)
    (f := fun p => .ok (cleanup d p)) s11 (fun p hp => cleanup_ordered _ d p hp)
  exact holds_traceOf s12

/-- A trace that creates the logical device without a surface does not
respect the creation order. -/
theorem creationOrdered_rejects :
    ¬ CreationOrdered 1 [.vkCreateInstance [] [] VK_SUCCESS,
        .vkCreateDevice (.physicalDevice 0) 0 1 [] VK_SUCCESS] := by
  intro h
  have := h [.vkCreateInstance [] [] VK_SUCCESS]
    (.vkCreateDevice (.physicalDevice 0) 0 1 [] VK_SUCCESS) [] rfl .vulkanSurface
    (by simp [Call.needs])
  revert this
  decide

/-- C9: along every run, ended normally or aborted at any step, each call
is issued only after everything the dependency table lists for it has
been created successfully (the instance for the diagnostics channel and
the surface; the surface for the logical device; the device and the
surface for the swapchain; the swapchain for each image view and the
render pass; the render pass and the pipeline layout for the pipeline;
the render pass and its image view for each framebuffer; the pipeline and
every framebuffer for each call recording into a command buffer; the
device for the semaphores).  In a set-up that succeeds all these objects
are created, in that order, the logical device on the physical device
chosen before (device 0). -/
theorem creation_order (d : Platform) :
    CreationOrdered d.swapchainImageCount (traceOf (run d {}))
      ∧ ∀ p, setup d {} = .ok p →
        (messengerCreated d = true →
            occursBefore .vulkanInstance .debugMessenger (createdObjects p.trace))
          ∧ occursBefore .vulkanInstance .vulkanSurface (createdObjects p.trace)
          ∧ occursBefore .vulkanSurface .GPUDevice (createdObjects p.trace)
          ∧ occursBefore .GPUDevice .vulkanSwapchain (createdObjects p.trace)
          ∧ occursBefore .vulkanSurface .vulkanSwapchain (createdObjects p.trace)
          ∧ (∀ i < d.swapchainImageCount,
              occursBefore .vulkanSwapchain (.imageView i) (createdObjects p.trace))
          ∧ occursBefore .vulkanSwapchain .renderPass (createdObjects p.trace)
          ∧ occursBefore .renderPass .graphicsPipeline (createdObjects p.trace)
          ∧ occursBefore .pipelineLayout .graphicsPipeline (createdObjects p.trace)
          ∧ (∀ i < d.swapchainImageCount,
              occursBefore .renderPass (.framebuffer i) (createdObjects p.trace))
          ∧ (∀ i < d.swapchainImageCount, ∀ j < d.swapchainImageCount,
              occursBefore (.imageView j) (.framebuffer i) (createdObjects p.trace))
          ∧ occursBefore .GPUDevice .imageAvailableSemaphore (createdObjects p.trace)
          ∧ occursBefore .GPUDevice .renderFinishedSemaphore (createdObjects p.trace)
          ∧ (p.vulkanProgramInfo.chosenGPU = .physicalDevice 0
              ∧ ∀ c ∈ p.trace, c.created = some .GPUDevice →
                  c.parent = some p.vulkanProgramInfo.chosenGPU)
          ∧ ∀ front c back, p.trace = front ++ c :: back → c.isRecording = true →
              .graphicsPipeline ∈ createdObjects front
                ∧ ∀ i < d.swapchainImageCount, .framebuffer i ∈ createdObjects front :=
  ⟨run_creationOrdered d, fun _ hs => creation_order_of_setup hs⟩

/-- C9 (witness): on `samplePlatform 2 0` the set-up succeeds, the run
respects the creation order, and the swapchain is created before the
second image view. -/
theorem creation_order_witness :
    setup (samplePlatform 2 0) {} = .ok (sampleAfterSetup 2 0)
      ∧ CreationOrdered 2 (traceOf (run (samplePlatform 2 0) {}))
      ∧ occursBefore .vulkanSwapchain (.imageView 1)
          (createdObjects (sampleAfterSetup 2 0).trace) :=
  ⟨rfl, (creation_order (samplePlatform 2 0)).1,
    ((creation_order (samplePlatform 2 0)).2 _ rfl).2.2.2.2.2.1 1 (by decide)⟩

/-! ## The frame loop, frame by frame -/

/-- Once an overlap has been seen it stays seen. -/
theorem flightScan_none (l : List Call) : flightScan none l = none := by
  induction l with
  | nil => rfl
  | cons c l ih => simpa [flightScan, flightStep] using ih

/-- The check along a concatenation. -/
theorem flightScan_append (s : Option Bool) (l m : List Call) :
    flightScan s (l ++ m) = flightScan (flightScan s l) m := by
  simp [flightScan, List.foldl_append]

/-- With an image acquired, calls other than queue-wait-idle leave the
frame in flight (or record an overlap). -/
theorem flightScan_inFlight (l : List Call) (h : ∀ w ∈ l, w.isQueueWaitIdle = false) :
    flightScan (some true) l = some true ∨ flightScan (some true) l = none := by
  induction l with
  | nil => exact Or.inl rfl
  | cons c l ih =>
    have hc := h c (by simp)
    have hl := ih (fun w hw => h w (by simp [hw]))
    simp only [flightScan, List.foldl_cons, flightStep, hc]
    by_cases ha : c.isAcquire = true
    · simp only [ha, if_true]
      exact Or.inr (flightScan_none l)
    · simp only [ha, Bool.false_eq_true, if_false]
      exact hl

/-- A list of calls that passes the check has a queue-wait-idle between any
two acquisitions. -/
theorem flightScan_sound (s : Option Bool) (l : List Call) (h : flightScan s l ≠ none)
    (front : List Call) (a : Call) (mid : List Call) (b : Call) (back : List Call)
    (hl : l = front ++ a :: (mid ++ b :: back))
    (ha : a.isAcquire = true) (hb : b.isAcquire = true) :
    ∃ w ∈ mid, w.isQueueWaitIdle = true := by
  by_contra hno
  simp only [not_exists, not_and, Bool.not_eq_true] at hno
  apply h
  subst hl
  rw [flightScan_append]
  have h1 : flightScan (flightScan s front) [a] = some true
      ∨ flightScan (flightScan s front) [a] = none := by
    rcases flightScan s front with _ | b0
    · exact Or.inr rfl
    · cases b0 <;> simp [flightScan, flightStep, ha]
  have e : a :: (mid ++ b :: back) = [a] ++ (mid ++ (b :: back)) := rfl
  rw [e, flightScan_append, flightScan_append]
  rcases h1 with h1 | h1
  · rw [h1]
    rcases flightScan_inFlight mid hno with h2 | h2
    · rw [h2]
      have : flightScan (some true) (b :: back) = flightScan none back := by
        simp [flightScan, flightStep, hb]
      rw [this, flightScan_none]
    · rw [h2, flightScan_none]
  · rw [h1, flightScan_none, flightScan_none]

/-- The calls of any number of returning frames pass the check and leave
no frame in flight. -/
theorem flightScan_frames (d : Platform) (info : VulkanProgramInfo) (l : List Nat) :
    flightScan (some false) (l.map (frameCalls d info)).flatten = some false := by
  induction l with
  | nil => rfl
  | cons k l ih =>
    rw [List.map_cons, List.flatten_cons, flightScan_append]
    have : flightScan (some false) (frameCalls d info k) = some false := by
      simp [flightScan, frameCalls, flightStep, Call.isAcquire, Call.isQueueWaitIdle]
    rw [this, ih]

/-- What `drawFrame` did when it ended the run: the image index addresses
no command buffer, and the acquisition is the last call issued. -/
theorem drawFrame_error {d : Platform} {frame : Nat} {p : VulkanProgram}
    {e : Termination × VulkanProgram} (h : drawFrame d frame p = .error e) :
    e.1 = .outOfBounds
      ∧ p.vulkanProgramInfo.cmdBuffers[(d.vkAcquireNextImageKHR frame).2]? = none
      ∧ e.2.trace = p.trace ++
          [.vkAcquireNextImageKHR p.vulkanProgramInfo.GPUDevice
            p.vulkanProgramInfo.vulkanSwapchain UINT64_MAX
            p.vulkanProgramInfo.imageAvailableSemaphore .null
            (d.vkAcquireNextImageKHR frame).1 (d.vkAcquireNextImageKHR frame).2] := by
  unfold drawFrame at h
  simp only [emit] at h
  split at h
  · rename_i hnone
    simp only [Except.error.injEq] at h
    subst h
    exact ⟨rfl, hnone, rfl⟩
  · contradiction

/-- What a frame loop did when it ended the run: some frames returned, and
the next one acquired an image index that addresses no command buffer. -/
theorem frameLoop_error (d : Platform) :
    ∀ (remaining frame : Nat) (p : VulkanProgram) (e : Termination × VulkanProgram),
      frameLoop d remaining frame p = .error e →
      e.1 = .outOfBounds
        ∧ ∃ k, k < remaining
          ∧ p.vulkanProgramInfo.cmdBuffers[(d.vkAcquireNextImageKHR (frame + k)).2]? = none
          ∧ e.2.trace = p.trace ++
              ((List.range' frame k).map (frameCalls d p.vulkanProgramInfo)).flatten
              ++ [.glfwPollEvents,
                  .vkAcquireNextImageKHR p.vulkanProgramInfo.GPUDevice
                    p.vulkanProgramInfo.vulkanSwapchain UINT64_MAX
                    p.vulkanProgramInfo.imageAvailableSemaphore .null
                    (d.vkAcquireNextImageKHR (frame + k)).1
                    (d.vkAcquireNextImageKHR (frame + k)).2] := by
  intro remaining
  induction remaining with
  | zero =>
    intro frame p e h
    simp [frameLoop] at h
  | succ n ih =>
    intro frame p e h
    rw [frameLoop] at h
    split at h
    · rename_i e1 h1
      simp only [Except.error.injEq] at h
      subst h
      obtain ⟨k1, k2, k3⟩ := drawFrame_error h1
      refine ⟨k1, 0, by omega, by simpa using k2, ?_⟩
      rw [k3]
      simp [emit]
    · rename_i p1 h1
      obtain ⟨_, _, i1, t1⟩ := drawFrame_ok h1
      obtain ⟨k1, k, hk, k2, k3⟩ := ih _ _ _ h
      have hc : frameCalls d p1.vulkanProgramInfo = frameCalls d p.vulkanProgramInfo := by
        funext j
        rw [i1]
        rfl
      refine ⟨k1, k + 1, by omega, ?_, ?_⟩
      · rw [i1] at k2
        rw [show frame + (k + 1) = frame + 1 + k by omega]
        exact k2
      · rw [k3, t1, hc, i1, show frame + (k + 1) = frame + 1 + k by omega]
        simp [List.range'_succ]

/-- What `vulkanProgramLoop` did when it ended the run. -/
theorem vulkanProgramLoop_error {d : Platform} {p : VulkanProgram}
    {e : Termination × VulkanProgram} (h : vulkanProgramLoop d p = .error e) :
    e.1 = .outOfBounds
      ∧ ∃ k, k < d.framesBeforeClose
        ∧ p.vulkanProgramInfo.cmdBuffers[(d.vkAcquireNextImageKHR k).2]? = none
        ∧ e.2.trace = p.trace ++
            ((List.range k).map (frameCalls d p.vulkanProgramInfo)).flatten
            ++ [.glfwPollEvents,
                .vkAcquireNextImageKHR p.vulkanProgramInfo.GPUDevice
                  p.vulkanProgramInfo.vulkanSwapchain UINT64_MAX
                  p.vulkanProgramInfo.imageAvailableSemaphore .null
                  (d.vkAcquireNextImageKHR k).1 (d.vkAcquireNextImageKHR k).2] := by
  unfold vulkanProgramLoop at h
  split at h
  · rename_i e1 h1
    simp only [Except.error.injEq] at h
    subst h
    obtain ⟨k1, k, hk, k2, k3⟩ := frameLoop_error _ _ _ _ _ h1
    refine ⟨k1, k, hk, by simpa using k2, ?_⟩
    rw [k3]
    simp [List.range_eq_range']
  · contradiction

/-- C11: a `drawFrame` that returns has issued the image acquisition, the
queue look-up, the queue submission, the presentation and the
queue-wait-idle, in this order and nothing after the queue-wait-idle.
Whatever the number of iterations and however `vulkanProgramLoop` ends, a
queue-wait-idle lies between any two acquisitions among the calls it
issues: no image is acquired between the acquisition of an earlier frame
and that frame's queue-wait-idle.  When the loop returns, its calls are
those of frames `0 .. framesBeforeClose - 1` one after the other, followed
by the device-wait-idle. -/
theorem single_frame_in_flight (d : Platform) (p : VulkanProgram) :
    (∀ frame q, drawFrame d frame p = .ok q →
        ∃ a s r w, q.trace = p.trace ++
            [a, .vkGetDeviceQueue p.vulkanProgramInfo.GPUDevice
                  p.vulkanProgramInfo.graphicsQueueFamilyIndex 0, s, r, w]
          ∧ a.isAcquire = true ∧ s.isSubmit = true ∧ r.isPresent = true
          ∧ w.isQueueWaitIdle = true)
      ∧ ∃ added, traceOf (vulkanProgramLoop d p) = p.trace ++ added
          ∧ (∀ q, vulkanProgramLoop d p = .ok q →
              added = ((List.range d.framesBeforeClose).map
                  (frameCalls d p.vulkanProgramInfo)).flatten
                ++ [.vkDeviceWaitIdle p.vulkanProgramInfo.GPUDevice])
          ∧ ∀ front a mid b back, added = front ++ a :: (mid ++ b :: back) →
              a.isAcquire = true → b.isAcquire = true →
              ∃ w ∈ mid, w.isQueueWaitIdle = true := by
  constructor
  · intro frame q h
    unfold drawFrame at h
    simp only [emit] at h
    split at h
    · contradiction
    · simp only [Except.ok.injEq] at h
      subst h
      simp only [List.append_assoc, List.singleton_append, List.cons_append, List.nil_append]
      exact ⟨_, _, _, _, rfl, rfl, rfl, rfl, rfl⟩
  · cases hres : vulkanProgramLoop d p with
    | ok q =>
      obtain ⟨_, _, t⟩ := vulkanProgramLoop_ok hres
      refine ⟨_, by rw [traceOf, stateOf, t, List.append_assoc], fun _ _ => rfl, ?_⟩
      intro front a mid b back hsplit ha hb
      refine flightScan_sound (some false) _ ?_ front a mid b back hsplit ha hb
      rw [flightScan_append, flightScan_frames]
      simp [flightScan, flightStep, Call.isAcquire, Call.isQueueWaitIdle]
    | error e =>
      obtain ⟨_, k, _, _, t⟩ := vulkanProgramLoop_error hres
      refine ⟨_, by rw [traceOf, stateOf, t, List.append_assoc], fun _ hq => by simp at hq, ?_⟩
      intro front a mid b back hsplit ha hb
      refine flightScan_sound (some false) _ ?_ front a mid b back hsplit ha hb
      rw [flightScan_append, flightScan_frames]
      simp [flightScan, flightStep, Call.isAcquire, Call.isQueueWaitIdle]

/-- C11 (witness): on `samplePlatform 2 2`, after the set-up, the first
`drawFrame` returns, having issued its five calls in order. -/
theorem single_frame_in_flight_witness :
    drawFrame (samplePlatform 2 2) 0 (sampleAfterSetup 2 2)
        = .ok (stateOf (drawFrame (samplePlatform 2 2) 0 (sampleAfterSetup 2 2)))
      ∧ ∃ a s r w, (stateOf (drawFrame (samplePlatform 2 2) 0 (sampleAfterSetup 2 2))).trace
            = (sampleAfterSetup 2 2).trace ++
              [a, .vkGetDeviceQueue (sampleAfterSetup 2 2).vulkanProgramInfo.GPUDevice
                    (sampleAfterSetup 2 2).vulkanProgramInfo.graphicsQueueFamilyIndex 0, s, r, w]
          ∧ a.isAcquire = true ∧ s.isSubmit = true ∧ r.isPresent = true
          ∧ w.isQueueWaitIdle = true :=
  ⟨rfl, (single_frame_in_flight (samplePlatform 2 2) (sampleAfterSetup 2 2)).1 0 _ rfl⟩

/-! ## One frame -/

/-- C12: in a `drawFrame` whose acquired image index `k` addresses the
command buffer `cmdBuffers[k]`: the acquisition is issued on the swapchain
with the timeout `UINT64_MAX` (no bound), the semaphore
`imageAvailableSemaphore` and no fence; the one submission holds exactly
`cmdBuffers[k]`, waits on exactly `imageAvailableSemaphore` at the
colour-attachment-output stage, signals exactly `renderFinishedSemaphore`
and passes no fence; the present request presents image `k` of the one
swapchain and waits on exactly `renderFinishedSemaphore`; and `drawFrame`
returns. -/
theorem drawFrame_calls (d : Platform) (frame : Nat) (p : VulkanProgram) (cmdBuffer : Handle)
    (hk : p.vulkanProgramInfo.cmdBuffers[(d.vkAcquireNextImageKHR frame).2]? = some cmdBuffer) :
    UINT64_MAX = 2 ^ 64 - 1
      ∧ ∃ q, drawFrame d frame p = .ok q
        ∧ q.trace = p.trace ++
          [.vkAcquireNextImageKHR p.vulkanProgramInfo.GPUDevice
              p.vulkanProgramInfo.vulkanSwapchain UINT64_MAX
              p.vulkanProgramInfo.imageAvailableSemaphore .null
              (d.vkAcquireNextImageKHR frame).1 (d.vkAcquireNextImageKHR frame).2,
           .vkGetDeviceQueue p.vulkanProgramInfo.GPUDevice
              p.vulkanProgramInfo.graphicsQueueFamilyIndex 0,
           .vkQueueSubmit (.queue p.vulkanProgramInfo.graphicsQueueFamilyIndex 0)
              [{ waitSemaphores := [p.vulkanProgramInfo.imageAvailableSemaphore],
                 waitDstStageMask := [VK_PIPELINE_STAGE_COLOR_ATTACHMENT_OUTPUT_BIT],
                 commandBuffers := [cmdBuffer],
                 signalSemaphores := [p.vulkanProgramInfo.renderFinishedSemaphore] }]
              .null (d.vkQueueSubmit frame),
           .vkQueuePresentKHR (.queue p.vulkanProgramInfo.graphicsQueueFamilyIndex 0)
              { waitSemaphores := [p.vulkanProgramInfo.renderFinishedSemaphore],
                swapchains := [p.vulkanProgramInfo.vulkanSwapchain],
                imageIndices := [(d.vkAcquireNextImageKHR frame).2] }
              (d.vkQueuePresentKHR frame),
           .vkQueueWaitIdle (.queue p.vulkanProgramInfo.graphicsQueueFamilyIndex 0)] := by
  refine ⟨by decide, ?_⟩
  unfold drawFrame
  simp only [emit, hk]
  exact ⟨_, rfl, by simp⟩

/-- C12 (witness): the second frame on `samplePlatform 2 2` acquires image 1
and submits command buffer 1. -/
theorem drawFrame_calls_witness :
    (sampleAfterSetup 2 2).vulkanProgramInfo.cmdBuffers[
        ((samplePlatform 2 2).vkAcquireNextImageKHR 1).2]? = some (.cmdBuffer 1)
      ∧ ∃ q, drawFrame (samplePlatform 2 2) 1 (sampleAfterSetup 2 2) = .ok q
        ∧ q.trace = (sampleAfterSetup 2 2).trace ++
          [.vkAcquireNextImageKHR .GPUDevice .vulkanSwapchain UINT64_MAX
              .imageAvailableSemaphore .null VK_SUCCESS 1,
           .vkGetDeviceQueue .GPUDevice 0 0,
           .vkQueueSubmit (.queue 0 0)
              [{ waitSemaphores := [.imageAvailableSemaphore],
                 waitDstStageMask := [VK_PIPELINE_STAGE_COLOR_ATTACHMENT_OUTPUT_BIT],
                 commandBuffers := [.cmdBuffer 1],
                 signalSemaphores := [.renderFinishedSemaphore] }]
              .null VK_SUCCESS,
           .vkQueuePresentKHR (.queue 0 0)
              { waitSemaphores := [.renderFinishedSemaphore],
                swapchains := [.vulkanSwapchain],
                imageIndices := [1] }
              VK_SUCCESS,
           .vkQueueWaitIdle (.queue 0 0)] :=
  ⟨rfl, (drawFrame_calls (samplePlatform 2 2) 1 (sampleAfterSetup 2 2) (.cmdBuffer 1) rfl).2⟩

/-- The trace a returning step ended with. -/
theorem traceOf_ok (p : VulkanProgram) : traceOf (.ok p) = p.trace := rfl

/-- The trace an aborting step ended with. -/
theorem traceOf_error (e : Termination × VulkanProgram) : traceOf (.error e) = e.2.trace := rfl

/-- The trace of the pattern "print a line and exit". -/
theorem traceOf_fail (stream : Stream) (line : String) (p : VulkanProgram) :
    traceOf (fail stream line p) = p.trace ++ [.print stream line, .exit (-1)] := by
  simp [traceOf, stateOf, fail, failure, emit]

/-- The trace after emitting a call. -/
theorem emit_trace (c : Call) (p : VulkanProgram) : (emit c p).trace = p.trace ++ [c] := rfl

/-- A prefix of a list is a prefix of its extensions. -/
theorem extends_append {t s : List Call} (u : List Call) (h : t <+: s) :
    t <+: s ++ u :=
  h.trans (List.prefix_append s u)

/-- Sequencing two steps that only add to the trace. -/
theorem extends_bind {t : List Call} {x : Step} {f : VulkanProgram → Step}
    (hx : t <+: traceOf x) (hf : ∀ p, t <+: p.trace → t <+: traceOf (f p)) :
    t <+: traceOf (x >>= f) := by
  cases x with
  | error e => exact hx
  | ok p => exact hf p hx

/-- Method `createGLFWWindow` only adds to the trace. -/
theorem createGLFWWindow_extends (t : List Call) (d : Platform) (p : VulkanProgram)
    (h : t <+: p.trace) : t <+: traceOf (createGLFWWindow d p) := by
  unfold createGLFWWindow
  simp only [emit_window, emit_info, emit_vkResult]
  repeat' split
  all_goals
    simp only [traceOf_fail, traceOf_ok, emit_trace, List.append_assoc]
    exact extends_append _ h

/-- Method `createVulkanInstance` only adds to the trace. -/
theorem createVulkanInstance_extends (t : List Call) (d : Platform) (p : VulkanProgram)
    (h : t <+: p.trace) : t <+: traceOf (createVulkanInstance d p) := by
  unfold createVulkanInstance
  by_cases hproc : d.vkGetInstanceProcAddr "vkCreateDebugUtilsMessengerEXT" = true <;>
    by_cases hr : d.vkCreateDebugUtilsMessengerEXT = VK_SUCCESS <;>
    simp only [createDebugUtilsMessenger, hproc, hr, if_true, if_false, Bool.false_eq_true,
      emit_window, emit_info, emit_vkResult] <;>
    repeat' split
  all_goals
    simp only [traceOf_fail, traceOf_ok, emit_trace, List.append_assoc]
    first
    | exact h
    | exact extends_append _ h

/-- Method `surfaceVulkanAndWindow` only adds to the trace. -/
theorem surfaceVulkanAndWindow_extends (t : List Call) (d : Platform) (p : VulkanProgram)
    (h : t <+: p.trace) : t <+: traceOf (surfaceVulkanAndWindow d p) := by
  unfold surfaceVulkanAndWindow
  simp only [emit_window, emit_info, emit_vkResult]
  repeat' split
  all_goals
    simp only [traceOf_fail, traceOf_ok, emit_trace, List.append_assoc]
    exact extends_append _ h

/-- Method `createDevice` only adds to the trace. -/
theorem createDevice_extends (t : List Call) (d : Platform) (p : VulkanProgram)
    (h : t <+: p.trace) : t <+: traceOf (createDevice d p) := by
  unfold createDevice
  simp only [emit_window, emit_info, emit_vkResult]
  repeat' split
  all_goals
    simp only [traceOf_fail, traceOf_ok, traceOf_error, emit_trace, List.append_assoc]
    first
    | exact h
    | exact extends_append _ h

/-- The image-view loop only adds to the trace. -/
theorem imageViewLoop_extends (t : List Call) (d : Platform) (format : Nat) :
    ∀ (remaining i : Nat) (p : VulkanProgram), t <+: p.trace →
      t <+: traceOf (imageViewLoop d format remaining i p) := by
  intro remaining
  induction remaining with
  | zero =>
    intro i p h
    simpa [imageViewLoop, traceOf_ok] using h
  | succ k ih =>
    intro i p h
    rw [imageViewLoop]
    simp only [emit_window, emit_info, emit_vkResult]
    split
    · simp only [traceOf_fail, emit_trace, List.append_assoc]
      exact extends_append _ h
    · exact ih _ _ (extends_append _ h)

/-- Method `createSwapchain` only adds to the trace. -/
theorem createSwapchain_extends (t : List Call) (d : Platform) (p : VulkanProgram)
    (h : t <+: p.trace) : t <+: traceOf (createSwapchain d p) := by
  unfold createSwapchain
  simp only [emit_window, emit_info, emit_vkResult]
  repeat' split
  all_goals
    first
    | exact imageViewLoop_extends t d _ _ _ _ (extends_append _ h)
    | (simp only [traceOf_fail, traceOf_ok, traceOf_error, emit_trace, List.append_assoc]
       first
       | exact h
       | exact extends_append _ h)

/-- Method `createGraphicsPipeline` only adds to the trace. -/
theorem createGraphicsPipeline_extends (t : List Call) (d : Platform) (p : VulkanProgram)
    (h : t <+: p.trace) : t <+: traceOf (createGraphicsPipeline d p) := by
  unfold createGraphicsPipeline
  simp only [emit_window, emit_info, emit_vkResult]
  repeat' split
  all_goals
    simp only [traceOf_fail, traceOf_ok, emit_trace, List.append_assoc]
    exact extends_append _ h

/-- Method `createShaderPipeline` only adds to the trace. -/
theorem createShaderPipeline_extends (t : List Call) (d : Platform) (p : VulkanProgram)
    (h : t <+: p.trace) : t <+: traceOf (createShaderPipeline d p) := by
  unfold createShaderPipeline
  rcases hv : d.readFile "../src/vert.spv" with _ | vc
  · simp only [readFile, hv, bind, Except.bind, traceOf_error, failure, emit_trace,
      List.append_assoc]
    exact extends_append _ h
  rcases hf : d.readFile "../src/frag.spv" with _ | fc
  · simp only [readFile, hv, hf, bind, Except.bind, traceOf_error, failure, emit_trace,
      List.append_assoc]
    exact extends_append _ h
  by_cases h1 : d.vkCreateShaderModule "../src/vert.spv" = VK_SUCCESS
  swap
  · simp only [readFile, hv, hf, bind, Except.bind, createShaderModule, h1, traceOf_error,
      emit_trace, List.append_assoc, ne_eq, not_false_eq_true, if_true]
    exact extends_append _ h
  by_cases h2 : d.vkCreateShaderModule "../src/frag.spv" = VK_SUCCESS
  swap
  · simp only [readFile, hv, hf, bind, Except.bind, createShaderModule, h1, h2, traceOf_error,
      emit_trace, List.append_assoc, ne_eq, not_false_eq_true, not_true_eq_false, if_true,
      if_false]
    exact extends_append _ h
  simp only [readFile, hv, hf, bind, Except.bind, createShaderModule, h1, h2,
    ne_eq, not_true_eq_false, if_false, emit_window, emit_info, emit_vkResult]
  repeat' split
  all_goals
    simp only [traceOf_fail, traceOf_ok, emit_trace, List.append_assoc]
    exact extends_append _ h

/-- The framebuffer loop only adds to the trace. -/
theorem framebufferLoop_extends (t : List Call) (d : Platform) :
    ∀ (remaining i : Nat) (p : VulkanProgram), t <+: p.trace →
      t <+: traceOf (framebufferLoop d remaining i p) := by
  intro remaining
  induction remaining with
  | zero =>
    intro i p h
    simpa [framebufferLoop, traceOf_ok] using h
  | succ k ih =>
    intro i p h
    rw [framebufferLoop]
    simp only [emit_window, emit_info, emit_vkResult]
    split
    · simp only [traceOf_fail, emit_trace, List.append_assoc]
      exact extends_append _ h
    · exact ih _ _ (extends_append _ h)

/-- Method `createFramebuffer` only adds to the trace. -/
theorem createFramebuffer_extends (t : List Call) (d : Platform) (p : VulkanProgram)
    (h : t <+: p.trace) : t <+: traceOf (createFramebuffer d p) := by
  unfold createFramebuffer
  exact framebufferLoop_extends t d _ _ _ h

/-- The recording loop only adds to the trace. -/
theorem recordLoop_extends (t : List Call) (d : Platform) :
    ∀ (remaining i : Nat) (p : VulkanProgram), t <+: p.trace →
      t <+: traceOf (recordLoop d remaining i p) := by
  intro remaining
  induction remaining with
  | zero =>
    intro i p h
    simpa [recordLoop, traceOf_ok] using h
  | succ k ih =>
    intro i p h
    rw [recordLoop]
    simp only [emit_window, emit_info, emit_vkResult]
    split
    · simp only [traceOf_fail, emit_trace, List.append_assoc]
      exact extends_append _ h
    · split
      · simp only [traceOf_fail, emit_trace, List.append_assoc]
        exact extends_append _ h
      · refine ih _ _ ?_
        simp only [emit_trace, List.append_assoc]
        exact extends_append _ h

/-- Method `createCmdPool` only adds to the trace. -/
theorem createCmdPool_extends (t : List Call) (d : Platform) (p : VulkanProgram)
    (h : t <+: p.trace) : t <+: traceOf (createCmdPool d p) := by
  unfold createCmdPool
  simp only [emit_window, emit_info, emit_vkResult]
  split
  · simp only [traceOf_fail, emit_trace, List.append_assoc]
    exact extends_append _ h
  · refine recordLoop_extends t d _ _ _ ?_
    split <;>
    · simp only [emit_trace, List.append_assoc]
      exact extends_append _ h

/-- Method `createSemaphores` only adds to the trace. -/
theorem createSemaphores_extends (t : List Call) (d : Platform) (p : VulkanProgram)
    (h : t <+: p.trace) : t <+: traceOf (createSemaphores d p) := by
  unfold createSemaphores
  simp only [emit_window, emit_info, emit_vkResult]
  repeat' split
  all_goals
    simp only [traceOf_fail, traceOf_ok, emit_trace, List.append_assoc]
    exact extends_append _ h

/-- Method `vulkanProgramLoop` only adds to the trace. -/
theorem vulkanProgramLoop_extends (t : List Call) (d : Platform) (p : VulkanProgram)
    (h : t <+: p.trace) : t <+: traceOf (vulkanProgramLoop d p) := by
  cases hres : vulkanProgramLoop d p with
  | ok q =>
    obtain ⟨_, _, tr⟩ := vulkanProgramLoop_ok hres
    rw [traceOf_ok, tr, List.append_assoc]
    exact extends_append _ h
  | error e =>
    obtain ⟨_, k, _, _, tr⟩ := vulkanProgramLoop_error hres
    rw [traceOf_error, tr, List.append_assoc]
    exact extends_append _ h

/-- Method `cleanup` only adds to the trace. -/
theorem cleanup_extends (t : List Call) (d : Platform) (p : VulkanProgram)
    (h : t <+: p.trace) : t <+: (cleanup d p).trace := by
  rw [cleanup_trace]
  exact extends_append _ h

/-! ## Device selection and device extensions -/

/-- C14 (the code at the failing input): `createDevice` does not look at the
answer of the device-extension check.  Replacing the list of extensions
the chosen device supports by any other list leaves `createDevice`
unchanged.  On the platform that reports no device extension at all the
check answers false for the requested swapchain extension, yet
`vkCreateDevice` is called with that extension enabled; when the driver
answers success the logical device is created and the run goes on to its
normal end, and when the driver answers `VK_ERROR_EXTENSION_NOT_PRESENT`
the run aborts only after that call. -/
theorem createDevice_ignores_extension_check :
    (∀ (d : Platform) (l : List VkExtensionProperties) (p : VulkanProgram),
        createDevice { d with deviceExtensions := l } p = createDevice d p)
      ∧ checkEnabledExtensionsSupported [] [VK_KHR_SWAPCHAIN_EXTENSION_NAME] = false
      ∧ (main { samplePlatform 2 1 with deviceExtensions := [] }).isOk = true
      ∧ Call.vkCreateDevice (.physicalDevice 0) 0 1 [VK_KHR_SWAPCHAIN_EXTENSION_NAME] VK_SUCCESS
          ∈ traceOf (run { samplePlatform 2 1 with deviceExtensions := [] } {})
      ∧ (traceOf (run { samplePlatform 2 1 with
            deviceExtensions := [],
            vkCreateDevice := VK_ERROR_EXTENSION_NOT_PRESENT } {})).drop 5
          = [.vkCreateDevice (.physicalDevice 0) 0 1 [VK_KHR_SWAPCHAIN_EXTENSION_NAME]
               VK_ERROR_EXTENSION_NOT_PRESENT,
             .print .cout "Failed to create gpu device",
             .exit (-1)] := by
  refine ⟨fun d l p => rfl, by decide, rfl, by decide, by decide⟩

/-- C15 (the code at the failing input): when the enumeration of physical
devices succeeds with a count of zero, `createDevice` does not abort with
a diagnostic: it reads element 0 of the empty vector
`availablePhysicalDevices` (main.cpp:584) before any test, having printed
nothing and called nothing.  When `createDevice` returns, the list was not
empty and `chosenGPU` is its element 0, whatever the devices are. -/
theorem createDevice_empty_device_list (d : Platform) (p : VulkanProgram) :
    (d.physicalDeviceCountResult = VK_SUCCESS → d.physicalDeviceCount = 0 →
        createDevice d p
          = .error (.outOfBounds, { p with vkResult := d.physicalDeviceListResult }))
      ∧ ∀ q, createDevice d p = .ok q →
          0 < d.physicalDeviceCount ∧ q.vulkanProgramInfo.chosenGPU = .physicalDevice 0 := by
  constructor
  · intro h1 h0
    unfold createDevice
    simp [h1, h0]
  · intro q hq
    obtain ⟨_, idx, _, hi, _⟩ := createDevice_ok hq
    refine ⟨?_, by rw [hi]⟩
    by_contra h0
    have h0 : d.physicalDeviceCount = 0 := by omega
    unfold createDevice at hq
    simp only [h0] at hq
    repeat' split at hq
    all_goals simp_all [fail]

/-- C15 (witness): the platform on which every call succeeds but no physical
device is reported.  The run ends in the element access; its trace holds
the five calls issued before `createDevice` and no diagnostic. -/
theorem createDevice_empty_device_list_witness :
    ({ samplePlatform 2 1 with physicalDeviceCount := 0 } : Platform).physicalDeviceCountResult
        = VK_SUCCESS
      ∧ ({ samplePlatform 2 1 with physicalDeviceCount := 0 } : Platform).physicalDeviceCount = 0
      ∧ createDevice { samplePlatform 2 1 with physicalDeviceCount := 0 } {}
          = .error (.outOfBounds, { vkResult := VK_SUCCESS })
      ∧ (run { samplePlatform 2 1 with physicalDeviceCount := 0 } {}).toOption = none
      ∧ (traceOf (run { samplePlatform 2 1 with physicalDeviceCount := 0 } {})).length = 5 :=
  ⟨rfl, rfl,
    (createDevice_empty_device_list { samplePlatform 2 1 with physicalDeviceCount := 0 } {}).1
      rfl rfl,
    rfl, by decide⟩

/-! ## Failing creation calls -/

/-- After a failed allocation of the command buffers, `createCmdPool` goes
on to begin the first command buffer, a handle nobody allocated. -/
theorem createCmdPool_after_failed_allocation (d : Platform) (p : VulkanProgram) (n : Nat)
    (h1 : d.vkCreateCommandPool = VK_SUCCESS) (h2 : d.vkAllocateCommandBuffers ≠ VK_SUCCESS)
    (h3 : p.vulkanProgramInfo.swapchainFramebuffers.length = n + 1) :
    p.trace ++
        [.vkCreateCommandPool p.vulkanProgramInfo.GPUDevice
            p.vulkanProgramInfo.graphicsQueueFamilyIndex VK_SUCCESS,
         .vkAllocateCommandBuffers p.vulkanProgramInfo.GPUDevice .cmdPool
            ((n + 1) % 2 ^ 32) d.vkAllocateCommandBuffers,
         .vkBeginCommandBuffer ((resize p.vulkanProgramInfo.cmdBuffers (n + 1)).getD 0 .null)
            (d.vkBeginCommandBuffer 0)]
      <+: traceOf (createCmdPool d p) := by
  unfold createCmdPool
  simp only [emit_window, emit_info, emit_vkResult, h1, h2, h3, ne_eq, not_true_eq_false,
    if_false, resize_length]
  rw [recordLoop]
  simp only [emit_window, emit_info, emit_vkResult]
  split
  · simp only [traceOf_fail, emit_trace, List.append_assoc, List.singleton_append,
      List.cons_append, List.nil_append]
    refine ⟨[.print .cout "Failed to begin command buffer", .exit (-1)], by simp⟩
  · split
    · simp only [traceOf_fail, emit_trace, List.append_assoc, List.singleton_append,
        List.cons_append, List.nil_append]
      exact ⟨_, by simp; rfl⟩
    · refine recordLoop_extends _ d _ _ _ ?_
      simp only [emit_trace, List.append_assoc, List.singleton_append,
        List.cons_append, List.nil_append]
      exact ⟨_, by simp; rfl⟩

/-- C16 (the code at the failing input): on the platform on which every
call succeeds except `vkAllocateCommandBuffers`, which answers
`VK_ERROR_OUT_OF_DEVICE_MEMORY` (-2), the run does not abort at that call.
The next call begins the recording of command buffer 0, a null handle;
both command buffers get recorded, the set-up completes, the frame is
drawn by submitting a null command buffer, and `main` returns 0. -/
theorem allocation_failure_not_fatal :
    ((traceOf (run { samplePlatform 2 1 with vkAllocateCommandBuffers := -2 } {})).drop 19).take 2
        = [.vkAllocateCommandBuffers .GPUDevice .cmdPool 2 (-2),
           .vkBeginCommandBuffer .null VK_SUCCESS]
      ∧ ((traceOf (run { samplePlatform 2 1 with vkAllocateCommandBuffers := -2 } {})).filter
            Call.isRecording).length = 12
      ∧ Call.vkQueueSubmit (.queue 0 0)
            [{ waitSemaphores := [.imageAvailableSemaphore],
               waitDstStageMask := [VK_PIPELINE_STAGE_COLOR_ATTACHMENT_OUTPUT_BIT],
               commandBuffers := [.null],
               signalSemaphores := [.renderFinishedSemaphore] }] .null VK_SUCCESS
          ∈ traceOf (run { samplePlatform 2 1 with vkAllocateCommandBuffers := -2 } {})
      ∧ ((main { samplePlatform 2 1 with vkAllocateCommandBuffers := -2 }).toOption.map
            fun r => r.1) = some 0 := by
  refine ⟨by decide, by decide, by decide, by decide⟩

/-! ## Instance-level negotiation and the diagnostics channel -/

/-- C17 (counterexample): with `missing_ext` requested and only `other_ext`
supported, `createVulkanInstance` prints the fixed line "Not all required
instance extensions supported" on standard output and exits; the line does
not name `missing_ext`. -/
theorem negotiation_failure_names_nothing :
    createVulkanInstance
        { samplePlatform 2 1 with instanceExtensions := [{ extensionName := "other_ext" }] }
        { vulkanProgramInfo := { enabledInstanceExtensions := ["missing_ext"] } }
      = .error (.exitFailure,
          { vulkanProgramInfo := { enabledInstanceExtensions := ["missing_ext"] },
            trace := [.print .cout "Not all required instance extensions supported",
                      .exit (-1)] })
      ∧ mentions "Not all required instance extensions supported" "missing_ext" = false
      ∧ mentions "Not all required instance extensions supported" "extensions" = true := by
  refine ⟨rfl, by decide, by decide⟩

/-- C17 (amended): when the layer check answers false, `createVulkanInstance`
prints "Error: some layers are not supported" on standard output and calls
`exit(-1)`; when the layers pass, the two enumerations of the instance
extensions succeed and the extension check answers false, it prints "Not
all required instance extensions supported" on standard output and calls
`exit(-1)`.  In both cases nothing else is printed or called: the line is
the same whatever names are requested or supported. -/
theorem negotiation_failure_fixed_line (d : Platform) (p : VulkanProgram) :
    (enabledLayersSupported d.supportedLayers p.vulkanProgramInfo.enabledLayers = false →
        createVulkanInstance d p
          = .error (.exitFailure,
              { p with trace := p.trace ++
                  [.print .cout "Error: some layers are not supported", .exit (-1)] }))
      ∧ (enabledLayersSupported d.supportedLayers p.vulkanProgramInfo.enabledLayers = true →
          d.instanceExtensionCountResult = VK_SUCCESS →
          d.instanceExtensionListResult = VK_SUCCESS →
          checkEnabledExtensionsSupported d.instanceExtensions
            p.vulkanProgramInfo.enabledInstanceExtensions = false →
          createVulkanInstance d p
            = .error (.exitFailure,
                { p with trace := p.trace ++
                    [.print .cout "Not all required instance extensions supported",
                     .exit (-1)] })) := by
  constructor
  · intro h
    unfold createVulkanInstance
    simp [h, fail, failure, emit]
  · intro h1 h2 h3 h4
    unfold createVulkanInstance
    simp [h1, h2, h3, h4, fail, failure, emit]

/-- C17 (witness): the layer `missing_layer` is requested and no layer is
supported. -/
theorem negotiation_failure_fixed_line_witness :
    enabledLayersSupported (samplePlatform 2 1).supportedLayers ["missing_layer"] = false
      ∧ createVulkanInstance (samplePlatform 2 1)
          { vulkanProgramInfo := { enabledLayers := ["missing_layer"] } }
        = .error (.exitFailure,
            { vulkanProgramInfo := { enabledLayers := ["missing_layer"] },
              trace := [.print .cout "Error: some layers are not supported", .exit (-1)] }) :=
  ⟨by decide,
    (negotiation_failure_fixed_line (samplePlatform 2 1)
      { vulkanProgramInfo := { enabledLayers := ["missing_layer"] } }).1 (by decide)⟩

/-- The steps of `run` from `createDevice` on only add to the trace. -/
theorem restOfRun_extends (t : List Call) (d : Platform) (x : Step) (h : t <+: traceOf x) :
    t <+: traceOf (x >>= createDevice d >>= createSwapchain d >>= createGraphicsPipeline d
      >>= createShaderPipeline d >>= createFramebuffer d >>= createCmdPool d
      >>= createSemaphores d >>= vulkanProgramLoop d >>= fun p => .ok (cleanup d p)) := by
  refine extends_bind ?_ (fun p hp => cleanup_extends t d p hp)
  refine extends_bind ?_ (fun p hp => vulkanProgramLoop_extends t d p hp)
  refine extends_bind ?_ (fun p hp => createSemaphores_extends t d p hp)
  refine extends_bind ?_ (fun p hp => createCmdPool_extends t d p hp)
  refine extends_bind ?_ (fun p hp => createFramebuffer_extends t d p hp)
  refine extends_bind ?_ (fun p hp => createShaderPipeline_extends t d p hp)
  refine extends_bind ?_ (fun p hp => createGraphicsPipeline_extends t d p hp)
  refine extends_bind ?_ (fun p hp => createSwapchain_extends t d p hp)
  exact extends_bind h (fun p hp => createDevice_extends t d p hp)

/-- What `createVulkanInstance` returns once the negotiation has passed and
the instance has been created: it returns whether or not the diagnostics
channel could be created. -/
theorem createVulkanInstance_returns (d : Platform) (p : VulkanProgram)
    (hl : enabledLayersSupported d.supportedLayers p.vulkanProgramInfo.enabledLayers = true)
    (hc : d.instanceExtensionCountResult = VK_SUCCESS)
    (hr : d.instanceExtensionListResult = VK_SUCCESS)
    (he : checkEnabledExtensionsSupported d.instanceExtensions
      p.vulkanProgramInfo.enabledInstanceExtensions = true)
    (hi : d.vkCreateInstance = VK_SUCCESS) :
    createVulkanInstance d p
      = .ok { p with
          vulkanProgramInfo := { p.vulkanProgramInfo with
            vulkanInstance := .vulkanInstance,
            debugMessenger :=
              if messengerCreated d then .debugMessenger
              else p.vulkanProgramInfo.debugMessenger },
          trace := p.trace ++
            Call.vkCreateInstance p.vulkanProgramInfo.enabledLayers
              p.vulkanProgramInfo.enabledInstanceExtensions VK_SUCCESS :: messengerCalls d } := by
  have hne : VK_ERROR_EXTENSION_NOT_PRESENT ≠ VK_SUCCESS := by decide
  unfold createVulkanInstance
  by_cases hproc : d.vkGetInstanceProcAddr "vkCreateDebugUtilsMessengerEXT" = true <;>
    by_cases hm : d.vkCreateDebugUtilsMessengerEXT = VK_SUCCESS <;>
    simp [createDebugUtilsMessenger, messengerCreated, messengerCalls, hproc, hm, hl, hc, hr,
      he, hi, emit, hne]

/-- C18: in a run that has its window and passes the instance-level
negotiation, a non-success status of `vkCreateInstance` ends the run with
"Failed to create vulkan instance" and `exit(-1)`.  When the instance is
created, `createVulkanInstance` returns whatever becomes of the diagnostics
channel, and the next call of the run is `glfwCreateWindowSurface`.  When
the entry point of the channel does not resolve, `createDebugUtilsMessenger`
returns `VK_ERROR_EXTENSION_NOT_PRESENT` and two lines are written to the
error stream; when the entry point resolves and the creation call fails,
one line is written to the error stream after the call. -/
theorem messenger_failure_not_fatal (d : Platform)
    (hg : d.glfwInit = true) (hw : d.glfwCreateWindow = true)
    (hc : d.instanceExtensionCountResult = VK_SUCCESS)
    (hr : d.instanceExtensionListResult = VK_SUCCESS)
    (he : checkEnabledExtensionsSupported d.instanceExtensions
      ("VK_EXT_debug_utils" :: d.glfwRequiredInstanceExtensions) = true) :
    (d.vkCreateInstance ≠ VK_SUCCESS →
        ∃ s, run d {} = .error (.exitFailure, s)
          ∧ s.trace = [.glfwInit true, .glfwCreateWindow 800 500 .window,
              .vkCreateInstance [] ("VK_EXT_debug_utils" :: d.glfwRequiredInstanceExtensions)
                d.vkCreateInstance,
              .print .cout "Failed to create vulkan instance", .exit (-1)])
      ∧ (d.vkCreateInstance = VK_SUCCESS →
          ∃ q, createGLFWWindow d {} >>= createVulkanInstance d = .ok q
            ∧ q.trace = [.glfwInit true, .glfwCreateWindow 800 500 .window,
                .vkCreateInstance [] ("VK_EXT_debug_utils" :: d.glfwRequiredInstanceExtensions)
                  VK_SUCCESS] ++ messengerCalls d
            ∧ q.trace ++ [.glfwCreateWindowSurface .vulkanInstance .window
                  d.glfwCreateWindowSurface] <+: traceOf (run d {}))
      ∧ (d.vkGetInstanceProcAddr "vkCreateDebugUtilsMessengerEXT" = false →
          (∀ inst p, (createDebugUtilsMessenger d inst p).1 = VK_ERROR_EXTENSION_NOT_PRESENT)
            ∧ messengerCalls d
                = [.print .cerr "Could not find vkCreateDebugUtilsMessengerEXT",
                   .print .cerr "Failed to create debug utils messenger"])
      ∧ (d.vkGetInstanceProcAddr "vkCreateDebugUtilsMessengerEXT" = true →
          d.vkCreateDebugUtilsMessengerEXT ≠ VK_SUCCESS →
          messengerCalls d
            = [.vkCreateDebugUtilsMessengerEXT .vulkanInstance messengerSeverity messengerType
                 d.vkCreateDebugUtilsMessengerEXT,
               .print .cerr "Failed to create debug utils messenger"]) := by
  have hwin : createGLFWWindow d {}
      = .ok { window := .window,
              vulkanProgramInfo := { enabledInstanceExtensions :=
                "VK_EXT_debug_utils" :: d.glfwRequiredInstanceExtensions },
              trace := [.glfwInit true, .glfwCreateWindow 800 500 .window] } := by
    unfold createGLFWWindow
    simp [hg, hw, emit]
  refine ⟨?_, ?_, ?_, ?_⟩
  · intro hi
    have hrun : ∀ s, createVulkanInstance d
          { window := .window,
            vulkanProgramInfo := { enabledInstanceExtensions :=
              "VK_EXT_debug_utils" :: d.glfwRequiredInstanceExtensions },
            trace := [.glfwInit true, .glfwCreateWindow 800 500 .window] }
          = .error (.exitFailure, s) → run d {} = .error (.exitFailure, s) := by
      intro s hs
      unfold run setup setupThroughCmdPool
      rw [hwin]
      simp only [bind, Except.bind, hs]
    have : createVulkanInstance d
        { window := .window,
          vulkanProgramInfo := { enabledInstanceExtensions :=
            "VK_EXT_debug_utils" :: d.glfwRequiredInstanceExtensions },
          trace := [.glfwInit true, .glfwCreateWindow 800 500 .window] }
        = .error (.exitFailure,
            { window := .window,
              vulkanProgramInfo := { enabledInstanceExtensions :=
                "VK_EXT_debug_utils" :: d.glfwRequiredInstanceExtensions },
              trace := [.glfwInit true, .glfwCreateWindow 800 500 .window,
                .vkCreateInstance []
                  ("VK_EXT_debug_utils" :: d.glfwRequiredInstanceExtensions)
                  d.vkCreateInstance,
                .print .cout "Failed to create vulkan instance", .exit (-1)] }) := by
      unfold createVulkanInstance
      simp [hc, hr, he, hi, fail, failure, emit, enabledLayersSupported]
    exact ⟨_, hrun _ this, rfl⟩
  · intro hi
    have hret := createVulkanInstance_returns d
      { window := .window,
        vulkanProgramInfo := { enabledInstanceExtensions :=
          "VK_EXT_debug_utils" :: d.glfwRequiredInstanceExtensions },
        trace := [.glfwInit true, .glfwCreateWindow 800 500 .window] }
      (by simp [enabledLayersSupported]) hc hr he hi
    have hq : createGLFWWindow d {} >>= createVulkanInstance d
        = createVulkanInstance d
            { window := .window,
              vulkanProgramInfo := { enabledInstanceExtensions :=
                "VK_EXT_debug_utils" :: d.glfwRequiredInstanceExtensions },
              trace := [.glfwInit true, .glfwCreateWindow 800 500 .window] } := by
      rw [hwin]
      rfl
    refine ⟨_, hq.trans hret, by simp, ?_⟩
    unfold run setup setupThroughCmdPool
    rw [hwin]
    simp only [bind, Except.bind, hret]
    refine restOfRun_extends _ d (surfaceVulkanAndWindow d _) ?_
    unfold surfaceVulkanAndWindow
    simp only [emit_window, emit_info, emit_vkResult]
    split
    · simp only [traceOf_fail, emit_trace, List.append_assoc]
      exact ⟨[.print .cout "failed to create surface between vulkan instance and glfw window",
        .exit (-1)], by simp⟩
    · simp [traceOf_ok, emit_trace]
  · intro hproc
    refine ⟨fun inst p => by simp [createDebugUtilsMessenger, hproc], by
      simp [messengerCalls, hproc]⟩
  · intro hproc hm
    simp [messengerCalls, hproc, hm]

/-- C18 (witness): on the platform on which every call succeeds but no
entry point of the diagnostics channel resolves, the negotiation passes,
the instance is created, two lines go to the error stream, and the run
goes on with `glfwCreateWindowSurface`. -/
theorem messenger_failure_not_fatal_witness :
    ({ samplePlatform 2 1 with vkGetInstanceProcAddr := fun _ => false } : Platform).glfwInit
        = true
      ∧ ({ samplePlatform 2 1 with vkGetInstanceProcAddr := fun _ => false } :
          Platform).glfwCreateWindow = true
      ∧ ({ samplePlatform 2 1 with vkGetInstanceProcAddr := fun _ => false } :
          Platform).instanceExtensionCountResult = VK_SUCCESS
      ∧ ({ samplePlatform 2 1 with vkGetInstanceProcAddr := fun _ => false } :
          Platform).instanceExtensionListResult = VK_SUCCESS
      ∧ checkEnabledExtensionsSupported
          ({ samplePlatform 2 1 with vkGetInstanceProcAddr := fun _ => false } :
            Platform).instanceExtensions
          ["VK_EXT_debug_utils", "VK_KHR_surface"] = true
      ∧ ({ samplePlatform 2 1 with vkGetInstanceProcAddr := fun _ => false } :
          Platform).vkCreateInstance = VK_SUCCESS
      ∧ ∃ q, createGLFWWindow { samplePlatform 2 1 with vkGetInstanceProcAddr := fun _ => false }
              {}
            >>= createVulkanInstance
              { samplePlatform 2 1 with vkGetInstanceProcAddr := fun _ => false } = .ok q
          ∧ q.trace = [.glfwInit true, .glfwCreateWindow 800 500 .window,
              .vkCreateInstance [] ["VK_EXT_debug_utils", "VK_KHR_surface"] VK_SUCCESS,
              .print .cerr "Could not find vkCreateDebugUtilsMessengerEXT",
              .print .cerr "Failed to create debug utils messenger"]
          ∧ q.trace ++ [.glfwCreateWindowSurface .vulkanInstance .window VK_SUCCESS]
              <+: traceOf (run
                { samplePlatform 2 1 with vkGetInstanceProcAddr := fun _ => false } {}) :=
  ⟨rfl, rfl, rfl, rfl, by decide, rfl,
    (messenger_failure_not_fatal
      { samplePlatform 2 1 with vkGetInstanceProcAddr := fun _ => false }
      rfl rfl rfl rfl (by decide)).2.1 rfl⟩

/-! ## The diagnostics callback -/

/-- C19: for every severity, every set of message-type flags, every callback
data and every user pointer, `debugMessengerCallback` returns `VK_FALSE`,
which is 0; the value returned is the same for any two calls; and all the
call does is write to the error stream the one line that consists of
"Validation Layer Debug Message: " followed by the message of the driver.
The line written depends on the message alone. -/
theorem debugMessengerCallback_returns_false (messageSeverity messageTypes : Nat)
    (pCallbackData : VkDebugUtilsMessengerCallbackDataEXT) (pUserData : Nat)
    (output : List Call) :
    (debugMessengerCallback messageSeverity messageTypes pCallbackData pUserData output).1
        = VK_FALSE
      ∧ VK_FALSE = 0
      ∧ (∀ (severity2 types2 : Nat) (data2 : VkDebugUtilsMessengerCallbackDataEXT)
            (user2 : Nat) (output2 : List Call),
          (debugMessengerCallback severity2 types2 data2 user2 output2).1
            = (debugMessengerCallback messageSeverity messageTypes pCallbackData pUserData
                output).1)
      ∧ (debugMessengerCallback messageSeverity messageTypes pCallbackData pUserData output).2
          = output ++
            [.print .cerr ("Validation Layer Debug Message: " ++ pCallbackData.pMessage)]
      ∧ (∀ (severity2 types2 : Nat) (data2 : VkDebugUtilsMessengerCallbackDataEXT)
            (user2 : Nat),
          data2.pMessage = pCallbackData.pMessage →
          (debugMessengerCallback severity2 types2 data2 user2 output).2
            = (debugMessengerCallback messageSeverity messageTypes pCallbackData pUserData
                output).2) := by
  refine ⟨rfl, rfl, fun _ _ _ _ _ => rfl, rfl, ?_⟩
  intro severity2 types2 data2 user2 h
  simp [debugMessengerCallback, h]

/-- C19 (witness): two calls that differ in everything but the message
write the same line. -/
theorem debugMessengerCallback_returns_false_witness :
    (debugMessengerCallback 0x1000 0x2
        { pMessageIdName := "VUID-1", messageIdNumber := 7, pMessage := "image layout" } 0 []).2
      = (debugMessengerCallback 0x100 0x4
        { pMessageIdName := "VUID-2", messageIdNumber := -3, pMessage := "image layout" } 99 []).2 :=
  (debugMessengerCallback_returns_false 0x100 0x4
    { pMessageIdName := "VUID-2", messageIdNumber := -3, pMessage := "image layout" } 99 []).2.2.2.2
    0x1000 0x2 { pMessageIdName := "VUID-1", messageIdNumber := 7, pMessage := "image layout" } 0
    rfl

/-! ## The outcomes of a run -/

/-- C23: `checkEnabledExtensionsSupported S R` is `true` exactly when `R` is
empty or the first name of `R` is the `extensionName` of some element of
`S`; the flag is never reset, so the names after the first have no
influence on the answer. -/
theorem checkEnabledExtensionsSupported_first_name (S : List VkExtensionProperties)
    (R : List String) :
    (checkEnabledExtensionsSupported S R = true ↔
        R = [] ∨ ∃ r rest, R = r :: rest ∧ ∃ s ∈ S, s.extensionName = r)
      ∧ ∀ r rest other, checkEnabledExtensionsSupported S (r :: rest)
          = checkEnabledExtensionsSupported S (r :: other) := by
  have key : ∀ r rest, checkEnabledExtensionsSupported S (r :: rest)
      = decide (∃ s ∈ S, s.extensionName = r) := by
    intro r rest
    simp only [checkEnabledExtensionsSupported, extensionOuterLoop, extensionInnerLoop_eq,
      Bool.false_or]
    by_cases h : ∃ s ∈ S, s.extensionName = r
    · simp only [h, decide_True, Bool.not_true, Bool.false_eq_true, if_false]
      exact extensionOuterLoop_true S rest
    · simp [h]
  constructor
  · cases R with
    | nil => simp [checkEnabledExtensionsSupported, extensionOuterLoop]
    | cons r rest =>
      rw [key]
      simp
  · intro r rest other
    rw [key, key]

/-- C23 (witness): against the supported set {"diag_ext"}, the request
{"diag_ext", "missing_ext"} is answered like the request {"diag_ext"}. -/
theorem checkEnabledExtensionsSupported_first_name_witness :
    checkEnabledExtensionsSupported [{ extensionName := "diag_ext" }]
        ["diag_ext", "missing_ext"]
      = checkEnabledExtensionsSupported [{ extensionName := "diag_ext" }] ["diag_ext"] :=
  (checkEnabledExtensionsSupported_first_name [{ extensionName := "diag_ext" }]
    ["diag_ext"]).2 "diag_ext" ["missing_ext"] []

/-! ## The command-buffer lookup of `drawFrame` -/

/-- C24: after a successful set-up `cmdBuffers` has as many elements as
`swapchainFramebuffers`, which has as many as `imageViews`, which has as
many as `swapchainImages`, which has as many as the swapchain has images.
So for every image index `k` below the image count the lookup
`cmdBuffers[k]` finds an element; a `drawFrame` that acquires such an
index returns, whatever state with these command buffers it starts from;
and when every frame acquires such an index, `vulkanProgramLoop`
returns. -/
theorem cmdBuffers_lookup_in_bounds {d : Platform} {p : VulkanProgram}
    (h : setup d {} = .ok p) :
    (p.vulkanProgramInfo.cmdBuffers.length = p.vulkanProgramInfo.swapchainFramebuffers.length
        ∧ p.vulkanProgramInfo.swapchainFramebuffers.length
            = p.vulkanProgramInfo.imageViews.length
        ∧ p.vulkanProgramInfo.imageViews.length = p.vulkanProgramInfo.swapchainImages.length
        ∧ p.vulkanProgramInfo.swapchainImages.length = d.swapchainImageCount)
      ∧ (∀ k < d.swapchainImageCount, ∃ cmdBuffer,
          p.vulkanProgramInfo.cmdBuffers[k]? = some cmdBuffer)
      ∧ (∀ (frame : Nat) (s : VulkanProgram),
          s.vulkanProgramInfo.cmdBuffers = p.vulkanProgramInfo.cmdBuffers →
          (d.vkAcquireNextImageKHR frame).2 < d.swapchainImageCount →
          ∃ q, drawFrame d frame s = .ok q)
      ∧ ((∀ frame < d.framesBeforeClose,
            (d.vkAcquireNextImageKHR frame).2 < d.swapchainImageCount) →
          ∃ q, vulkanProgramLoop d p = .ok q) := by
  obtain ⟨idx, fmt, vc, fc, _, _, _, _, _, i, _⟩ := setup_ok h
  have hcmd : p.vulkanProgramInfo.cmdBuffers.length = d.swapchainImageCount := by
    rw [i]
    simp only [infoAfterSetup]
    split_ifs <;> simp
  have hfb : p.vulkanProgramInfo.swapchainFramebuffers.length = d.swapchainImageCount := by
    rw [i]
    simp [infoAfterSetup]
  have hiv : p.vulkanProgramInfo.imageViews.length = d.swapchainImageCount := by
    rw [i]
    simp [infoAfterSetup]
  have himg : p.vulkanProgramInfo.swapchainImages.length = d.swapchainImageCount := by
    rw [i]
    simp [infoAfterSetup]
  have hget : ∀ k < d.swapchainImageCount, ∃ cmdBuffer,
      p.vulkanProgramInfo.cmdBuffers[k]? = some cmdBuffer := by
    intro k hk
    exact ⟨p.vulkanProgramInfo.cmdBuffers[k], List.getElem?_eq_getElem (by omega)⟩
  refine ⟨⟨by omega, by omega, by omega, himg⟩, hget, ?_, ?_⟩
  · intro frame s hs hk
    obtain ⟨cb, hcb⟩ := hget _ hk
    rw [← hs] at hcb
    unfold drawFrame
    simp only [emit, hcb]
    exact ⟨_, rfl⟩
  · intro hall
    cases hres : vulkanProgramLoop d p with
    | ok q => exact ⟨q, rfl⟩
    | error e =>
      obtain ⟨_, k, hk, hnone, _⟩ := vulkanProgramLoop_error hres
      obtain ⟨cb, hcb⟩ := hget _ (hall k hk)
      rw [hcb] at hnone
      cases hnone

/-- C24 (witness): after the set-up on `samplePlatform 2 2`, the lookup
`cmdBuffers[1]` finds an element and the frame loop returns. -/
theorem cmdBuffers_lookup_in_bounds_witness :
    setup (samplePlatform 2 2) {} = .ok (sampleAfterSetup 2 2)
      ∧ (∃ cmdBuffer, (sampleAfterSetup 2 2).vulkanProgramInfo.cmdBuffers[1]? = some cmdBuffer)
      ∧ (sampleAfterSetup 2 2).vulkanProgramInfo.cmdBuffers.length
          = (sampleAfterSetup 2 2).vulkanProgramInfo.swapchainFramebuffers.length :=
  ⟨rfl, (@cmdBuffers_lookup_in_bounds (samplePlatform 2 2) _ rfl).2.1 1 (by decide),
    (@cmdBuffers_lookup_in_bounds (samplePlatform 2 2) _ rfl).1.1⟩

/-! ## Parallel arrays, index by index -/

/-- The calls of `createVulkanInstance` after the instance exists are of two
kinds only. -/
theorem mem_messengerCalls {d : Platform} {c : Call} (h : c ∈ messengerCalls d) :
    (∃ r, c = .vkCreateDebugUtilsMessengerEXT .vulkanInstance messengerSeverity messengerType r)
      ∨ ∃ line, c = .print .cerr line := by
  unfold messengerCalls at h
  split_ifs at h <;> simp at h
  · exact Or.inl ⟨_, h⟩
  · rcases h with h | h
    · exact Or.inl ⟨_, h⟩
    · exact Or.inr ⟨_, h⟩
  · rcases h with h | h <;> exact Or.inr ⟨_, h⟩

/-- The image-view creations of a successful set-up. -/
theorem mem_traceAfterSetup_imageView (d : Platform) (idx : Nat) (fmt : VkSurfaceFormatKHR)
    (vc fc : List Nat) (dev img : Handle) (f : Nat) (out : Handle) (r : VkResult) :
    .vkCreateImageView dev img f out r ∈ traceAfterSetup d idx fmt vc fc ↔
      ∃ i < d.swapchainImageCount, dev = .GPUDevice ∧ img = .swapchainImage i
        ∧ f = fmt.format ∧ out = .imageView i ∧ r = VK_SUCCESS := by
  constructor
  · intro h
    simp only [traceAfterSetup, traceThroughCmdPool, traceBeforeRecording, List.mem_append,
      List.mem_cons, List.mem_map, List.mem_range, List.mem_flatten, List.mem_singleton,
      List.mem_nil_iff, or_false, reduceCtorEq, false_or, or_false, Call.vkCreateImageView.injEq,
      exists_false, and_false] at h
    rcases h with (h | h) | h
    · rcases mem_messengerCalls h with ⟨_, h2⟩ | ⟨_, h2⟩ <;> cases h2
    · obtain ⟨i, hi, h1, h2, h3, h4, h5⟩ := h
      exact ⟨i, hi, h1.symm, h2.symm, h3.symm, h4.symm, h5.symm⟩
    · obtain ⟨l, ⟨i, _, rfl⟩, h2⟩ := h
      simp [recordedCalls] at h2
  · rintro ⟨i, hi, rfl, rfl, rfl, rfl, rfl⟩
    simp only [traceAfterSetup, traceThroughCmdPool, traceBeforeRecording, List.mem_append,
      List.mem_map, List.mem_range]
    exact Or.inl (Or.inl (Or.inl (Or.inl (Or.inl (Or.inr ⟨i, hi, rfl⟩)))))

/-- The framebuffer creations of a successful set-up. -/
theorem mem_traceAfterSetup_framebuffer (d : Platform) (idx : Nat) (fmt : VkSurfaceFormatKHR)
    (vc fc : List Nat) (dev : Handle) (info : VkFramebufferCreateInfo) (out : Handle)
    (r : VkResult) :
    .vkCreateFramebuffer dev info out r ∈ traceAfterSetup d idx fmt vc fc ↔
      ∃ i < d.swapchainImageCount, dev = .GPUDevice
        ∧ info = { renderPass := .renderPass,
                   attachments := [.imageView i],
                   width := (chooseSwapchainExtent d.surfaceCapabilities).width,
                   height := (chooseSwapchainExtent d.surfaceCapabilities).height,
                   layers := 1 }
        ∧ out = .framebuffer i ∧ r = VK_SUCCESS := by
  constructor
  · intro h
    simp only [traceAfterSetup, traceThroughCmdPool, traceBeforeRecording, List.mem_append,
      List.mem_cons, List.mem_map, List.mem_range, List.mem_flatten, List.mem_singleton,
      List.mem_nil_iff, or_false, reduceCtorEq, false_or, or_false,
      Call.vkCreateFramebuffer.injEq, exists_false, and_false] at h
    rcases h with (h | h) | h
    · rcases mem_messengerCalls h with ⟨_, h2⟩ | ⟨_, h2⟩ <;> cases h2
    · obtain ⟨i, hi, h1, h2, h3, h4⟩ := h
      exact ⟨i, hi, h1.symm, h2.symm, h3.symm, h4.symm⟩
    · obtain ⟨l, ⟨i, _, rfl⟩, h2⟩ := h
      simp [recordedCalls] at h2
  · rintro ⟨i, hi, rfl, rfl, rfl, rfl⟩
    simp only [traceAfterSetup, traceThroughCmdPool, traceBeforeRecording, List.mem_append,
      List.mem_map, List.mem_range]
    exact Or.inl (Or.inl (Or.inl (Or.inr ⟨i, hi, rfl⟩)))

/-- The render passes begun in a successful set-up. -/
theorem mem_traceAfterSetup_beginRenderPass (d : Platform) (idx : Nat)
    (fmt : VkSurfaceFormatKHR) (vc fc : List Nat) (cmdBuffer : Handle)
    (info : VkRenderPassBeginInfo) :
    .vkCmdBeginRenderPass cmdBuffer info ∈ traceAfterSetup d idx fmt vc fc ↔
      ∃ i < d.swapchainImageCount,
        cmdBuffer = (infoAfterSetup d idx fmt).cmdBuffers.getD i .null
        ∧ info = { renderPass := .renderPass,
                   framebuffer := .framebuffer i,
                   renderAreaOffset := (0, 0),
                   renderAreaExtent := chooseSwapchainExtent d.surfaceCapabilities,
                   clearValues := [(0, 0, 0, 1)] } := by
  have hfb : ∀ i < d.swapchainImageCount,
      (infoAfterSetup d idx fmt).swapchainFramebuffers.getD i .null = .framebuffer i := by
    intro i hi
    simp [infoAfterSetup, hi]
  constructor
  · intro h
    simp only [traceAfterSetup, traceThroughCmdPool, traceBeforeRecording, List.mem_append,
      List.mem_cons, List.mem_map, List.mem_range, List.mem_flatten, List.mem_singleton,
      List.mem_nil_iff, or_false, reduceCtorEq, false_or, or_false, exists_false,
      and_false] at h
    rcases h with h | h
    · rcases mem_messengerCalls h with ⟨_, h2⟩ | ⟨_, h2⟩ <;> cases h2
    · obtain ⟨l, ⟨i, hi, rfl⟩, h2⟩ := h
      simp only [recordedCalls, List.mem_cons, reduceCtorEq, false_or,
        Call.vkCmdBeginRenderPass.injEq, List.mem_nil_iff, or_false] at h2
      refine ⟨i, hi, h2.1, ?_⟩
      rw [h2.2, hfb i hi]
      rfl
  · rintro ⟨i, hi, rfl, rfl⟩
    simp only [traceAfterSetup, traceThroughCmdPool, List.mem_append, List.mem_flatten,
      List.mem_map, List.mem_range]
    refine Or.inl (Or.inr ⟨_, ⟨i, hi, rfl⟩, ?_⟩)
    simp only [recordedCalls, hfb i hi]
    simp [infoAfterSetup]

/-- C21: after a successful set-up, for every index `i` below the image
count of the swapchain, the four vectors hold an element at `i`;
`imageViews[i]` was created from `swapchainImages[i]` and from no other
image; `swapchainFramebuffers[i]` was created with `imageViews[i]` as its
single attachment, the render pass of the program, and the width and
height of `swapchainExtent`, and in no other way; and a render pass is
begun in `cmdBuffers[i]` on `swapchainFramebuffers[i]` with a render area
of offset (0,0) and extent `swapchainExtent`, which, when the command
buffers have been allocated, is the only render pass begun in it. -/
theorem parallel_arrays_same_slot {d : Platform} {p : VulkanProgram}
    (h : setup d {} = .ok p) (i : Nat) (hi : i < d.swapchainImageCount) :
    ∃ image view framebuffer cmdBuffer,
      p.vulkanProgramInfo.swapchainImages[i]? = some image
        ∧ p.vulkanProgramInfo.imageViews[i]? = some view
        ∧ p.vulkanProgramInfo.swapchainFramebuffers[i]? = some framebuffer
        ∧ p.vulkanProgramInfo.cmdBuffers[i]? = some cmdBuffer
        ∧ .vkCreateImageView p.vulkanProgramInfo.GPUDevice image
            p.vulkanProgramInfo.vulkanSwapchainFormat view VK_SUCCESS ∈ p.trace
        ∧ (∀ dev img f r, .vkCreateImageView dev img f view r ∈ p.trace → img = image)
        ∧ .vkCreateFramebuffer p.vulkanProgramInfo.GPUDevice
            { renderPass := p.vulkanProgramInfo.renderPass,
              attachments := [view],
              width := p.vulkanProgramInfo.swapchainExtent.width,
              height := p.vulkanProgramInfo.swapchainExtent.height,
              layers := 1 } framebuffer VK_SUCCESS ∈ p.trace
        ∧ (∀ dev info r, .vkCreateFramebuffer dev info framebuffer r ∈ p.trace →
            info.attachments = [view]
              ∧ info.renderPass = p.vulkanProgramInfo.renderPass
              ∧ info.width = p.vulkanProgramInfo.swapchainExtent.width
              ∧ info.height = p.vulkanProgramInfo.swapchainExtent.height)
        ∧ .vkCmdBeginRenderPass cmdBuffer
            { renderPass := p.vulkanProgramInfo.renderPass,
              framebuffer := framebuffer,
              renderAreaOffset := (0, 0),
              renderAreaExtent := p.vulkanProgramInfo.swapchainExtent,
              clearValues := [(0, 0, 0, 1)] } ∈ p.trace
        ∧ (d.vkAllocateCommandBuffers = VK_SUCCESS →
            ∀ info, .vkCmdBeginRenderPass cmdBuffer info ∈ p.trace →
              info.framebuffer = framebuffer
                ∧ info.renderAreaOffset = (0, 0)
                ∧ info.renderAreaExtent = p.vulkanProgramInfo.swapchainExtent) := by
  obtain ⟨idx, fmt, vc, fc, _, _, _, _, _, hinfo, htrace⟩ := setup_ok h
  have hlen : (infoAfterSetup d idx fmt).cmdBuffers.length = d.swapchainImageCount := by
    simp only [infoAfterSetup]
    split_ifs <;> simp
  refine ⟨.swapchainImage i, .imageView i, .framebuffer i,
    (infoAfterSetup d idx fmt).cmdBuffers.getD i .null, ?_, ?_, ?_, ?_, ?_, ?_, ?_, ?_, ?_, ?_⟩
  · rw [hinfo]
    simp [infoAfterSetup, hi]
  · rw [hinfo]
    simp [infoAfterSetup, hi]
  · rw [hinfo]
    simp [infoAfterSetup, hi]
  · rw [hinfo, List.getD_eq_getElem?_getD, List.getElem?_eq_getElem (by omega)]
    rfl
  · rw [htrace, hinfo, mem_traceAfterSetup_imageView]
    exact ⟨i, hi, rfl, rfl, rfl, rfl, rfl⟩
  · intro dev img f r hm
    rw [htrace, mem_traceAfterSetup_imageView] at hm
    obtain ⟨j, _, _, h2, _, h4, _⟩ := hm
    simp only [Handle.imageView.injEq] at h4
    rw [h2, h4]
  · rw [htrace, hinfo, mem_traceAfterSetup_framebuffer]
    exact ⟨i, hi, rfl, rfl, rfl, rfl⟩
  · intro dev info r hm
    rw [htrace, mem_traceAfterSetup_framebuffer] at hm
    obtain ⟨j, _, _, h2, h3, _⟩ := hm
    simp only [Handle.framebuffer.injEq] at h3
    rw [h2, h3, hinfo]
    exact ⟨rfl, rfl, rfl, rfl⟩
  · rw [htrace, hinfo, mem_traceAfterSetup_beginRenderPass]
    exact ⟨i, hi, rfl, rfl⟩
  · intro hal info hm
    rw [htrace, mem_traceAfterSetup_beginRenderPass] at hm
    obtain ⟨j, hj, h1, h2⟩ := hm
    have hij : i = j := by
      simp only [infoAfterSetup, hal, if_true, List.getD_eq_getElem?_getD] at h1
      rw [List.getElem?_eq_getElem (by simpa using hi),
        List.getElem?_eq_getElem (by simpa using hj)] at h1
      simpa using h1
    subst hij
    rw [h2, hinfo]
    exact ⟨rfl, rfl, rfl⟩

/-! ## Recording, once -/

/-- Filtering a list none of whose elements passes. -/
theorem filter_eq_nil_of_all {α : Type} (P : α → Bool) (l : List α)
    (h : ∀ c ∈ l, ¬ P c = true) : l.filter P = [] := by
  rw [List.filter_eq_nil_iff]
  exact h

/-- The calls of returning frames record nothing. -/
theorem frames_not_recording (d : Platform) (info : VulkanProgramInfo) (l : List Nat) :
    ∀ c ∈ (l.map (frameCalls d info)).flatten, ¬ c.isRecording = true := by
  intro c hc
  simp only [List.mem_flatten, List.mem_map] at hc
  obtain ⟨_, ⟨k, _, rfl⟩, hc⟩ := hc
  simp only [frameCalls, List.mem_cons, List.mem_singleton, List.mem_nil_iff, or_false] at hc
  rcases hc with rfl | rfl | rfl | rfl | rfl | rfl <;> simp [Call.isRecording]

/-- The calls of `cleanup` record nothing. -/
theorem cleanupCalls_not_recording (d : Platform) (p : VulkanProgram) :
    ∀ c ∈ cleanupCalls d p, ¬ c.isRecording = true := by
  intro c hc
  rw [cleanupCalls_eq] at hc
  simp only [List.mem_append, List.mem_cons, List.mem_map, List.mem_singleton,
    List.mem_nil_iff, or_false] at hc
  by_cases hp : d.vkGetInstanceProcAddr "vkDestroyDebugUtilsMessengerEXT" = true
  all_goals
    simp only [hp, if_true, if_false, Bool.false_eq_true] at hc
    rcases hc with ((hc | hc) | hc) | hc
    · rcases hc with rfl | rfl <;> simp [Call.isRecording]
    · obtain ⟨a, _, rfl⟩ := hc
      simp [Call.isRecording]
    · obtain ⟨a, _, rfl⟩ := hc
      simp [Call.isRecording]
    · rcases hc with rfl | rfl | rfl | rfl | rfl | rfl | rfl | rfl | rfl | rfl | rfl <;>
        simp [Call.isRecording]

/-- The recorded calls are all recording calls. -/
theorem filter_recorded (info : VulkanProgramInfo) (l : List Nat) :
    ((l.map (recordedCalls info)).flatten).filter Call.isRecording
      = (l.map (recordedCalls info)).flatten := by
  rw [List.filter_eq_self]
  intro c hc
  simp only [List.mem_flatten, List.mem_map] at hc
  obtain ⟨_, ⟨k, _, rfl⟩, hc⟩ := hc
  simp only [recordedCalls, List.mem_cons, List.mem_singleton, List.mem_nil_iff, or_false] at hc
  rcases hc with rfl | rfl | rfl | rfl | rfl | rfl <;> rfl

/-- The recording calls of a successful set-up. -/
theorem filter_traceAfterSetup (d : Platform) (idx : Nat) (fmt : VkSurfaceFormatKHR)
    (vc fc : List Nat) :
    (traceAfterSetup d idx fmt vc fc).filter Call.isRecording
      = ((List.range d.swapchainImageCount).map
          (recordedCalls (infoAfterSetup d idx fmt))).flatten := by
  simp only [traceAfterSetup, traceThroughCmdPool, List.filter_append, filter_recorded]
  rw [filter_eq_nil_of_all _ _ (traceBeforeRecording_not_recording d idx fmt vc fc)]
  simp [Call.isRecording]

/-- C21 (witness): slot 1 after the set-up on `samplePlatform 2 0`. -/
theorem parallel_arrays_same_slot_witness :
    setup (samplePlatform 2 0) {} = .ok (sampleAfterSetup 2 0)
      ∧ 1 < (samplePlatform 2 0).swapchainImageCount
      ∧ Call.vkCmdBeginRenderPass (.cmdBuffer 1)
          { renderPass := .renderPass,
            framebuffer := .framebuffer 1,
            renderAreaOffset := (0, 0),
            renderAreaExtent := { width := 800, height := 500 },
            clearValues := [(0, 0, 0, 1)] } ∈ (sampleAfterSetup 2 0).trace := by
  refine ⟨rfl, by decide, ?_⟩
  obtain ⟨image, view, framebuffer, cmdBuffer, _, _, h3, h4, _, _, _, _, h9, _⟩ :=
    @parallel_arrays_same_slot (samplePlatform 2 0) (sampleAfterSetup 2 0) rfl 1 (by decide)
  have e3 : framebuffer = .framebuffer 1 := by
    have : (sampleAfterSetup 2 0).vulkanProgramInfo.swapchainFramebuffers[1]?
        = some (.framebuffer 1) := rfl
    rw [this] at h3
    exact (Option.some.inj h3).symm
  have e4 : cmdBuffer = .cmdBuffer 1 := by
    have : (sampleAfterSetup 2 0).vulkanProgramInfo.cmdBuffers[1]? = some (.cmdBuffer 1) := rfl
    rw [this] at h4
    exact (Option.some.inj h4).symm
  subst e3 e4
  exact h9

/-- The recorded calls of slot `j` all record into `cmdBuffers[j]`. -/
theorem filter_recordedCalls (info : VulkanProgramInfo) (i j : Nat)
    (hj : info.cmdBuffers.getD j .null = .cmdBuffer j) :
    (recordedCalls info j).filter (fun c => decide (c.recordsInto = some (.cmdBuffer i)))
      = if i = j then recordedCalls info j else [] := by
  simp only [List.getD_eq_getElem?_getD] at hj
  by_cases h : i = j
  · subst h
    simp [recordedCalls, hj, Call.recordsInto]
  · have h2 : ¬ j = i := fun e => h e.symm
    simp [recordedCalls, hj, Call.recordsInto, h, h2]

/-- Among the recorded calls of slots `0 .. n-1`, those that record into
command buffer `i` are the recorded calls of slot `i`. -/
theorem filter_recorded_slot (info : VulkanProgramInfo) (i : Nat) :
    ∀ n, (∀ j < n, info.cmdBuffers.getD j .null = .cmdBuffer j) →
      (((List.range n).map (recordedCalls info)).flatten).filter
          (fun c => decide (c.recordsInto = some (.cmdBuffer i)))
        = if i < n then recordedCalls info i else [] := by
  intro n
  induction n with
  | zero => simp
  | succ n ih =>
    intro h
    rw [List.range_succ, List.map_append, List.flatten_append, List.filter_append,
      ih (fun j hj => h j (by omega))]
    simp only [List.map_cons, List.map_nil, List.flatten_cons, List.flatten_nil,
      List.append_nil]
    rw [filter_recordedCalls info i n (h n (by omega))]
    by_cases h1 : i < n
    · have h2 : ¬ i = n := by omega
      have h3 : i < n + 1 := by omega
      simp [h1, h2, h3]
    · by_cases h2 : i = n
      · subst h2
        simp
      · have h3 : ¬ i < n + 1 := by omega
        simp [h1, h2, h3]

/-- What the run adds to the trace after a successful set-up records
nothing. -/
theorem run_after_setup {d : Platform} {p : VulkanProgram} (h : setup d {} = .ok p) :
    ∃ rest, traceOf (run d {}) = p.trace ++ rest ∧ ∀ c ∈ rest, ¬ c.isRecording = true := by
  cases hloop : vulkanProgramLoop d p with
  | ok q =>
    obtain ⟨_, _, tr⟩ := vulkanProgramLoop_ok hloop
    have hrun : run d {} = .ok (cleanup d q) := by
      unfold run
      rw [h]
      simp only [bind, Except.bind, hloop]
    refine ⟨((List.range d.framesBeforeClose).map (frameCalls d p.vulkanProgramInfo)).flatten
      ++ [.vkDeviceWaitIdle p.vulkanProgramInfo.GPUDevice] ++ cleanupCalls d q, ?_, ?_⟩
    · rw [hrun, traceOf_ok, cleanup_trace, tr]
      simp
    · intro c hc
      simp only [List.mem_append, List.mem_singleton] at hc
      rcases hc with (hc | hc) | hc
      · exact frames_not_recording d _ _ c hc
      · subst hc
        simp [Call.isRecording]
      · exact cleanupCalls_not_recording d q c hc
  | error e =>
    obtain ⟨_, k, _, _, tr⟩ := vulkanProgramLoop_error hloop
    have hrun : run d {} = .error e := by
      unfold run
      rw [h]
      simp only [bind, Except.bind, hloop]
    refine ⟨((List.range k).map (frameCalls d p.vulkanProgramInfo)).flatten
      ++ [.glfwPollEvents,
          .vkAcquireNextImageKHR p.vulkanProgramInfo.GPUDevice
            p.vulkanProgramInfo.vulkanSwapchain UINT64_MAX
            p.vulkanProgramInfo.imageAvailableSemaphore .null
            (d.vkAcquireNextImageKHR k).1 (d.vkAcquireNextImageKHR k).2], ?_, ?_⟩
    · rw [hrun, traceOf_error, tr]
      simp
    · intro c hc
      simp only [List.mem_append, List.mem_cons, List.mem_singleton, List.mem_nil_iff,
        or_false] at hc
      rcases hc with hc | hc | hc
      · exact frames_not_recording d _ _ c hc
      · subst hc
        simp [Call.isRecording]
      · subst hc
        simp [Call.isRecording]

/-- C22: after a successful set-up, the recording calls of the set-up are,
for each index `i` of `cmdBuffers` in turn, the six calls of
`recordedCalls`: begin `cmdBuffers[i]`; begin the render pass with the one
clear value (0,0,0,1); bind `graphicsPipeline` at the graphics bind point;
draw with 3 vertices, 1 instance, first vertex 0 and first instance 0;
end the render pass; end the command buffer.  Nothing the run does
afterwards (semaphores, frames, `cleanup`) is a recording call, so the
recording calls of the whole run are the same.  When the command buffers
have been allocated, the calls of the whole run that record into command
buffer `i` are exactly these six, once. -/
theorem commands_recorded_once {d : Platform} {p : VulkanProgram} (h : setup d {} = .ok p) :
    (∀ i, recordedCalls p.vulkanProgramInfo i
        = [.vkBeginCommandBuffer (p.vulkanProgramInfo.cmdBuffers.getD i .null) VK_SUCCESS,
           .vkCmdBeginRenderPass (p.vulkanProgramInfo.cmdBuffers.getD i .null)
             { renderPass := p.vulkanProgramInfo.renderPass,
               framebuffer := p.vulkanProgramInfo.swapchainFramebuffers.getD i .null,
               renderAreaOffset := (0, 0),
               renderAreaExtent := p.vulkanProgramInfo.swapchainExtent,
               clearValues := [(0, 0, 0, 1)] },
           .vkCmdBindPipeline (p.vulkanProgramInfo.cmdBuffers.getD i .null)
             VK_PIPELINE_BIND_POINT_GRAPHICS p.vulkanProgramInfo.graphicsPipeline,
           .vkCmdDraw (p.vulkanProgramInfo.cmdBuffers.getD i .null) 3 1 0 0,
           .vkCmdEndRenderPass (p.vulkanProgramInfo.cmdBuffers.getD i .null),
           .vkEndCommandBuffer (p.vulkanProgramInfo.cmdBuffers.getD i .null) VK_SUCCESS])
      ∧ p.vulkanProgramInfo.cmdBuffers.length = d.swapchainImageCount
      ∧ p.trace.filter Call.isRecording
          = ((List.range d.swapchainImageCount).map
              (recordedCalls p.vulkanProgramInfo)).flatten
      ∧ (traceOf (run d {})).filter Call.isRecording = p.trace.filter Call.isRecording
      ∧ (d.vkAllocateCommandBuffers = VK_SUCCESS →
          ∀ i < d.swapchainImageCount,
            p.vulkanProgramInfo.cmdBuffers.getD i .null = .cmdBuffer i
              ∧ (traceOf (run d {})).filter
                    (fun c => decide (c.recordsInto = some (.cmdBuffer i)))
                  = recordedCalls p.vulkanProgramInfo i) := by
  obtain ⟨idx, fmt, vc, fc, _, _, _, _, _, hinfo, htrace⟩ := setup_ok h
  obtain ⟨rest, hrun, hrest⟩ := run_after_setup h
  have hlen : p.vulkanProgramInfo.cmdBuffers.length = d.swapchainImageCount := by
    rw [hinfo]
    simp only [infoAfterSetup]
    split_ifs <;> simp
  have hfilter : p.trace.filter Call.isRecording
      = ((List.range d.swapchainImageCount).map
          (recordedCalls p.vulkanProgramInfo)).flatten := by
    rw [htrace, hinfo, filter_traceAfterSetup]
  have hwhole : (traceOf (run d {})).filter Call.isRecording
      = p.trace.filter Call.isRecording := by
    rw [hrun, List.filter_append, filter_eq_nil_of_all _ _ hrest, List.append_nil]
  refine ⟨fun i => rfl, hlen, hfilter, hwhole, ?_⟩
  intro hal i hi
  have hget : ∀ j < d.swapchainImageCount,
      p.vulkanProgramInfo.cmdBuffers.getD j .null = .cmdBuffer j := by
    intro j hj
    rw [hinfo]
    simp [infoAfterSetup, hal, hj]
  refine ⟨hget i hi, ?_⟩
  have hsub : (traceOf (run d {})).filter
        (fun c => decide (c.recordsInto = some (.cmdBuffer i)))
      = ((traceOf (run d {})).filter Call.isRecording).filter
          (fun c => decide (c.recordsInto = some (.cmdBuffer i))) := by
    rw [List.filter_filter]
    congr 1
    funext c
    cases c <;> simp [Call.recordsInto, Call.isRecording]
  rw [hsub, hwhole, hfilter, filter_recorded_slot _ i _ hget, if_pos hi]

/-- C22 (witness): on `samplePlatform 2 1` the calls of the whole run that
record into command buffer 1 are the six recorded calls of slot 1. -/
theorem commands_recorded_once_witness :
    setup (samplePlatform 2 1) {} = .ok (sampleAfterSetup 2 1)
      ∧ (samplePlatform 2 1).vkAllocateCommandBuffers = VK_SUCCESS
      ∧ 1 < (samplePlatform 2 1).swapchainImageCount
      ∧ (traceOf (run (samplePlatform 2 1) {})).filter
            (fun c => decide (c.recordsInto = some (.cmdBuffer 1)))
          = recordedCalls (sampleAfterSetup 2 1).vulkanProgramInfo 1 :=
  ⟨rfl, rfl, by decide,
    ((@commands_recorded_once (samplePlatform 2 1) (sampleAfterSetup 2 1) rfl).2.2.2.2 rfl 1
      (by decide)).2⟩

/-! ## No tear-down in an aborted run -/

/-- A sparing trace stays sparing when a sparing call is added. -/
theorem sparing_emit (c : Call) (p : VulkanProgram) :
    Sparing (emit c p).trace ↔ Sparing p.trace ∧ c.sparesObjects = true := by
  simp [Sparing, emit]

/-- Printing a line and exiting destroys nothing. -/
theorem sparing_fail (stream : Stream) (line : String) (p : VulkanProgram) :
    Sparing (traceOf (fail stream line p)) ↔ Sparing p.trace := by
  simp [Sparing, traceOf_fail, Call.sparesObjects, Call.destroyed]

/-- Sequencing two steps that destroy nothing but shader modules. -/
theorem sparing_bind {x : Step} {f : VulkanProgram → Step}
    (hx : Sparing (traceOf x)) (hf : ∀ p, Sparing p.trace → Sparing (traceOf (f p))) :
    Sparing (traceOf (x >>= f)) := by
  cases x with
  | error e => exact hx
  | ok p => exact hf p hx

/-- Method `createGLFWWindow` destroys nothing. -/
theorem createGLFWWindow_sparing (d : Platform) (p : VulkanProgram) (h : Sparing p.trace) :
    Sparing (traceOf (createGLFWWindow d p)) := by
  unfold createGLFWWindow
  simp only [emit_window, emit_info, emit_vkResult]
  repeat' split
  all_goals
    simp only [sparing_fail, traceOf_ok, sparing_emit]
    repeat' constructor
    all_goals exact h

/-- Method `createVulkanInstance` destroys nothing. -/
theorem createVulkanInstance_sparing (d : Platform) (p : VulkanProgram) (h : Sparing p.trace) :
    Sparing (traceOf (createVulkanInstance d p)) := by
  unfold createVulkanInstance
  by_cases hproc : d.vkGetInstanceProcAddr "vkCreateDebugUtilsMessengerEXT" = true <;>
    by_cases hr : d.vkCreateDebugUtilsMessengerEXT = VK_SUCCESS <;>
    simp only [createDebugUtilsMessenger, hproc, hr, if_true, if_false, Bool.false_eq_true,
      emit_window, emit_info, emit_vkResult] <;>
    repeat' split
  all_goals
    simp only [sparing_fail, traceOf_ok, sparing_emit]
    repeat' constructor
    all_goals exact h

/-- Method `surfaceVulkanAndWindow` destroys nothing. -/
theorem surfaceVulkanAndWindow_sparing (d : Platform) (p : VulkanProgram)
    (h : Sparing p.trace) : Sparing (traceOf (surfaceVulkanAndWindow d p)) := by
  unfold surfaceVulkanAndWindow
  simp only [emit_window, emit_info, emit_vkResult]
  repeat' split
  all_goals
    simp only [sparing_fail, traceOf_ok, sparing_emit]
    repeat' constructor
    all_goals exact h

/-- Method `createDevice` destroys nothing. -/
theorem createDevice_sparing (d : Platform) (p : VulkanProgram) (h : Sparing p.trace) :
    Sparing (traceOf (createDevice d p)) := by
  unfold createDevice
  simp only [emit_window, emit_info, emit_vkResult]
  repeat' split
  all_goals
    simp only [sparing_fail, traceOf_ok, traceOf_error, sparing_emit]
    repeat' constructor
    all_goals exact h

/-- The image-view loop destroys nothing. -/
theorem imageViewLoop_sparing (d : Platform) (format : Nat) :
    ∀ (remaining i : Nat) (p : VulkanProgram), Sparing p.trace →
      Sparing (traceOf (imageViewLoop d format remaining i p)) := by
  intro remaining
  induction remaining with
  | zero =>
    intro i p h
    exact h
  | succ k ih =>
    intro i p h
    rw [imageViewLoop]
    simp only [emit_window, emit_info, emit_vkResult]
    split
    · simp only [sparing_fail, sparing_emit]
      exact ⟨h, rfl⟩
    · refine ih _ _ ?_
      simp only [sparing_emit]
      exact ⟨h, rfl⟩

/-- Method `createSwapchain` destroys nothing. -/
theorem createSwapchain_sparing (d : Platform) (p : VulkanProgram) (h : Sparing p.trace) :
    Sparing (traceOf (createSwapchain d p)) := by
  unfold createSwapchain
  simp only [emit_window, emit_info, emit_vkResult]
  repeat' split
  all_goals
    first
    | (refine imageViewLoop_sparing d _ _ _ _ ?_
       simp only [sparing_emit]
       exact ⟨h, rfl⟩)
    | (simp only [sparing_fail, traceOf_ok, traceOf_error, sparing_emit]
       repeat' constructor
       all_goals exact h)

/-- Method `createGraphicsPipeline` destroys nothing. -/
theorem createGraphicsPipeline_sparing (d : Platform) (p : VulkanProgram)
    (h : Sparing p.trace) : Sparing (traceOf (createGraphicsPipeline d p)) := by
  unfold createGraphicsPipeline
  simp only [emit_window, emit_info, emit_vkResult]
  repeat' split
  all_goals
    simp only [sparing_fail, traceOf_ok, sparing_emit]
    repeat' constructor
    all_goals exact h

/-- Method `createShaderPipeline` destroys the two shader modules and
nothing else. -/
theorem createShaderPipeline_sparing (d : Platform) (p : VulkanProgram)
    (h : Sparing p.trace) : Sparing (traceOf (createShaderPipeline d p)) := by
  unfold createShaderPipeline
  rcases hv : d.readFile "../src/vert.spv" with _ | vc
  · simp only [readFile, hv, bind, Except.bind]
    exact (sparing_fail _ _ _).2 h
  rcases hf : d.readFile "../src/frag.spv" with _ | fc
  · simp only [readFile, hv, hf, bind, Except.bind]
    exact (sparing_fail _ _ _).2 h
  by_cases h1 : d.vkCreateShaderModule "../src/vert.spv" = VK_SUCCESS
  swap
  · simp only [readFile, hv, hf, bind, Except.bind, createShaderModule, h1, ne_eq,
      not_false_eq_true, if_true, traceOf_error, sparing_emit]
    exact ⟨⟨h, rfl⟩, rfl⟩
  by_cases h2 : d.vkCreateShaderModule "../src/frag.spv" = VK_SUCCESS
  swap
  · simp only [readFile, hv, hf, bind, Except.bind, createShaderModule, h1, h2, ne_eq,
      not_false_eq_true, not_true_eq_false, if_true, if_false, traceOf_error, sparing_emit]
    exact ⟨⟨⟨h, rfl⟩, rfl⟩, rfl⟩
  simp only [readFile, hv, hf, bind, Except.bind, createShaderModule, h1, h2,
    ne_eq, not_true_eq_false, if_false, emit_window, emit_info, emit_vkResult]
  repeat' split
  all_goals
    simp only [sparing_fail, traceOf_ok, sparing_emit]
    repeat' constructor
    all_goals exact h

/-- The framebuffer loop destroys nothing. -/
theorem framebufferLoop_sparing (d : Platform) :
    ∀ (remaining i : Nat) (p : VulkanProgram), Sparing p.trace →
      Sparing (traceOf (framebufferLoop d remaining i p)) := by
  intro remaining
  induction remaining with
  | zero =>
    intro i p h
    exact h
  | succ k ih =>
    intro i p h
    rw [framebufferLoop]
    simp only [emit_window, emit_info, emit_vkResult]
    split
    · simp only [sparing_fail, sparing_emit]
      exact ⟨h, rfl⟩
    · refine ih _ _ ?_
      simp only [sparing_emit]
      exact ⟨h, rfl⟩

/-- Method `createFramebuffer` destroys nothing. -/
theorem createFramebuffer_sparing (d : Platform) (p : VulkanProgram) (h : Sparing p.trace) :
    Sparing (traceOf (createFramebuffer d p)) := by
  unfold createFramebuffer
  exact framebufferLoop_sparing d _ _ _ h

/-- The recording loop destroys nothing. -/
theorem recordLoop_sparing (d : Platform) :
    ∀ (remaining i : Nat) (p : VulkanProgram), Sparing p.trace →
      Sparing (traceOf (recordLoop d remaining i p)) := by
  intro remaining
  induction remaining with
  | zero =>
    intro i p h
    exact h
  | succ k ih =>
    intro i p h
    rw [recordLoop]
    simp only [emit_window, emit_info, emit_vkResult]
    split
    · simp only [sparing_fail, sparing_emit]
      exact ⟨h, rfl⟩
    · split
      · simp only [sparing_fail, sparing_emit]
        exact ⟨⟨⟨⟨⟨⟨h, rfl⟩, rfl⟩, rfl⟩, rfl⟩, rfl⟩, rfl⟩
      · refine ih _ _ ?_
        simp only [sparing_emit]
        exact ⟨⟨⟨⟨⟨⟨h, rfl⟩, rfl⟩, rfl⟩, rfl⟩, rfl⟩, rfl⟩

/-- Method `createCmdPool` destroys nothing. -/
theorem createCmdPool_sparing (d : Platform) (p : VulkanProgram) (h : Sparing p.trace) :
    Sparing (traceOf (createCmdPool d p)) := by
  unfold createCmdPool
  simp only [emit_window, emit_info, emit_vkResult]
  split
  · simp only [sparing_fail, sparing_emit]
    exact ⟨h, rfl⟩
  · refine recordLoop_sparing d _ _ _ ?_
    split <;>
    · simp only [sparing_emit]
      exact ⟨⟨h, rfl⟩, rfl⟩

/-- Method `createSemaphores` destroys nothing. -/
theorem createSemaphores_sparing (d : Platform) (p : VulkanProgram) (h : Sparing p.trace) :
    Sparing (traceOf (createSemaphores d p)) := by
  unfold createSemaphores
  simp only [emit_window, emit_info, emit_vkResult]
  repeat' split
  all_goals
    simp only [sparing_fail, traceOf_ok, sparing_emit]
    repeat' constructor
    all_goals exact h

/-- The set-up destroys nothing but shader modules, however it ends. -/
theorem setup_sparing (d : Platform) : Sparing (traceOf (setup d {})) := by
  unfold setup setupThroughCmdPool
  refine sparing_bind ?_ (fun p hp => createSemaphores_sparing d p hp)
  refine sparing_bind ?_ (fun p hp => createCmdPool_sparing d p hp)
  refine sparing_bind ?_ (fun p hp => createFramebuffer_sparing d p hp)
  refine sparing_bind ?_ (fun p hp => createShaderPipeline_sparing d p hp)
  refine sparing_bind ?_ (fun p hp => createGraphicsPipeline_sparing d p hp)
  refine sparing_bind ?_ (fun p hp => createSwapchain_sparing d p hp)
  refine sparing_bind ?_ (fun p hp => createDevice_sparing d p hp)
  refine sparing_bind ?_ (fun p hp => surfaceVulkanAndWindow_sparing d p hp)
  refine sparing_bind ?_ (fun p hp => createVulkanInstance_sparing d p hp)
  exact createGLFWWindow_sparing d {} rfl

/-- The calls of returning frames destroy nothing. -/
theorem sparing_frames (d : Platform) (info : VulkanProgramInfo) (l : List Nat) :
    Sparing (l.map (frameCalls d info)).flatten := by
  induction l with
  | nil => rfl
  | cons k l ih =>
    simp only [Sparing, List.map_cons, List.flatten_cons, List.all_append, Bool.and_eq_true]
    exact ⟨rfl, ih⟩

/-- What a sparing call is. -/
theorem sparesObjects_iff (c : Call) :
    c.sparesObjects = true ↔
      c.destroyed = none ∨ ∃ dev file, c = .vkDestroyShaderModule dev (.shaderModule file) := by
  cases c with
  | vkDestroyShaderModule dev h =>
    cases h <;> simp [Call.sparesObjects, Call.destroyed]
  | _ => simp [Call.sparesObjects, Call.destroyed]

/-- C25 (counterexample): on the platform on which everything succeeds
except the creation of the first framebuffer, the set-up aborts, and the
trace of the run holds the destruction of the two shader modules, which
the run created before. -/
theorem aborted_run_destroys_shader_modules :
    (run { samplePlatform 2 1 with vkCreateFramebuffer := fun _ => -1 } {}).toOption = none
      ∧ (setup { samplePlatform 2 1 with vkCreateFramebuffer := fun _ => -1 } {}).toOption = none
      ∧ destroyedObjects
          (traceOf (run { samplePlatform 2 1 with vkCreateFramebuffer := fun _ => -1 } {}))
          = [.shaderModule "../src/frag.spv", .shaderModule "../src/vert.spv"]
      ∧ Handle.shaderModule "../src/frag.spv" ∈ createdObjects
          (traceOf (run { samplePlatform 2 1 with vkCreateFramebuffer := fun _ => -1 } {}))
      ∧ Handle.shaderModule "../src/vert.spv" ∈ createdObjects
          (traceOf (run { samplePlatform 2 1 with vkCreateFramebuffer := fun _ => -1 } {}))
      ∧ (traceOf (run { samplePlatform 2 1 with vkCreateFramebuffer := fun _ => -1 } {})).drop 14
          = [.vkDestroyShaderModule .GPUDevice (.shaderModule "../src/frag.spv"),
             .vkDestroyShaderModule .GPUDevice (.shaderModule "../src/vert.spv"),
             .vkCreateFramebuffer .GPUDevice
               { renderPass := .renderPass, attachments := [.imageView 0],
                 width := 800, height := 500, layers := 1 } (.framebuffer 0) (-1),
             .print .cout "Failed to create swapchain framebuffer",
             .exit (-1)] := by
  refine ⟨rfl, rfl, by decide, by decide, by decide, by decide⟩

/-- C25 (amended): in a run that does not return, whether a set-up step
aborts or the frame loop ends the run, no destroy call is issued except
for shader modules, which `createShaderPipeline` destroys once the
pipeline exists.  A run returns only when the set-up has returned and
`vulkanProgramLoop` has returned; the calls of `cleanup` then follow the
device-wait-idle that ends the frame loop, and before them nothing but
shader modules has been destroyed either. -/
theorem no_cleanup_in_aborted_run (d : Platform) :
    (∀ e, run d {} = .error e →
        ∀ c ∈ e.2.trace, c.destroyed = none
          ∨ ∃ dev file, c = .vkDestroyShaderModule dev (.shaderModule file))
      ∧ (∀ e, setup d {} = .error e → run d {} = .error e)
      ∧ (∀ r, run d {} = .ok r →
          ∃ p q, setup d {} = .ok p ∧ vulkanProgramLoop d p = .ok q
            ∧ q.trace = p.trace
                ++ ((List.range d.framesBeforeClose).map
                      (frameCalls d p.vulkanProgramInfo)).flatten
                ++ [.vkDeviceWaitIdle p.vulkanProgramInfo.GPUDevice]
            ∧ r = cleanup d q
            ∧ r.trace = q.trace ++ cleanupCalls d q
            ∧ ∀ c ∈ q.trace, c.destroyed = none
                ∨ ∃ dev file, c = .vkDestroyShaderModule dev (.shaderModule file)) := by
  have hs := setup_sparing d
  have hall : ∀ t : List Call, Sparing t → ∀ c ∈ t, c.destroyed = none
      ∨ ∃ dev file, c = .vkDestroyShaderModule dev (.shaderModule file) := by
    intro t ht c hc
    exact (sparesObjects_iff c).1 (List.all_eq_true.1 ht c hc)
  cases hsetup : setup d {} with
  | error e0 =>
    rw [hsetup, traceOf_error] at hs
    have hrun : run d {} = .error e0 := by
      unfold run
      rw [hsetup]
      rfl
    refine ⟨?_, ?_, ?_⟩
    · intro e he
      rw [hrun] at he
      cases he
      exact hall _ hs
    · intro e he
      cases he
      exact hrun
    · intro r hr
      rw [hrun] at hr
      cases hr
  | ok p =>
    rw [hsetup, traceOf_ok] at hs
    cases hloop : vulkanProgramLoop d p with
    | error e1 =>
      obtain ⟨_, k, _, _, tr⟩ := vulkanProgramLoop_error hloop
      have hrun : run d {} = .error e1 := by
        unfold run
        rw [hsetup]
        simp only [bind, Except.bind, hloop]
      refine ⟨?_, ?_, ?_⟩
      · intro e he
        rw [hrun] at he
        cases he
        refine hall _ ?_
        rw [tr]
        simp only [Sparing, List.all_append, Bool.and_eq_true]
        exact ⟨⟨hs, sparing_frames d _ _⟩, rfl⟩
      · intro e he
        cases he
      · intro r hr
        rw [hrun] at hr
        cases hr
    | ok q =>
      obtain ⟨_, _, tr⟩ := vulkanProgramLoop_ok hloop
      have hrun : run d {} = .ok (cleanup d q) := by
        unfold run
        rw [hsetup]
        simp only [bind, Except.bind, hloop]
      refine ⟨?_, ?_, ?_⟩
      · intro e he
        rw [hrun] at he
        cases he
      · intro e he
        cases he
      · intro r hr
        rw [hrun] at hr
        cases hr
        refine ⟨p, q, rfl, hloop, tr, rfl, cleanup_trace d q, hall _ ?_⟩
        rw [tr]
        simp only [Sparing, List.all_append, Bool.and_eq_true]
        exact ⟨⟨hs, sparing_frames d _ _⟩, rfl⟩

/-- C25 (witness): the run in which the creation of the first framebuffer
fails does not return; the calls of its trace destroy nothing but shader
modules. -/
theorem no_cleanup_in_aborted_run_witness :
    ∀ c ∈ traceOf (run { samplePlatform 2 1 with vkCreateFramebuffer := fun _ => -1 } {}),
      c.destroyed = none
        ∨ ∃ dev file, c = .vkDestroyShaderModule dev (.shaderModule file) :=
  (no_cleanup_in_aborted_run { samplePlatform 2 1 with vkCreateFramebuffer := fun _ => -1 }).1
    (.exitFailure,
      stateOf (run { samplePlatform 2 1 with vkCreateFramebuffer := fun _ => -1 } {})) rfl

/-! ## The diagnostics channel in `cleanup` -/

/-- C8 (counterexample): on the platform on which every call succeeds and the
loader resolves the entry point that creates the diagnostics channel but
not the one that destroys it, the run returns with status 0, the channel
has been created, `cleanup` only logs a line for it and destroys the
instance: the channel is never destroyed, so it is not destroyed before
the instance. -/
theorem cleanup_leaves_messenger :
    ((main { samplePlatform 2 1 with
          vkGetInstanceProcAddr := fun name =>
            decide (name = "vkCreateDebugUtilsMessengerEXT") }).toOption.map
        fun r => r.1) = some 0
      ∧ Handle.debugMessenger ∈ createdObjects
          (traceOf (run { samplePlatform 2 1 with
            vkGetInstanceProcAddr := fun name =>
              decide (name = "vkCreateDebugUtilsMessengerEXT") } {}))
      ∧ Handle.debugMessenger ∉ destroyedObjects
          (traceOf (run { samplePlatform 2 1 with
            vkGetInstanceProcAddr := fun name =>
              decide (name = "vkCreateDebugUtilsMessengerEXT") } {}))
      ∧ Handle.vulkanInstance ∈ destroyedObjects
          (traceOf (run { samplePlatform 2 1 with
            vkGetInstanceProcAddr := fun name =>
              decide (name = "vkCreateDebugUtilsMessengerEXT") } {}))
      ∧ ¬ occursBefore .debugMessenger .vulkanInstance
          (destroyedObjects
            (traceOf (run { samplePlatform 2 1 with
              vkGetInstanceProcAddr := fun name =>
                decide (name = "vkCreateDebugUtilsMessengerEXT") } {})))
      ∧ (traceOf (run { samplePlatform 2 1 with
            vkGetInstanceProcAddr := fun name =>
              decide (name = "vkCreateDebugUtilsMessengerEXT") } {})).drop 52
          = [.vkDestroyDevice .GPUDevice,
             .print .cerr "Could not find vkDestroyDebugUtilsMessenger",
             .vkDestroySurfaceKHR .vulkanInstance .vulkanSurface,
             .vkDestroyInstance .vulkanInstance,
             .glfwDestroyWindow .window,
             .glfwTerminate] := by
  refine ⟨by decide, by decide, by decide, by decide, ?_, by decide⟩
  intro h
  have hm := h.subset (List.mem_cons_self _ _)
  revert hm
  decide

end VulkanTriangle
